import Mathlib

/-!
# task23.c : filesystem loss and recovery simulation

A shallow embedding of `src/task23.c`.  The C program talks to the operating
system through `mkdir`, `open`, `write`, `read`, `close`, `rename`, `unlink`,
`rmdir`, `sleep`, `printf` and `fprintf(stderr, ..)`.  The embedding is
parametric in the operating system: an `OS σ` gives, for every system call, its
return value and the next state of the world `σ`.  Every function of the C file
becomes a `Prog σ α`: a function from the world to a `Run`, which holds the
result (`Res`: normal return, `exit(status)`, or a memory fault), the final
world and the chronological log of events, each with the world right after it.

`posix` is one particular `OS World`: a deterministic model of the three paths
the program touches, without any other actor on the filesystem.
-/

set_option linter.unusedVariables false

namespace Task23

/-! ## Constants of the C file -/

/-- The macro `TEST_DIR`. -/
def TEST_DIR : String := "test_filesystem"

/-- The macro `TEST_FILE`. -/
def TEST_FILE : String := "test_filesystem/data.txt"

/-- The macro `TEMP_DIR`. -/
def TEMP_DIR : String := "test_filesystem_tmp"

/-- The macro `MAX_ATTEMPTS`. -/
def MAX_ATTEMPTS : Nat := 10

/-- The macro `SLEEP_INTERVAL`. -/
def SLEEP_INTERVAL : Nat := 2

/-- The local `content` of `create_test_environment`, as a list of bytes. -/
def content : List Char := "Test data for filesystem simulation\n".data

/-! ## Constants of the system headers (Linux values) -/

def EXIT_FAILURE : Int := 1
def ENOENT : Int := 2
def EBADF : Int := 9
def EBUSY : Int := 16
def EEXIST : Int := 17
def ENOTDIR : Int := 20
def EISDIR : Int := 21
def EINVAL : Int := 22
def EMFILE : Int := 24
def ENOTEMPTY : Int := 39
def O_RDONLY : Nat := 0
def O_WRONLY : Nat := 1
def O_CREAT : Nat := 64
def O_TRUNC : Nat := 512

/-- The byte `'\0'`. -/
def NUL : Char := Char.ofNat 0

/-! ## Events, results and programs -/

/-- An argument of a `printf` call. -/
inductive Arg where
  /-- A C string literal or macro (`%s`). -/
  | str (s : String)
  /-- The text of a NUL-terminated byte buffer (`%s`). -/
  | buf (bytes : List Char)
  /-- An integer (`%d`). -/
  | int (i : Int)
  /-- The text `strerror(errno)` for the given value of `errno` (`%s`). -/
  | strerror (errno : Int)
  deriving DecidableEq, Repr

/-- One observable action of the process: a system call with its arguments and
return value, or a line written to standard output or standard error. -/
inductive Event where
  | mkdir (path : String) (mode : Nat) (ret : Int)
  | open_ (path : String) (flags : Nat) (mode : Option Nat) (ret : Int)
  | write (fd : Int) (buf : List Char) (count : Nat) (ret : Int)
  | read (fd : Int) (count : Nat) (ret : Int)
  | close (fd : Int) (ret : Int)
  | rename (oldpath newpath : String) (ret : Int)
  | unlink (path : String) (ret : Int)
  | rmdir (path : String) (ret : Int)
  | sleep (seconds : Nat)
  | printf (format : String) (args : List Arg)
  | eprintf (format : String) (args : List Arg)
  deriving DecidableEq, Repr

/-- The operating system as the program sees it.  Each call maps the world to a
return value and the next world; `errno` reads the error number of the last
failed call.  `read` also gives the bytes it stored in the caller's buffer. -/
structure OS (σ : Type) where
  errno : σ → Int
  mkdir : String → Nat → σ → Int × σ
  open_ : String → Nat → Option Nat → σ → Int × σ
  write : Int → List Char → Nat → σ → Int × σ
  read : Int → Nat → σ → Int × List Char × σ
  close : Int → σ → Int × σ
  rename : String → String → σ → Int × σ
  unlink : String → σ → Int × σ
  rmdir : String → σ → Int × σ
  sleep : Nat → σ → Nat × σ

/-- How a C function stops: it returns a value, it calls `exit(status)`, or it
stores outside an array (undefined behaviour). -/
inductive Res (α : Type) where
  | ret (a : α)
  | exit (status : Int)
  | fault
  deriving DecidableEq, Repr

/-- The outcome of running a piece of the program from some world. -/
structure Run (σ α : Type) where
  res : Res α
  world : σ
  trace : List (Event × σ)

/-- A piece of the program. -/
def Prog (σ α : Type) : Type := σ → Run σ α

/-- Sequencing: the second part runs only when the first returned normally. -/
def Prog.bind {σ α β : Type} (m : Prog σ α) (f : α → Prog σ β) : Prog σ β := fun w =>
  match m w with
  | ⟨Res.ret a, w1, t1⟩ =>
    match f a w1 with
    | ⟨r, w2, t2⟩ => ⟨r, w2, t1 ++ t2⟩
  | ⟨Res.exit c, w1, t1⟩ => ⟨Res.exit c, w1, t1⟩
  | ⟨Res.fault, w1, t1⟩ => ⟨Res.fault, w1, t1⟩

instance {σ : Type} : Monad (Prog σ) where
  pure a := fun w => ⟨Res.ret a, w, []⟩
  bind := Prog.bind

section Primitives

variable {σ : Type}

/-- The C library call `exit(status)`. -/
def exit {α : Type} (status : Int) : Prog σ α := fun w => ⟨Res.exit status, w, []⟩

/-- Reading the variable `errno`. -/
def errno (os : OS σ) : Prog σ Int := fun w => ⟨Res.ret (os.errno w), w, []⟩

/-- The call `printf(format, args...)`. -/
def printf (format : String) (args : List Arg) : Prog σ Unit := fun w =>
  ⟨Res.ret (), w, [(Event.printf format args, w)]⟩

/-- The call `fprintf(stderr, format, args...)`. -/
def eprintf (format : String) (args : List Arg) : Prog σ Unit := fun w =>
  ⟨Res.ret (), w, [(Event.eprintf format args, w)]⟩

def mkdir (os : OS σ) (path : String) (mode : Nat) : Prog σ Int := fun w =>
  match os.mkdir path mode w with
  | (r, w1) => ⟨Res.ret r, w1, [(Event.mkdir path mode r, w1)]⟩

def open_ (os : OS σ) (path : String) (flags : Nat) (mode : Option Nat) : Prog σ Int := fun w =>
  match os.open_ path flags mode w with
  | (r, w1) => ⟨Res.ret r, w1, [(Event.open_ path flags mode r, w1)]⟩

def write (os : OS σ) (fd : Int) (buf : List Char) (count : Nat) : Prog σ Int := fun w =>
  match os.write fd buf count w with
  | (r, w1) => ⟨Res.ret r, w1, [(Event.write fd buf count r, w1)]⟩

/-- The call `read(fd, buffer, count)`: the bytes the system stored replace the
start of `buffer`, the rest of the buffer keeps its old bytes, and the buffer
keeps its size. -/
def read (os : OS σ) (fd : Int) (buffer : List Char) (count : Nat) :
    Prog σ (Int × List Char) := fun w =>
  match os.read fd count w with
  | (r, data, w1) =>
    ⟨Res.ret (r, (data ++ buffer.drop data.length).take buffer.length), w1,
      [(Event.read fd count r, w1)]⟩

def close (os : OS σ) (fd : Int) : Prog σ Int := fun w =>
  match os.close fd w with
  | (r, w1) => ⟨Res.ret r, w1, [(Event.close fd r, w1)]⟩

def rename (os : OS σ) (oldpath newpath : String) : Prog σ Int := fun w =>
  match os.rename oldpath newpath w with
  | (r, w1) => ⟨Res.ret r, w1, [(Event.rename oldpath newpath r, w1)]⟩

def unlink (os : OS σ) (path : String) : Prog σ Int := fun w =>
  match os.unlink path w with
  | (r, w1) => ⟨Res.ret r, w1, [(Event.unlink path r, w1)]⟩

def rmdir (os : OS σ) (path : String) : Prog σ Int := fun w =>
  match os.rmdir path w with
  | (r, w1) => ⟨Res.ret r, w1, [(Event.rmdir path r, w1)]⟩

def sleep (os : OS σ) (seconds : Nat) : Prog σ Nat := fun w =>
  match os.sleep seconds w with
  | (r, w1) => ⟨Res.ret r, w1, [(Event.sleep seconds, w1)]⟩

/-- The assignment `buffer[index] = c`: a fault when `index` is outside the array. -/
def store (buffer : List Char) (index : Int) (c : Char) : Prog σ (List Char) := fun w =>
  if 0 ≤ index ∧ index < buffer.length then ⟨Res.ret (buffer.set index.toNat c), w, []⟩
  else ⟨Res.fault, w, []⟩

/-- A local array of `n` bytes without initialiser.  Its bytes are indeterminate
in C; here each of them is `'?'`. -/
def indeterminate (n : Nat) : List Char := List.replicate n '?'

/-- The text `%s` prints for a buffer: its bytes up to the first NUL. -/
def c_str (buffer : List Char) : List Char := buffer.takeWhile (fun c => c != NUL)

end Primitives

/-! ## The functions of task23.c -/

section Program

variable {σ : Type}

/-- The function `create_test_environment` (lines 16-37). -/
def create_test_environment (os : OS σ) : Prog σ Unit := do
  let r ← mkdir os TEST_DIR 0o755
  let e ← errno os
  if r = -1 ∧ e ≠ EEXIST then do
    eprintf "Error creating directory %s: %s\n" [Arg.str TEST_DIR, Arg.strerror e]
    exit EXIT_FAILURE
  else do
    let fd ← open_ os TEST_FILE (O_CREAT ||| O_WRONLY ||| O_TRUNC) (some 0o644)
    if fd = -1 then do
      eprintf "Error creating file %s: %s\n" [Arg.str TEST_FILE, Arg.strerror (← errno os)]
      exit EXIT_FAILURE
    else do
      if (← write os fd content content.length) = -1 then do
        eprintf "Error writing to file %s: %s\n" [Arg.str TEST_FILE, Arg.strerror (← errno os)]
        let _ ← close os fd
        exit EXIT_FAILURE
      else do
        let _ ← close os fd
        printf "Test environment created: %s\n" [Arg.str TEST_FILE]

/-- The function `simulate_filesystem_loss` (lines 39-47). -/
def simulate_filesystem_loss (os : OS σ) : Prog σ Unit := do
  if (← rename os TEST_DIR TEMP_DIR) = -1 then do
    eprintf "Error simulating filesystem loss (rename %s to %s): %s\n"
      [Arg.str TEST_DIR, Arg.str TEMP_DIR, Arg.strerror (← errno os)]
    exit EXIT_FAILURE
  else
    printf "Filesystem loss simulated: %s is unavailable\n" [Arg.str TEST_DIR]

/-- The function `simulate_filesystem_recovery` (lines 49-57). -/
def simulate_filesystem_recovery (os : OS σ) : Prog σ Unit := do
  if (← rename os TEMP_DIR TEST_DIR) = -1 then do
    eprintf "Error simulating filesystem recovery (rename %s to %s): %s\n"
      [Arg.str TEMP_DIR, Arg.str TEST_DIR, Arg.strerror (← errno os)]
    exit EXIT_FAILURE
  else
    printf "Filesystem recovered: %s is available\n" [Arg.str TEST_DIR]

/-- The function `attempt_file_access` (lines 59-79). -/
def attempt_file_access (os : OS σ) : Prog σ Int := do
  let fd ← open_ os TEST_FILE O_RDONLY none
  if fd = -1 then do
    eprintf "Failed to access file %s: %s\n" [Arg.str TEST_FILE, Arg.strerror (← errno os)]
    pure (-1)
  else do
    let buffer : List Char := indeterminate 256
    let (bytes_read, buffer) ← read os fd buffer (256 - 1)
    if bytes_read = -1 then do
      eprintf "Error reading file %s: %s\n" [Arg.str TEST_FILE, Arg.strerror (← errno os)]
      let _ ← close os fd
      pure (-1)
    else do
      let buffer ← store buffer bytes_read NUL
      printf "Successfully read from file: %s" [Arg.buf (c_str buffer)]
      let _ ← close os fd
      pure 0

/-- The function `cleanup` (lines 81-93). -/
def cleanup (os : OS σ) : Prog σ Unit := do
  let r ← unlink os TEST_FILE
  let e ← errno os
  if r = -1 ∧ e ≠ ENOENT then
    eprintf "Error removing file %s: %s\n" [Arg.str TEST_FILE, Arg.strerror e]
  let r ← rmdir os TEST_DIR
  let e ← errno os
  if r = -1 ∧ e ≠ ENOENT then
    eprintf "Error removing directory %s: %s\n" [Arg.str TEST_DIR, Arg.strerror e]
  let r ← rmdir os TEMP_DIR
  let e ← errno os
  if r = -1 ∧ e ≠ ENOENT then
    eprintf "Error removing temporary directory %s: %s\n" [Arg.str TEMP_DIR, Arg.strerror e]
  printf "Cleanup completed\n" []

/-- The `while (attempt_count < MAX_ATTEMPTS)` loop of `main` (lines 113-122),
started with the current value of `attempt_count`; it returns the value of
`attempt_count` when the loop is left. -/
def retry_loop (os : OS σ) (attempt_count : Nat) : Prog σ Nat :=
  if h : attempt_count < MAX_ATTEMPTS then do
    if (← attempt_file_access os) = 0 then do
      printf "Unexpected file access success during loss\n" []
      pure attempt_count
    else do
      printf "Retrying in %d seconds... (Attempt %d/%d)\n"
        [Arg.int SLEEP_INTERVAL, Arg.int (attempt_count + 1), Arg.int MAX_ATTEMPTS]
      let _ ← sleep os SLEEP_INTERVAL
      retry_loop os (attempt_count + 1)
  else pure attempt_count
termination_by MAX_ATTEMPTS - attempt_count

/-- The function `main` (lines 95-141).  Returning `0` from `main` ends the
process with status `0`. -/
def main (os : OS σ) : Prog σ Int := do
  printf "Starting filesystem loss and recovery simulation\n" []
  create_test_environment os
  printf "Attempting file access before simulating loss...\n" []
  if (← attempt_file_access os) = 0 then
    printf "File access successful before loss\n" []
  simulate_filesystem_loss os
  printf "Attempting file access during simulated loss...\n" []
  let attempt_count ← retry_loop os 0
  simulate_filesystem_recovery os
  printf "Attempting file access after recovery...\n" []
  if (← attempt_file_access os) = 0 then
    printf "File access successful after recovery\n" []
  else do
    printf "File access failed after recovery\n" []
    cleanup os
    exit EXIT_FAILURE
  cleanup os
  printf "Simulation completed successfully\n" []
  pure 0

end Program

/-! ## A deterministic model of the filesystem

The model covers the three paths of the program and nothing else touches the
filesystem.  It is the permissive case: every object is readable and writable by
the process and a `write` stores all its bytes (the model `strict` further down
removes these assumptions).  The process
has one free descriptor (number 3) besides the standard streams, and the model
refuses to rename or remove anything while that descriptor is open (POSIX allows
`EBUSY` there), so an open descriptor always refers to
`test_filesystem/data.txt`. -/

/-- What the name `data.txt` inside a directory refers to. -/
inductive Entry where
  | file (bytes : List Char)
  | dir
  deriving DecidableEq, Repr

/-- A directory: its entry `data.txt`, if any, and the names of its other entries. -/
structure Dir where
  data : Option Entry
  others : List String
  deriving DecidableEq, Repr

/-- What a top-level path refers to. -/
inductive Node where
  | file (bytes : List Char)
  | dir (d : Dir)
  deriving DecidableEq, Repr

/-- The state of the open descriptor 3. -/
structure OpenFile where
  writable : Bool
  offset : Nat
  deriving DecidableEq, Repr

/-- The world of the model: what `test_filesystem` (active) and
`test_filesystem_tmp` (shadow) refer to, the descriptor, and `errno`. -/
structure World where
  active : Option Node
  shadow : Option Node
  fd : Option OpenFile
  errno : Int
  deriving DecidableEq, Repr

/-- A failing system call: it returns `-1` and sets `errno`. -/
def World.fail (w : World) (e : Int) : Int × World := (-1, { w with errno := e })

/-- Whether a directory has no entry at all. -/
def Dir.isEmpty (d : Dir) : Bool := d.data.isNone && d.others.isEmpty

/-- The model of `mkdir`. -/
def posix_mkdir (path : String) (mode : Nat) (w : World) : Int × World :=
  if path = TEST_DIR then
    match w.active with
    | some _ => w.fail EEXIST
    | none => (0, { w with active := some (Node.dir ⟨none, []⟩) })
  else if path = TEMP_DIR then
    match w.shadow with
    | some _ => w.fail EEXIST
    | none => (0, { w with shadow := some (Node.dir ⟨none, []⟩) })
  else w.fail ENOENT

/-- The model of `open` on `test_filesystem/data.txt`, for the two flag sets
the program uses. -/
def posix_open (path : String) (flags : Nat) (mode : Option Nat) (w : World) : Int × World :=
  if path = TEST_FILE then
    match w.fd with
    | some _ => w.fail EMFILE
    | none =>
      match w.active with
      | none => w.fail ENOENT
      | some (Node.file _) => w.fail ENOTDIR
      | some (Node.dir d) =>
        if flags = O_RDONLY then
          match d.data with
          | none => w.fail ENOENT
          | some _ => (3, { w with fd := some ⟨false, 0⟩ })
        else if flags = (O_CREAT ||| O_WRONLY ||| O_TRUNC) then
          match d.data with
          | some Entry.dir => w.fail EISDIR
          | _ => (3, { w with active := some (Node.dir { d with data := some (Entry.file []) }),
                              fd := some ⟨true, 0⟩ })
        else w.fail EINVAL
  else w.fail ENOENT

/-- The bytes of a file after `count` bytes of `buf` are written at `offset`. -/
def writeAt (bytes : List Char) (offset : Nat) (buf : List Char) (count : Nat) : List Char :=
  bytes.take offset ++ List.replicate (offset - bytes.length) NUL ++ buf.take count
    ++ bytes.drop (offset + count)

/-- The model of `write`: a regular file takes all the bytes. -/
def posix_write (fd : Int) (buf : List Char) (count : Nat) (w : World) : Int × World :=
  if fd = 3 then
    match w.fd, w.active with
    | some ⟨true, off⟩, some (Node.dir ⟨some (Entry.file bytes), others⟩) =>
      ((min count buf.length : Nat),
        { w with active := some (Node.dir ⟨some (Entry.file (writeAt bytes off buf count)), others⟩),
                 fd := some ⟨true, off + min count buf.length⟩ })
    | _, _ => w.fail EBADF
  else w.fail EBADF

/-- The model of `read`: up to `count` bytes of the file from the current offset. -/
def posix_read (fd : Int) (count : Nat) (w : World) : Int × List Char × World :=
  if fd = 3 then
    match w.fd, w.active with
    | some ⟨false, off⟩, some (Node.dir ⟨some (Entry.file bytes), others⟩) =>
      (((bytes.drop off).take count).length, (bytes.drop off).take count,
        { w with fd := some ⟨false, off + ((bytes.drop off).take count).length⟩ })
    | some ⟨false, off⟩, some (Node.dir ⟨some Entry.dir, others⟩) =>
      (-1, [], { w with errno := EISDIR })
    | _, _ => (-1, [], { w with errno := EBADF })
  else (-1, [], { w with errno := EBADF })

/-- The model of `close`. -/
def posix_close (fd : Int) (w : World) : Int × World :=
  if fd = 3 then
    match w.fd with
    | some _ => (0, { w with fd := none })
    | none => w.fail EBADF
  else w.fail EBADF

/-- Moving the object at one top-level path onto another, as `rename` does. -/
def renameNode (src : Node) (dst : Option Node) : Except Int Node :=
  match src, dst with
  | _, none => Except.ok src
  | Node.dir _, some (Node.dir d) => if d.isEmpty then Except.ok src else Except.error ENOTEMPTY
  | Node.dir _, some (Node.file _) => Except.error ENOTDIR
  | Node.file _, some (Node.file _) => Except.ok src
  | Node.file _, some (Node.dir _) => Except.error EISDIR

/-- The model of `rename` between the active and the shadow path. -/
def posix_rename (oldpath newpath : String) (w : World) : Int × World :=
  if w.fd.isSome then w.fail EBUSY
  else if oldpath = TEST_DIR ∧ newpath = TEMP_DIR then
    match w.active with
    | none => w.fail ENOENT
    | some src =>
      match renameNode src w.shadow with
      | Except.ok n => (0, { w with active := none, shadow := some n })
      | Except.error e => w.fail e
  else if oldpath = TEMP_DIR ∧ newpath = TEST_DIR then
    match w.shadow with
    | none => w.fail ENOENT
    | some src =>
      match renameNode src w.active with
      | Except.ok n => (0, { w with active := some n, shadow := none })
      | Except.error e => w.fail e
  else w.fail ENOENT

/-- The model of `unlink`. -/
def posix_unlink (path : String) (w : World) : Int × World :=
  if w.fd.isSome then w.fail EBUSY
  else if path = TEST_FILE then
    match w.active with
    | none => w.fail ENOENT
    | some (Node.file _) => w.fail ENOTDIR
    | some (Node.dir d) =>
      match d.data with
      | none => w.fail ENOENT
      | some Entry.dir => w.fail EISDIR
      | some (Entry.file _) => (0, { w with active := some (Node.dir { d with data := none }) })
  else w.fail ENOENT

/-- Removing a directory, as `rmdir` does. -/
def rmdirNode (n : Option Node) : Except Int Unit :=
  match n with
  | none => Except.error ENOENT
  | some (Node.file _) => Except.error ENOTDIR
  | some (Node.dir d) => if d.isEmpty then Except.ok () else Except.error ENOTEMPTY

/-- The model of `rmdir`. -/
def posix_rmdir (path : String) (w : World) : Int × World :=
  if w.fd.isSome then w.fail EBUSY
  else if path = TEST_DIR then
    match rmdirNode w.active with
    | Except.ok _ => (0, { w with active := none })
    | Except.error e => w.fail e
  else if path = TEMP_DIR then
    match rmdirNode w.shadow with
    | Except.ok _ => (0, { w with shadow := none })
    | Except.error e => w.fail e
  else w.fail ENOENT

/-- The model of `sleep`: the full time passes and nothing changes. -/
def posix_sleep (seconds : Nat) (w : World) : Nat × World := (0, w)

/-- The filesystem model as an operating system. -/
def posix : OS World where
  errno := World.errno
  mkdir := posix_mkdir
  open_ := posix_open
  write := posix_write
  read := posix_read
  close := posix_close
  rename := posix_rename
  unlink := posix_unlink
  rmdir := posix_rmdir
  sleep := posix_sleep

/-- A world with neither `test_filesystem` nor `test_filesystem_tmp`, no open
descriptor, and the given `errno`. -/
def cleanWorld (e : Int) : World := ⟨none, none, none, e⟩

/-! ## The model with permissions, limits and short writes

In `posix` no permission is ever refused, a `write` stores all its bytes and the
descriptor is always number 3.  `strict` removes these assumptions.  The process
owns the objects without being privileged, so only the owner bits of a mode
count: `open` and `unlink` obey the mode of the directory and of `data.txt`
(the working directory itself stays searchable and writable), and a created
object gets the requested mode without the bits of the umask.  A file cannot
grow beyond the file size limit of the process (`RLIMIT_FSIZE`, with `SIGXFSZ`
ignored), so a `write` may store fewer bytes than asked.  `open` returns the
lowest free descriptor number `firstFree`, which counts every descriptor that is
open when a function of the program is called, and fails with `EMFILE` when
that number reaches the descriptor limit (`RLIMIT_NOFILE`).  The field
`base.fd` is the descriptor the running function itself opened on `data.txt`;
every function of the program closes it before it returns. -/

def EACCES : Int := 13
def EFBIG : Int := 27

/-- The owner may read (bit 0400 of the mode). -/
def ownerRead (mode : Nat) : Bool := mode.testBit 8

/-- The owner may write (bit 0200 of the mode). -/
def ownerWrite (mode : Nat) : Bool := mode.testBit 7

/-- The owner may search the directory (bit 0100 of the mode). -/
def ownerSearch (mode : Nat) : Bool := mode.testBit 6

/-- The mode of a created object: the requested mode without the bits of the
umask. -/
def createdMode (mode umask : Nat) : Nat := mode &&& (0o777 ^^^ (umask &&& 0o777))

/-- The world of the model with permissions: the world of `posix`, the modes of
the directory at each of the two paths and of the `data.txt` in it (they mean
nothing while the object does not exist), the umask, the file size limit, the
lowest free descriptor number and the descriptor limit. -/
structure Strict where
  base : World
  dirMode : Nat
  fileMode : Nat
  shadowDirMode : Nat
  shadowFileMode : Nat
  umask : Nat
  sizeLimit : Nat
  firstFree : Nat
  fdLimit : Nat
  deriving DecidableEq, Repr

/-- A failing system call: it returns `-1` and sets `errno`. -/
def Strict.fail (sw : Strict) (e : Int) : Int × Strict :=
  (-1, { sw with base := { sw.base with errno := e } })

/-- A call that acts on the paths as in `posix`. -/
def Strict.lift (f : World → Int × World) (sw : Strict) : Int × Strict :=
  match f sw.base with
  | (r, b) => (r, { sw with base := b })

/-- The model of `mkdir`: as in `posix`, and a created directory gets the mode
`mode & ~umask`. -/
def strict_mkdir (path : String) (mode : Nat) (sw : Strict) : Int × Strict :=
  match posix_mkdir path mode sw.base with
  | (r, b) =>
    (r, { sw with
      base := b,
      dirMode := if path = TEST_DIR ∧ r = 0 then createdMode mode sw.umask else sw.dirMode,
      shadowDirMode :=
        if path = TEMP_DIR ∧ r = 0 then createdMode mode sw.umask else sw.shadowDirMode })

/-- Whether `open` on `test_filesystem/data.txt` is refused for lack of
permission: the directory must be searchable; an existing `data.txt` must be
readable for `O_RDONLY` and, when it is a regular file, writable for the flags
that write; creating it needs write permission on the directory. -/
def openDenied (flags : Nat) (sw : Strict) : Bool :=
  match sw.base.active with
  | some (Node.dir d) =>
    !ownerSearch sw.dirMode ||
      (match d.data with
       | some (Entry.file _) =>
         if flags = O_RDONLY then !ownerRead sw.fileMode else !ownerWrite sw.fileMode
       | some Entry.dir => if flags = O_RDONLY then !ownerRead sw.fileMode else false
       | none => if flags = O_RDONLY then false else !ownerWrite sw.dirMode)
  | _ => false

/-- Whether `open` with these flags creates `data.txt`. -/
def openCreates (flags : Nat) (sw : Strict) : Bool :=
  match sw.base.active with
  | some (Node.dir d) => d.data.isNone && flags != O_RDONLY
  | _ => false

/-- The model of `open`: `EMFILE` when no descriptor is free, `EACCES` when the
permission is missing, else as in `posix` with the descriptor number
`firstFree`; a created file gets the mode `mode & ~umask`, whatever access the
descriptor has. -/
def strict_open (path : String) (flags : Nat) (mode : Option Nat) (sw : Strict) :
    Int × Strict :=
  if path = TEST_FILE then
    if sw.fdLimit ≤ sw.firstFree then sw.fail EMFILE
    else if openDenied flags sw = true then sw.fail EACCES
    else
      match posix_open path flags mode sw.base with
      | (r, b) =>
        (if r = -1 then -1 else (sw.firstFree : Int),
          { sw with
            base := b,
            fileMode :=
              if r ≠ -1 ∧ openCreates flags sw = true then createdMode (mode.getD 0) sw.umask
              else sw.fileMode })
  else Strict.lift (posix_open path flags mode) sw

/-- The offset of the descriptor of the running function, 0 when it is closed. -/
def Strict.offset (sw : Strict) : Nat :=
  match sw.base.fd with
  | some f => f.offset
  | none => 0

/-- The model of `write`: the file takes the bytes that fit below the file size
limit; when none fits the call fails with `EFBIG`. -/
def strict_write (fd : Int) (buf : List Char) (count : Nat) (sw : Strict) : Int × Strict :=
  if fd = (sw.firstFree : Int) then
    if sw.sizeLimit ≤ sw.offset ∧ 0 < count ∧ sw.base.fd.isSome = true then sw.fail EFBIG
    else Strict.lift (posix_write 3 buf (min count (sw.sizeLimit - sw.offset))) sw
  else sw.fail EBADF

/-- The model of `read`: as in `posix`, on the descriptor `firstFree`. -/
def strict_read (fd : Int) (count : Nat) (sw : Strict) : Int × List Char × Strict :=
  if fd = (sw.firstFree : Int) then
    match posix_read 3 count sw.base with
    | (r, data, b) => (r, data, { sw with base := b })
  else (-1, [], { sw with base := { sw.base with errno := EBADF } })

/-- The model of `close`: as in `posix`, on the descriptor `firstFree`. -/
def strict_close (fd : Int) (sw : Strict) : Int × Strict :=
  if fd = (sw.firstFree : Int) then Strict.lift (posix_close 3) sw else sw.fail EBADF

/-- The model of `rename`: as in `posix`; the modes move with the directory. -/
def strict_rename (oldpath newpath : String) (sw : Strict) : Int × Strict :=
  match posix_rename oldpath newpath sw.base with
  | (r, b) =>
    if r = 0 ∧ oldpath = TEST_DIR then
      (r, { sw with base := b, shadowDirMode := sw.dirMode, shadowFileMode := sw.fileMode })
    else if r = 0 ∧ oldpath = TEMP_DIR then
      (r, { sw with base := b, dirMode := sw.shadowDirMode, fileMode := sw.shadowFileMode })
    else (r, { sw with base := b })

/-- Whether `unlink` of `test_filesystem/data.txt` is refused for lack of
permission: the directory must be searchable, and writable to remove an entry. -/
def unlinkDenied (sw : Strict) : Bool :=
  match sw.base.active with
  | some (Node.dir d) => !ownerSearch sw.dirMode || (d.data.isSome && !ownerWrite sw.dirMode)
  | _ => false

/-- The model of `unlink`: `EACCES` when the permission is missing, else as in
`posix`. -/
def strict_unlink (path : String) (sw : Strict) : Int × Strict :=
  if path = TEST_FILE ∧ unlinkDenied sw = true then sw.fail EACCES
  else Strict.lift (posix_unlink path) sw

/-- The model with permissions as an operating system. -/
def strict : OS Strict where
  errno := fun sw => sw.base.errno
  mkdir := strict_mkdir
  open_ := strict_open
  write := strict_write
  read := strict_read
  close := strict_close
  rename := strict_rename
  unlink := strict_unlink
  rmdir := fun path => Strict.lift (posix_rmdir path)
  sleep := fun _ sw => (0, sw)

/-- A world of `strict` in which nothing is refused: the given paths, modes
0755 and 0644, umask 022, no limit on the size of a file below 2^31 bytes,
descriptor 3 free, and the usual limit of 1024 descriptors. -/
def permissive (b : World) : Strict :=
  ⟨b, 0o755, 0o644, 0o755, 0o644, 0o022, 2147483648, 3, 1024⟩

/-! ## Observations on runs and event logs -/

section Observations

variable {σ : Type}

/-- The events before `t` are put in front of the log of a run. -/
def Run.after {α : Type} (t : List (Event × σ)) (r : Run σ α) : Run σ α :=
  ⟨r.res, r.world, t ++ r.trace⟩

/-- The events of a log, without the worlds. -/
def events (t : List (Event × σ)) : List Event := t.map Prod.fst

/-- The first system call of `attempt_file_access`: one per probe. -/
def isProbe : Event → Bool
  | Event.open_ path flags none _ => path == TEST_FILE && flags == O_RDONLY
  | _ => false

/-- A call of `sleep`. -/
def isSleep : Event → Bool
  | Event.sleep _ => true
  | _ => false

/-- The seconds a call of `sleep` asks for. -/
def sleepSeconds : Event → Nat
  | Event.sleep n => n
  | _ => 0

/-- The line `attempt_file_access` prints right before it returns `0`. -/
def isProbeSuccess : Event → Bool
  | Event.printf format _ => format == "Successfully read from file: %s"
  | _ => false

/-- One of the two lines `attempt_file_access` prints before it returns `-1`. -/
def isProbeFailure : Event → Bool
  | Event.eprintf format _ =>
    format == "Failed to access file %s: %s\n" || format == "Error reading file %s: %s\n"
  | _ => false

/-- A line on standard error. -/
def isStderr : Event → Bool
  | Event.eprintf _ _ => true
  | _ => false

/-- A system call (anything but output). -/
def isSyscall : Event → Bool
  | Event.printf _ _ => false
  | Event.eprintf _ _ => false
  | _ => true

/-- The line the retry loop prints when a probe succeeds. -/
def isUnexpected : Event → Bool
  | Event.printf format _ => format == "Unexpected file access success during loss\n"
  | _ => false

/-- The line `main` prints when the probe after recovery returned `0`. -/
def isRecoveredOk : Event → Bool
  | Event.printf format _ => format == "File access successful after recovery\n"
  | _ => false

/-- The line `main` prints when the probe after recovery did not return `0`. -/
def isRecoveredBad : Event → Bool
  | Event.printf format _ => format == "File access failed after recovery\n"
  | _ => false

/-- A line that `main` prints itself, in its body or in its retry loop. -/
def isMainLine : Event → Bool
  | Event.printf format _ =>
    format == "Starting filesystem loss and recovery simulation\n" ||
    format == "Attempting file access before simulating loss...\n" ||
    format == "File access successful before loss\n" ||
    format == "Attempting file access during simulated loss...\n" ||
    format == "Unexpected file access success during loss\n" ||
    format == "Retrying in %d seconds... (Attempt %d/%d)\n" ||
    format == "Attempting file access after recovery...\n" ||
    format == "File access successful after recovery\n" ||
    format == "File access failed after recovery\n" ||
    format == "Simulation completed successfully\n"
  | _ => false

/-- A call `rename(oldpath, newpath)` that did not return `-1`. -/
def isRenameOk (oldpath newpath : String) : Event → Bool
  | Event.rename p q r => p == oldpath && q == newpath && r != -1
  | _ => false

/-- A call of `mkdir`. -/
def isMkdir : Event → Bool
  | Event.mkdir _ _ _ => true
  | _ => false

/-- A call of `rmdir`. -/
def isRmdir : Event → Bool
  | Event.rmdir _ _ => true
  | _ => false

/-- A removal call of `cleanup` that failed with an error other than `ENOENT`,
judged by its return value and by `errno` right after it. -/
def removalError (os : OS σ) (x : Event × σ) : Bool :=
  match x.1 with
  | Event.unlink _ r => r == -1 && os.errno x.2 != ENOENT
  | Event.rmdir _ r => r == -1 && os.errno x.2 != ENOENT
  | _ => false

/-- Number of probes in a log. -/
def probes (t : List (Event × σ)) : Nat := (events t).countP isProbe

/-- Number of `sleep` calls in a log. -/
def sleeps (t : List (Event × σ)) : Nat := (events t).countP isSleep

/-- Number of failed probes in a log. -/
def failures (t : List (Event × σ)) : Nat := (events t).countP isProbeFailure

/-- Total number of seconds the `sleep` calls of a log ask for. -/
def sleptSeconds (t : List (Event × σ)) : Nat := ((events t).map sleepSeconds).sum

/-- The contract of `read`: it returns `-1`, or the number of bytes it stored,
which is at most `count`. -/
def ReadOk (os : OS σ) : Prop :=
  ∀ fd count w, (os.read fd count w).1 = -1 ∨
    (0 ≤ (os.read fd count w).1 ∧ (os.read fd count w).1 ≤ count ∧
      ((os.read fd count w).2.1.length : Int) = (os.read fd count w).1)

/-- The exit status of the process after `main`: the value `main` returns or
the argument of `exit`; none after a fault. -/
def exitStatus : Res Int → Option Int
  | Res.ret v => some v
  | Res.exit c => some c
  | Res.fault => none

/-- The part of a log from the first event of the given kind on. -/
def fromFirst (p : Event → Bool) (t : List (Event × σ)) : List (Event × σ) :=
  t.dropWhile (fun x => !p x.1)

/-- The result and world of the `unlink` call of `cleanup`. -/
def cleanupUnlink (os : OS σ) (w : σ) : Int × σ := os.unlink TEST_FILE w

/-- The result and world of the first `rmdir` call of `cleanup`. -/
def cleanupRmdir (os : OS σ) (w : σ) : Int × σ := os.rmdir TEST_DIR (cleanupUnlink os w).2

/-- The result and world of the second `rmdir` call of `cleanup`. -/
def cleanupRmtmp (os : OS σ) (w : σ) : Int × σ := os.rmdir TEMP_DIR (cleanupRmdir os w).2

/-- The result and world of the `open` call of a probe. -/
def probeOpen (os : OS σ) (w : σ) : Int × σ := os.open_ TEST_FILE O_RDONLY none w

/-- The result, bytes and world of the `read` call of a probe. -/
def probeRead (os : OS σ) (w : σ) : Int × List Char × σ :=
  os.read (probeOpen os w).1 255 (probeOpen os w).2

/-- The result and world of the `close` call of a probe. -/
def probeClose (os : OS σ) (w : σ) : Int × σ :=
  os.close (probeOpen os w).1 (probeRead os w).2.2

/-- The buffer of a probe after its `read` call. -/
def probeBuffer (os : OS σ) (w : σ) : List Char :=
  ((probeRead os w).2.1 ++ (indeterminate 256).drop (probeRead os w).2.1.length).take
    (indeterminate 256).length

/-- The four ways a probe can run: `open` fails, `read` fails, the probe
succeeds, or the terminating NUL is stored outside the buffer. -/
inductive ProbeShape : Run σ Int → Prop where
  | openFailed (w1 : σ) (e : Int) :
    ProbeShape ⟨Res.ret (-1), w1,
      [(Event.open_ TEST_FILE O_RDONLY none (-1), w1),
       (Event.eprintf "Failed to access file %s: %s\n" [Arg.str TEST_FILE, Arg.strerror e], w1)]⟩
  | readFailed (fd : Int) (w1 w2 : σ) (e c : Int) (w3 : σ) :
    ProbeShape ⟨Res.ret (-1), w3,
      [(Event.open_ TEST_FILE O_RDONLY none fd, w1),
       (Event.read fd 255 (-1), w2),
       (Event.eprintf "Error reading file %s: %s\n" [Arg.str TEST_FILE, Arg.strerror e], w2),
       (Event.close fd c, w3)]⟩
  | ok (fd : Int) (w1 : σ) (r : Int) (w2 : σ) (text : List Char) (c : Int) (w3 : σ) :
    ProbeShape ⟨Res.ret 0, w3,
      [(Event.open_ TEST_FILE O_RDONLY none fd, w1),
       (Event.read fd 255 r, w2),
       (Event.printf "Successfully read from file: %s" [Arg.buf text], w2),
       (Event.close fd c, w3)]⟩
  | outOfBounds (fd : Int) (w1 : σ) (r : Int) (w2 : σ) (h : ¬(0 ≤ r ∧ r < 256)) :
    ProbeShape ⟨Res.fault, w2,
      [(Event.open_ TEST_FILE O_RDONLY none fd, w1),
       (Event.read fd 255 r, w2)]⟩

/-- The ways the retry loop can run from a given value of `attempt_count`. -/
inductive LoopShape (os : OS σ) : Nat → Run σ Nat → Prop where
  | done (ac : Nat) (w : σ) (h : ¬ac < MAX_ATTEMPTS) : LoopShape os ac ⟨Res.ret ac, w, []⟩
  | ok (ac : Nat) (w1 : σ) (t : List (Event × σ)) (h : ac < MAX_ATTEMPTS)
    (hp : ProbeShape ⟨Res.ret 0, w1, t⟩) :
    LoopShape os ac ⟨Res.ret ac, w1,
      t ++ [(Event.printf "Unexpected file access success during loss\n" [], w1)]⟩
  | outOfBounds (ac : Nat) (w1 : σ) (t : List (Event × σ)) (h : ac < MAX_ATTEMPTS)
    (hp : ProbeShape ⟨Res.fault, w1, t⟩) :
    LoopShape os ac ⟨Res.fault, w1, t⟩
  | retry (ac : Nat) (w1 : σ) (t : List (Event × σ)) (R : Run σ Nat) (h : ac < MAX_ATTEMPTS)
    (hp : ProbeShape ⟨Res.ret (-1), w1, t⟩) (hR : LoopShape os (ac + 1) R) :
    LoopShape os ac (Run.after
      (t ++ [(Event.printf "Retrying in %d seconds... (Attempt %d/%d)\n"
                [Arg.int SLEEP_INTERVAL, Arg.int (ac + 1), Arg.int MAX_ATTEMPTS], w1),
             (Event.sleep SLEEP_INTERVAL, (os.sleep SLEEP_INTERVAL w1).2)]) R)

/-- A line without arguments on standard output, with the world it is printed in. -/
def lineAt (format : String) (w : σ) : Event × σ := (Event.printf format [], w)

/-- The line `main` prints after the probe before the loss, when that probe
returned `0`. -/
def lineBefore (r : Int) (w : σ) : List (Event × σ) :=
  if r = 0 then [lineAt "File access successful before loss\n" w] else []

/-- The log of `main` up to the end of the retry loop. -/
def logToLoop (w : σ) (tC : List (Event × σ)) (wC : σ) (tP : List (Event × σ)) (r : Int)
    (wP : σ) (tL : List (Event × σ)) (wL : σ) (tLp : List (Event × σ)) : List (Event × σ) :=
  lineAt "Starting filesystem loss and recovery simulation\n" w :: (tC ++
    lineAt "Attempting file access before simulating loss...\n" wC :: (tP ++ (lineBefore r wP ++
      (tL ++ lineAt "Attempting file access during simulated loss...\n" wL :: tLp))))

/-- The ways `main` can run from the world `w`: it stops in one of its steps,
or it reaches the probe after recovery and ends with status 1 or 0. -/
inductive MainShape (os : OS σ) (w : σ) : Run σ Int → Prop where
  | provision (wC : σ) (tC : List (Event × σ))
    (hC : create_test_environment os w = ⟨Res.exit EXIT_FAILURE, wC, tC⟩) :
    MainShape os w ⟨Res.exit EXIT_FAILURE, wC,
      lineAt "Starting filesystem loss and recovery simulation\n" w :: tC⟩
  | probeBefore (wC : σ) (tC : List (Event × σ)) (wP : σ) (tP : List (Event × σ))
    (hC : create_test_environment os w = ⟨Res.ret (), wC, tC⟩)
    (hP : attempt_file_access os wC = ⟨Res.fault, wP, tP⟩) :
    MainShape os w ⟨Res.fault, wP,
      lineAt "Starting filesystem loss and recovery simulation\n" w :: (tC ++
        lineAt "Attempting file access before simulating loss...\n" wC :: tP)⟩
  | loss (wC : σ) (tC : List (Event × σ)) (r : Int) (wP : σ) (tP : List (Event × σ))
    (wL : σ) (tL : List (Event × σ))
    (hC : create_test_environment os w = ⟨Res.ret (), wC, tC⟩)
    (hP : attempt_file_access os wC = ⟨Res.ret r, wP, tP⟩)
    (hL : simulate_filesystem_loss os wP = ⟨Res.exit EXIT_FAILURE, wL, tL⟩) :
    MainShape os w ⟨Res.exit EXIT_FAILURE, wL,
      lineAt "Starting filesystem loss and recovery simulation\n" w :: (tC ++
        lineAt "Attempting file access before simulating loss...\n" wC :: (tP ++
          (lineBefore r wP ++ tL)))⟩
  | loop (wC : σ) (tC : List (Event × σ)) (r : Int) (wP : σ) (tP : List (Event × σ))
    (wL : σ) (tL : List (Event × σ)) (wLp : σ) (tLp : List (Event × σ))
    (hC : create_test_environment os w = ⟨Res.ret (), wC, tC⟩)
    (hP : attempt_file_access os wC = ⟨Res.ret r, wP, tP⟩)
    (hL : simulate_filesystem_loss os wP = ⟨Res.ret (), wL, tL⟩)
    (hLp : retry_loop os 0 wL = ⟨Res.fault, wLp, tLp⟩) :
    MainShape os w ⟨Res.fault, wLp, logToLoop w tC wC tP r wP tL wL tLp⟩
  | recovery (wC : σ) (tC : List (Event × σ)) (r : Int) (wP : σ) (tP : List (Event × σ))
    (wL : σ) (tL : List (Event × σ)) (k : Nat) (wLp : σ) (tLp : List (Event × σ))
    (wR : σ) (tR : List (Event × σ))
    (hC : create_test_environment os w = ⟨Res.ret (), wC, tC⟩)
    (hP : attempt_file_access os wC = ⟨Res.ret r, wP, tP⟩)
    (hL : simulate_filesystem_loss os wP = ⟨Res.ret (), wL, tL⟩)
    (hLp : retry_loop os 0 wL = ⟨Res.ret k, wLp, tLp⟩)
    (hR : simulate_filesystem_recovery os wLp = ⟨Res.exit EXIT_FAILURE, wR, tR⟩) :
    MainShape os w ⟨Res.exit EXIT_FAILURE, wR, logToLoop w tC wC tP r wP tL wL tLp ++ tR⟩
  | probeAfter (wC : σ) (tC : List (Event × σ)) (r : Int) (wP : σ) (tP : List (Event × σ))
    (wL : σ) (tL : List (Event × σ)) (k : Nat) (wLp : σ) (tLp : List (Event × σ))
    (wR : σ) (tR : List (Event × σ)) (wQ : σ) (tQ : List (Event × σ))
    (hC : create_test_environment os w = ⟨Res.ret (), wC, tC⟩)
    (hP : attempt_file_access os wC = ⟨Res.ret r, wP, tP⟩)
    (hL : simulate_filesystem_loss os wP = ⟨Res.ret (), wL, tL⟩)
    (hLp : retry_loop os 0 wL = ⟨Res.ret k, wLp, tLp⟩)
    (hR : simulate_filesystem_recovery os wLp = ⟨Res.ret (), wR, tR⟩)
    (hQ : attempt_file_access os wR = ⟨Res.fault, wQ, tQ⟩) :
    MainShape os w ⟨Res.fault, wQ, logToLoop w tC wC tP r wP tL wL tLp ++ (tR ++
      lineAt "Attempting file access after recovery...\n" wR :: tQ)⟩
  | failed (wC : σ) (tC : List (Event × σ)) (r : Int) (wP : σ) (tP : List (Event × σ))
    (wL : σ) (tL : List (Event × σ)) (k : Nat) (wLp : σ) (tLp : List (Event × σ))
    (wR : σ) (tR : List (Event × σ)) (q : Int) (wQ : σ) (tQ : List (Event × σ))
    (hC : create_test_environment os w = ⟨Res.ret (), wC, tC⟩)
    (hP : attempt_file_access os wC = ⟨Res.ret r, wP, tP⟩)
    (hL : simulate_filesystem_loss os wP = ⟨Res.ret (), wL, tL⟩)
    (hLp : retry_loop os 0 wL = ⟨Res.ret k, wLp, tLp⟩)
    (hR : simulate_filesystem_recovery os wLp = ⟨Res.ret (), wR, tR⟩)
    (hQ : attempt_file_access os wR = ⟨Res.ret q, wQ, tQ⟩) (hq : q ≠ 0) :
    MainShape os w ⟨Res.exit EXIT_FAILURE, (cleanup os wQ).world,
      logToLoop w tC wC tP r wP tL wL tLp ++ (tR ++
        lineAt "Attempting file access after recovery...\n" wR :: (tQ ++
          lineAt "File access failed after recovery\n" wQ :: (cleanup os wQ).trace))⟩
  | success (wC : σ) (tC : List (Event × σ)) (r : Int) (wP : σ) (tP : List (Event × σ))
    (wL : σ) (tL : List (Event × σ)) (k : Nat) (wLp : σ) (tLp : List (Event × σ))
    (wR : σ) (tR : List (Event × σ)) (wQ : σ) (tQ : List (Event × σ))
    (hC : create_test_environment os w = ⟨Res.ret (), wC, tC⟩)
    (hP : attempt_file_access os wC = ⟨Res.ret r, wP, tP⟩)
    (hL : simulate_filesystem_loss os wP = ⟨Res.ret (), wL, tL⟩)
    (hLp : retry_loop os 0 wL = ⟨Res.ret k, wLp, tLp⟩)
    (hR : simulate_filesystem_recovery os wLp = ⟨Res.ret (), wR, tR⟩)
    (hQ : attempt_file_access os wR = ⟨Res.ret 0, wQ, tQ⟩) :
    MainShape os w ⟨Res.ret 0, (cleanup os wQ).world,
      logToLoop w tC wC tP r wP tL wL tLp ++ (tR ++
        lineAt "Attempting file access after recovery...\n" wR :: (tQ ++
          lineAt "File access successful after recovery\n" wQ :: ((cleanup os wQ).trace ++
            [lineAt "Simulation completed successfully\n" (cleanup os wQ).world])))⟩

/-- The world in which the next round of the retry loop starts, after a round
that started in `w` and whose probe failed: the world after that probe and the
`sleep` that follows it. -/
def nextRound (os : OS σ) (w : σ) : σ :=
  (os.sleep SLEEP_INTERVAL (attempt_file_access os w).world).2

/-- The world in which round `i` of the retry loop starts, when the loop starts
in `w` and the probes of the rounds before failed. -/
def roundWorld (os : OS σ) : Nat → σ → σ
  | 0, w => w
  | i + 1, w => roundWorld os i (nextRound os w)

/-- The log of `n` rounds of the retry loop whose probes fail, the first with
the given value of `attempt_count` and starting in `w`: for each round the whole
log of the call of `attempt_file_access`, the line on the retry and the `sleep`. -/
def roundsLog (os : OS σ) : Nat → Nat → σ → List (Event × σ)
  | 0, _, _ => []
  | n + 1, attempt_count, w =>
    (attempt_file_access os w).trace ++
      [(Event.printf "Retrying in %d seconds... (Attempt %d/%d)\n"
          [Arg.int SLEEP_INTERVAL, Arg.int (attempt_count + 1), Arg.int MAX_ATTEMPTS],
          (attempt_file_access os w).world),
       (Event.sleep SLEEP_INTERVAL, nextRound os w)] ++
      roundsLog os n (attempt_count + 1) (nextRound os w)

/-- The world of `main` after `create_test_environment`. -/
def worldCreated (os : OS σ) (w : σ) : σ := (create_test_environment os w).world

/-- The world of `main` after the probe before the loss. -/
def worldProbed (os : OS σ) (w : σ) : σ :=
  (attempt_file_access os (worldCreated os w)).world

/-- The world of `main` after `simulate_filesystem_loss`. -/
def worldLost (os : OS σ) (w : σ) : σ :=
  (simulate_filesystem_loss os (worldProbed os w)).world

/-- The world of `main` after the retry loop. -/
def worldPolled (os : OS σ) (w : σ) : σ := (retry_loop os 0 (worldLost os w)).world

/-- The world of `main` after `simulate_filesystem_recovery`. -/
def worldRecovered (os : OS σ) (w : σ) : σ :=
  (simulate_filesystem_recovery os (worldPolled os w)).world

/-- The world of `main` after the probe that follows the recovery. -/
def worldVerified (os : OS σ) (w : σ) : σ :=
  (attempt_file_access os (worldRecovered os w)).world

end Observations

/-- The directory `test_filesystem` as provisioning leaves it: `data.txt` with
the fixed content, next to the entries `others`. -/
def dataDir (others : List String) : Option Node :=
  some (Node.dir ⟨some (Entry.file content), others⟩)

/-- The log of a successful probe of the model on the fixed content. -/
def probeLog (others : List String) (s : Option Node) (e : Int) : List (Event × World) :=
  [(Event.open_ TEST_FILE O_RDONLY none 3, ⟨dataDir others, s, some ⟨false, 0⟩, e⟩),
   (Event.read 3 255 36, ⟨dataDir others, s, some ⟨false, 36⟩, e⟩),
   (Event.printf "Successfully read from file: %s" [Arg.buf content],
      ⟨dataDir others, s, some ⟨false, 36⟩, e⟩),
   (Event.close 3 0, ⟨dataDir others, s, none, e⟩)]

/-- The log of one round of the retry loop of the model while `test_filesystem`
does not exist. -/
def failedRound (s : Option Node) (attempt_count : Nat) : List (Event × World) :=
  [(Event.open_ TEST_FILE O_RDONLY none (-1), ⟨none, s, none, ENOENT⟩),
   (Event.eprintf "Failed to access file %s: %s\n" [Arg.str TEST_FILE, Arg.strerror ENOENT],
      ⟨none, s, none, ENOENT⟩),
   (Event.printf "Retrying in %d seconds... (Attempt %d/%d)\n"
      [Arg.int SLEEP_INTERVAL, Arg.int (attempt_count + 1), Arg.int MAX_ATTEMPTS],
      ⟨none, s, none, ENOENT⟩),
   (Event.sleep SLEEP_INTERVAL, ⟨none, s, none, ENOENT⟩)]

/-- The log of `n` such rounds, the first with the given `attempt_count`. -/
def failedRounds (s : Option Node) : Nat → Nat → List (Event × World)
  | 0, _ => []
  | n + 1, attempt_count => failedRound s attempt_count ++ failedRounds s n (attempt_count + 1)

/-- The log of `main` in the model between provisioning and `cleanup`, when
provisioning left `dataDir others` with `errno = e`, and the shadow path was `s`
until the first rename. -/
def middleLog (others : List String) (s : Option Node) (e : Int) : List (Event × World) :=
  lineAt "Attempting file access before simulating loss...\n" ⟨dataDir others, s, none, e⟩ ::
  (probeLog others s e ++
  (lineAt "File access successful before loss\n" ⟨dataDir others, s, none, e⟩ ::
   (Event.rename TEST_DIR TEMP_DIR 0, ⟨none, dataDir others, none, e⟩) ::
   (Event.printf "Filesystem loss simulated: %s is unavailable\n" [Arg.str TEST_DIR],
      ⟨none, dataDir others, none, e⟩) ::
   lineAt "Attempting file access during simulated loss...\n" ⟨none, dataDir others, none, e⟩ ::
  (failedRounds (dataDir others) MAX_ATTEMPTS 0 ++
  ((Event.rename TEMP_DIR TEST_DIR 0, ⟨dataDir others, none, none, ENOENT⟩) ::
   (Event.printf "Filesystem recovered: %s is available\n" [Arg.str TEST_DIR],
      ⟨dataDir others, none, none, ENOENT⟩) ::
   lineAt "Attempting file access after recovery...\n" ⟨dataDir others, none, none, ENOENT⟩ ::
  (probeLog others none ENOENT ++
  [lineAt "File access successful after recovery\n" ⟨dataDir others, none, none, ENOENT⟩])))))

/-- Exactly one of the active and the shadow path exists. -/
def exactlyOne (w : World) : Bool := w.active.isSome != w.shadow.isSome

/-- The part of a log from the first `mkdir` call up to, and without, the first
`rmdir` call after it: from provisioning to the removals of `cleanup`. -/
def provisioned (t : List (Event × World)) : List (Event × World) :=
  (t.dropWhile (fun x => !isMkdir x.1)).takeWhile (fun x => !isRmdir x.1)

/-! ## Sequencing and the primitive calls -/

section Sequencing
variable {σ : Type}

@[simp] theorem Run.after_mk {α : Type} (t t2 : List (Event × σ)) (r : Res α) (w : σ) :
    Run.after t (Run.mk r w t2) = ⟨r, w, t ++ t2⟩ := rfl

@[simp] theorem Run.after_res {α : Type} (t : List (Event × σ)) (r : Run σ α) :
    (Run.after t r).res = r.res := rfl

@[simp] theorem Run.after_world {α : Type} (t : List (Event × σ)) (r : Run σ α) :
    (Run.after t r).world = r.world := rfl

@[simp] theorem Run.after_trace {α : Type} (t : List (Event × σ)) (r : Run σ α) :
    (Run.after t r).trace = t ++ r.trace := rfl

theorem Run.after_ite {α : Type} (c : Prop) [Decidable c] (t : List (Event × σ)) (r1 r2 : Run σ α) :
    Run.after t (if c then r1 else r2) = if c then Run.after t r1 else Run.after t r2 := by
  split <;> rfl

theorem bind_apply {α β : Type} (m : Prog σ α) (f : α → Prog σ β) (w : σ) :
    (m >>= f) w = Prog.bind m f w := rfl

theorem pure_apply {α : Type} (a : α) (w : σ) :
    (pure a : Prog σ α) w = ⟨Res.ret a, w, []⟩ := rfl

theorem ite_run {α : Type} (c : Prop) [Decidable c] (m1 m2 : Prog σ α) (w : σ) :
    (if c then m1 else m2) w = if c then m1 w else m2 w := by
  split <;> rfl

theorem dite_run {α : Type} (c : Prop) [Decidable c] (m1 : c → Prog σ α) (m2 : ¬c → Prog σ α) (w : σ) :
    (if h : c then m1 h else m2 h) w = if h : c then m1 h w else m2 h w := by
  split <;> rfl

/-- Sequencing, in terms of the run of the first part. -/
theorem bind_run {α β : Type} (m : Prog σ α) (f : α → Prog σ β) (w : σ) :
    (m >>= f) w =
      match (m w).res with
      | Res.ret a => Run.after (m w).trace (f a (m w).world)
      | Res.exit c => ⟨Res.exit c, (m w).world, (m w).trace⟩
      | Res.fault => ⟨Res.fault, (m w).world, (m w).trace⟩ := by
  show Prog.bind m f w = _
  unfold Prog.bind
  rcases hm : m w with ⟨r, w1, t1⟩
  cases r <;> rfl

theorem bind_ret {α β : Type} {m : Prog σ α} {f : α → Prog σ β} {w w1 : σ} {a : α}
    {t : List (Event × σ)} (h : m w = ⟨Res.ret a, w1, t⟩) :
    (m >>= f) w = Run.after t (f a w1) := by
  rw [bind_run, h]

theorem bind_exit {α β : Type} {m : Prog σ α} {f : α → Prog σ β} {w w1 : σ} {c : Int}
    {t : List (Event × σ)} (h : m w = ⟨Res.exit c, w1, t⟩) :
    (m >>= f) w = ⟨Res.exit c, w1, t⟩ := by
  rw [bind_run, h]

theorem bind_fault {α β : Type} {m : Prog σ α} {f : α → Prog σ β} {w w1 : σ}
    {t : List (Event × σ)} (h : m w = ⟨Res.fault, w1, t⟩) :
    (m >>= f) w = ⟨Res.fault, w1, t⟩ := by
  rw [bind_run, h]

theorem exit_bind {α β : Type} (c : Int) (f : α → Prog σ β) (w : σ) :
    ((exit c : Prog σ α) >>= f) w = ⟨Res.exit c, w, []⟩ := rfl

theorem errno_bind {β : Type} (os : OS σ) (f : Int → Prog σ β) (w : σ) :
    (errno os >>= f) w = Run.after [] (f (os.errno w) w) := rfl

theorem printf_bind {β : Type} (fmt : String) (args : List Arg) (f : Unit → Prog σ β) (w : σ) :
    (printf fmt args >>= f) w = Run.after [(Event.printf fmt args, w)] (f () w) := rfl

theorem eprintf_bind {β : Type} (fmt : String) (args : List Arg) (f : Unit → Prog σ β) (w : σ) :
    (eprintf fmt args >>= f) w = Run.after [(Event.eprintf fmt args, w)] (f () w) := rfl

theorem mkdir_bind {β : Type} (os : OS σ) (p : String) (m : Nat) (f : Int → Prog σ β) (w : σ) :
    (mkdir os p m >>= f) w =
      Run.after [(Event.mkdir p m (os.mkdir p m w).1, (os.mkdir p m w).2)]
        (f (os.mkdir p m w).1 (os.mkdir p m w).2) := rfl

theorem open_bind {β : Type} (os : OS σ) (p : String) (fl : Nat) (m : Option Nat)
    (f : Int → Prog σ β) (w : σ) :
    (open_ os p fl m >>= f) w =
      Run.after [(Event.open_ p fl m (os.open_ p fl m w).1, (os.open_ p fl m w).2)]
        (f (os.open_ p fl m w).1 (os.open_ p fl m w).2) := rfl

theorem write_bind {β : Type} (os : OS σ) (fd : Int) (b : List Char) (n : Nat)
    (f : Int → Prog σ β) (w : σ) :
    (write os fd b n >>= f) w =
      Run.after [(Event.write fd b n (os.write fd b n w).1, (os.write fd b n w).2)]
        (f (os.write fd b n w).1 (os.write fd b n w).2) := rfl

theorem read_bind {β : Type} (os : OS σ) (fd : Int) (b : List Char) (n : Nat)
    (f : Int × List Char → Prog σ β) (w : σ) :
    (read os fd b n >>= f) w =
      Run.after [(Event.read fd n (os.read fd n w).1, (os.read fd n w).2.2)]
        (f ((os.read fd n w).1,
            ((os.read fd n w).2.1 ++ b.drop (os.read fd n w).2.1.length).take b.length)
          (os.read fd n w).2.2) := rfl

theorem close_bind {β : Type} (os : OS σ) (fd : Int) (f : Int → Prog σ β) (w : σ) :
    (close os fd >>= f) w =
      Run.after [(Event.close fd (os.close fd w).1, (os.close fd w).2)]
        (f (os.close fd w).1 (os.close fd w).2) := rfl

theorem rename_bind {β : Type} (os : OS σ) (p q : String) (f : Int → Prog σ β) (w : σ) :
    (rename os p q >>= f) w =
      Run.after [(Event.rename p q (os.rename p q w).1, (os.rename p q w).2)]
        (f (os.rename p q w).1 (os.rename p q w).2) := rfl

theorem unlink_bind {β : Type} (os : OS σ) (p : String) (f : Int → Prog σ β) (w : σ) :
    (unlink os p >>= f) w =
      Run.after [(Event.unlink p (os.unlink p w).1, (os.unlink p w).2)]
        (f (os.unlink p w).1 (os.unlink p w).2) := rfl

theorem rmdir_bind {β : Type} (os : OS σ) (p : String) (f : Int → Prog σ β) (w : σ) :
    (rmdir os p >>= f) w =
      Run.after [(Event.rmdir p (os.rmdir p w).1, (os.rmdir p w).2)]
        (f (os.rmdir p w).1 (os.rmdir p w).2) := rfl

theorem sleep_bind {β : Type} (os : OS σ) (n : Nat) (f : Nat → Prog σ β) (w : σ) :
    (sleep os n >>= f) w =
      Run.after [(Event.sleep n, (os.sleep n w).2)] (f (os.sleep n w).1 (os.sleep n w).2) := rfl

theorem store_bind {β : Type} (b : List Char) (i : Int) (c : Char) (f : List Char → Prog σ β)
    (w : σ) :
    (store b i c >>= f) w =
      if 0 ≤ i ∧ i < b.length then f (b.set i.toNat c) w else ⟨Res.fault, w, []⟩ := by
  show Prog.bind _ _ _ = _
  unfold Prog.bind store
  split_ifs <;> rfl

theorem ite_bind_run {α β : Type} (c : Prop) [Decidable c] (m1 m2 : Prog σ α) (f : α → Prog σ β)
    (w : σ) :
    ((if c then m1 else m2) >>= f) w = if c then (m1 >>= f) w else (m2 >>= f) w := by
  split <;> rfl

theorem pure_bind_run {α β : Type} (a : α) (f : α → Prog σ β) (w : σ) :
    ((pure a : Prog σ α) >>= f) w = Run.after [] (f a w) := rfl

theorem printf_run (fmt : String) (args : List Arg) (w : σ) :
    (printf fmt args : Prog σ Unit) w = ⟨Res.ret (), w, [(Event.printf fmt args, w)]⟩ := rfl

theorem eprintf_run (fmt : String) (args : List Arg) (w : σ) :
    (eprintf fmt args : Prog σ Unit) w = ⟨Res.ret (), w, [(Event.eprintf fmt args, w)]⟩ := rfl

theorem exit_run {α : Type} (c : Int) (w : σ) :
    (exit c : Prog σ α) w = ⟨Res.exit c, w, []⟩ := rfl

@[simp] theorem Run.after_nil {α : Type} (r : Run σ α) : Run.after [] r = r := rfl

theorem Run.after_after {α : Type} (t1 t2 : List (Event × σ)) (r : Run σ α) :
    Run.after t1 (Run.after t2 r) = Run.after (t1 ++ t2) r := by
  simp [Run.after]


theorem bind_assoc_run {α β γ : Type} (m : Prog σ α) (g : α → Prog σ β) (f : β → Prog σ γ) :
    (m >>= g) >>= f = m >>= fun a => g a >>= f := by
  funext w
  show Prog.bind (Prog.bind m g) f w = Prog.bind m (fun a => Prog.bind (g a) f) w
  unfold Prog.bind
  rcases m w with ⟨r, w1, t1⟩
  cases r with
  | ret a =>
    simp only
    rcases g a w1 with ⟨r2, w2, t2⟩
    cases r2 <;> simp
  | exit c => rfl
  | fault => rfl

theorem ite_bind {α β : Type} (c : Prop) [Decidable c] (m1 m2 : Prog σ α) (f : α → Prog σ β) :
    ((if c then m1 else m2) >>= f) = if c then (m1 >>= f) else (m2 >>= f) := by
  split <;> rfl

theorem posix_errno_eq : posix.errno = World.errno := rfl
theorem posix_mkdir_eq : posix.mkdir = posix_mkdir := rfl
theorem posix_open_eq : posix.open_ = posix_open := rfl
theorem posix_write_eq : posix.write = posix_write := rfl
theorem posix_read_eq : posix.read = posix_read := rfl
theorem posix_close_eq : posix.close = posix_close := rfl
theorem posix_rename_eq : posix.rename = posix_rename := rfl
theorem posix_unlink_eq : posix.unlink = posix_unlink := rfl
theorem posix_rmdir_eq : posix.rmdir = posix_rmdir := rfl
theorem posix_sleep_eq : posix.sleep = posix_sleep := rfl

end Sequencing
/-! ## The run of a probe, path by path -/

section Probe
variable {σ : Type}

theorem indeterminate_length (n : Nat) : (indeterminate n).length = n :=
  List.length_replicate n _

theorem buffer_length (data : List Char) :
    ((data ++ (indeterminate 256).drop data.length).take (indeterminate 256).length).length
      = 256 := by
  simp only [List.length_take, List.length_append, List.length_drop, indeterminate_length]
  omega

theorem probeBuffer_length (os : OS σ) (w : σ) : (probeBuffer os w).length = 256 :=
  buffer_length _

set_option maxRecDepth 4000 in
/-- The run of `attempt_file_access`, path by path. -/
theorem attempt_file_access_run (os : OS σ) (w : σ) :
    attempt_file_access os w =
      if (probeOpen os w).1 = -1 then
        ⟨Res.ret (-1), (probeOpen os w).2,
          [(Event.open_ TEST_FILE O_RDONLY none (probeOpen os w).1, (probeOpen os w).2),
           (Event.eprintf "Failed to access file %s: %s\n"
              [Arg.str TEST_FILE, Arg.strerror (os.errno (probeOpen os w).2)],
            (probeOpen os w).2)]⟩
      else if (probeRead os w).1 = -1 then
        ⟨Res.ret (-1), (probeClose os w).2,
          [(Event.open_ TEST_FILE O_RDONLY none (probeOpen os w).1, (probeOpen os w).2),
           (Event.read (probeOpen os w).1 255 (probeRead os w).1, (probeRead os w).2.2),
           (Event.eprintf "Error reading file %s: %s\n"
              [Arg.str TEST_FILE, Arg.strerror (os.errno (probeRead os w).2.2)],
            (probeRead os w).2.2),
           (Event.close (probeOpen os w).1 (probeClose os w).1, (probeClose os w).2)]⟩
      else if 0 ≤ (probeRead os w).1 ∧ (probeRead os w).1 < 256 then
        ⟨Res.ret 0, (probeClose os w).2,
          [(Event.open_ TEST_FILE O_RDONLY none (probeOpen os w).1, (probeOpen os w).2),
           (Event.read (probeOpen os w).1 255 (probeRead os w).1, (probeRead os w).2.2),
           (Event.printf "Successfully read from file: %s"
              [Arg.buf (c_str ((probeBuffer os w).set (probeRead os w).1.toNat NUL))],
            (probeRead os w).2.2),
           (Event.close (probeOpen os w).1 (probeClose os w).1, (probeClose os w).2)]⟩
      else
        ⟨Res.fault, (probeRead os w).2.2,
          [(Event.open_ TEST_FILE O_RDONLY none (probeOpen os w).1, (probeOpen os w).2),
           (Event.read (probeOpen os w).1 255 (probeRead os w).1, (probeRead os w).2.2)]⟩ := by
  have hlen := probeBuffer_length os w
  simp only [probeBuffer, probeRead, probeOpen, probeClose] at hlen ⊢
  simp only [attempt_file_access, open_bind, errno_bind, eprintf_bind, pure_apply, ite_run,
    read_bind, close_bind, store_bind, printf_bind, Run.after_nil, Run.after_mk, Run.after_ite,
    show (256 - 1 : Nat) = 255 from rfl, hlen]
  rfl

end Probe
/-! ## The shape of a run of the retry loop -/

section Loop
variable {σ : Type}

theorem attempt_file_access_shape (os : OS σ) (w : σ) :
    ProbeShape (attempt_file_access os w) := by
  rw [attempt_file_access_run]
  split_ifs with h1 h2 h3
  · rw [h1]; exact ProbeShape.openFailed _ _
  · rw [h2]; exact ProbeShape.readFailed _ _ _ _ _ _
  · exact ProbeShape.ok _ _ _ _ _ _ _
  · exact ProbeShape.outOfBounds _ _ _ _ h3

theorem retry_loop_run (os : OS σ) (ac : Nat) (w : σ) :
    retry_loop os ac w =
      if ac < MAX_ATTEMPTS then
        (attempt_file_access os >>= fun r =>
          if r = 0 then do
            printf "Unexpected file access success during loss\n" []
            pure ac
          else do
            printf "Retrying in %d seconds... (Attempt %d/%d)\n"
              [Arg.int SLEEP_INTERVAL, Arg.int (ac + 1), Arg.int MAX_ATTEMPTS]
            let _ ← sleep os SLEEP_INTERVAL
            retry_loop os (ac + 1)) w
      else ⟨Res.ret ac, w, []⟩ := by
  rw [retry_loop]
  split <;> rfl

theorem retry_loop_done (os : OS σ) (ac : Nat) (w : σ) (h : ¬ac < MAX_ATTEMPTS) :
    retry_loop os ac w = ⟨Res.ret ac, w, []⟩ := by
  rw [retry_loop_run, if_neg h]

theorem retry_loop_ok (os : OS σ) (ac : Nat) (w w1 : σ) (t : List (Event × σ))
    (h : ac < MAX_ATTEMPTS) (hp : attempt_file_access os w = ⟨Res.ret 0, w1, t⟩) :
    retry_loop os ac w = ⟨Res.ret ac, w1,
      t ++ [(Event.printf "Unexpected file access success during loss\n" [], w1)]⟩ := by
  rw [retry_loop_run, if_pos h, bind_ret hp]
  simp only [if_true, printf_bind, pure_apply, Run.after_mk, List.append_nil]

theorem retry_loop_retry (os : OS σ) (ac : Nat) (w w1 : σ) (r : Int) (t : List (Event × σ))
    (h : ac < MAX_ATTEMPTS) (hp : attempt_file_access os w = ⟨Res.ret r, w1, t⟩) (hr : r ≠ 0) :
    retry_loop os ac w = Run.after
      (t ++ [(Event.printf "Retrying in %d seconds... (Attempt %d/%d)\n"
                [Arg.int SLEEP_INTERVAL, Arg.int (ac + 1), Arg.int MAX_ATTEMPTS], w1),
             (Event.sleep SLEEP_INTERVAL, (os.sleep SLEEP_INTERVAL w1).2)])
      (retry_loop os (ac + 1) (os.sleep SLEEP_INTERVAL w1).2) := by
  rw [retry_loop_run, if_pos h, bind_ret hp]
  simp only [if_neg hr, printf_bind, sleep_bind, Run.after_after, List.append_assoc,
    List.singleton_append]

theorem retry_loop_fault (os : OS σ) (ac : Nat) (w w1 : σ) (t : List (Event × σ))
    (h : ac < MAX_ATTEMPTS) (hp : attempt_file_access os w = ⟨Res.fault, w1, t⟩) :
    retry_loop os ac w = ⟨Res.fault, w1, t⟩ := by
  rw [retry_loop_run, if_pos h, bind_fault hp]

theorem retry_loop_shape_aux (os : OS σ) :
    ∀ (n ac : Nat) (w : σ), MAX_ATTEMPTS - ac = n → LoopShape os ac (retry_loop os ac w) := by
  intro n
  induction n with
  | zero =>
    intro ac w hn
    have h : ¬ac < MAX_ATTEMPTS := by omega
    rw [retry_loop_done os ac w h]
    exact LoopShape.done ac w h
  | succ n ih =>
    intro ac w hn
    have h : ac < MAX_ATTEMPTS := by omega
    have hs := attempt_file_access_shape os w
    rcases hp : attempt_file_access os w with ⟨r, w1, t⟩
    rw [hp] at hs
    cases r with
    | ret v =>
      by_cases hv : v = 0
      · subst hv
        rw [retry_loop_ok os ac w w1 t h hp]
        exact LoopShape.ok ac w1 t h hs
      · rw [retry_loop_retry os ac w w1 v t h hp hv]
        have hv1 : v = -1 := by
          cases hs
          · rfl
          · rfl
          · exact absurd rfl hv
        subst hv1
        exact LoopShape.retry ac w1 t _ h hs (ih (ac + 1) _ (by omega))
    | exit c => cases hs
    | fault =>
      rw [retry_loop_fault os ac w w1 t h hp]
      exact LoopShape.outOfBounds ac w1 t h hs

theorem retry_loop_shape (os : OS σ) (ac : Nat) (w : σ) :
    LoopShape os ac (retry_loop os ac w) :=
  retry_loop_shape_aux os _ ac w rfl

end Loop
/-! ## Runs of the helper functions, and the lines they never print -/

section Helpers
variable {σ : Type}

/-- A log without any line of `main` itself. -/
theorem quiet_of_shape {R : Run σ Int} (h : ProbeShape R) :
    ∀ x ∈ R.trace, isMainLine x.1 = false := by
  cases h <;> simp [isMainLine]

theorem attempt_file_access_quiet (os : OS σ) (w : σ) :
    ∀ x ∈ (attempt_file_access os w).trace, isMainLine x.1 = false :=
  quiet_of_shape (attempt_file_access_shape os w)

set_option maxRecDepth 4000 in
theorem create_test_environment_quiet (os : OS σ) (w : σ) :
    ∀ x ∈ (create_test_environment os w).trace, isMainLine x.1 = false := by
  simp only [create_test_environment, mkdir_bind, errno_bind, ite_run, eprintf_bind, exit_run,
    open_bind, write_bind, close_bind, printf_run, Run.after_nil, Run.after_mk, Run.after_ite]
  split_ifs <;> simp [isMainLine]

theorem create_test_environment_res (os : OS σ) (w : σ) :
    (create_test_environment os w).res = Res.ret () ∨
      (create_test_environment os w).res = Res.exit EXIT_FAILURE := by
  simp only [create_test_environment, mkdir_bind, errno_bind, ite_run, eprintf_bind, exit_run,
    open_bind, write_bind, close_bind, printf_run, Run.after_nil, Run.after_mk, Run.after_ite]
  split_ifs <;> simp

/-- The run of `simulate_filesystem_loss`, path by path. -/
theorem simulate_filesystem_loss_run (os : OS σ) (w : σ) :
    simulate_filesystem_loss os w =
      if (os.rename TEST_DIR TEMP_DIR w).1 = -1 then
        ⟨Res.exit EXIT_FAILURE, (os.rename TEST_DIR TEMP_DIR w).2,
          [(Event.rename TEST_DIR TEMP_DIR (os.rename TEST_DIR TEMP_DIR w).1,
              (os.rename TEST_DIR TEMP_DIR w).2),
           (Event.eprintf "Error simulating filesystem loss (rename %s to %s): %s\n"
              [Arg.str TEST_DIR, Arg.str TEMP_DIR,
                Arg.strerror (os.errno (os.rename TEST_DIR TEMP_DIR w).2)],
              (os.rename TEST_DIR TEMP_DIR w).2)]⟩
      else
        ⟨Res.ret (), (os.rename TEST_DIR TEMP_DIR w).2,
          [(Event.rename TEST_DIR TEMP_DIR (os.rename TEST_DIR TEMP_DIR w).1,
              (os.rename TEST_DIR TEMP_DIR w).2),
           (Event.printf "Filesystem loss simulated: %s is unavailable\n" [Arg.str TEST_DIR],
              (os.rename TEST_DIR TEMP_DIR w).2)]⟩ := by
  simp only [simulate_filesystem_loss, rename_bind, errno_bind, ite_run, eprintf_bind, exit_run,
    printf_run, Run.after_nil, Run.after_mk, Run.after_ite]
  rfl

/-- The run of `simulate_filesystem_recovery`, path by path. -/
theorem simulate_filesystem_recovery_run (os : OS σ) (w : σ) :
    simulate_filesystem_recovery os w =
      if (os.rename TEMP_DIR TEST_DIR w).1 = -1 then
        ⟨Res.exit EXIT_FAILURE, (os.rename TEMP_DIR TEST_DIR w).2,
          [(Event.rename TEMP_DIR TEST_DIR (os.rename TEMP_DIR TEST_DIR w).1,
              (os.rename TEMP_DIR TEST_DIR w).2),
           (Event.eprintf "Error simulating filesystem recovery (rename %s to %s): %s\n"
              [Arg.str TEMP_DIR, Arg.str TEST_DIR,
                Arg.strerror (os.errno (os.rename TEMP_DIR TEST_DIR w).2)],
              (os.rename TEMP_DIR TEST_DIR w).2)]⟩
      else
        ⟨Res.ret (), (os.rename TEMP_DIR TEST_DIR w).2,
          [(Event.rename TEMP_DIR TEST_DIR (os.rename TEMP_DIR TEST_DIR w).1,
              (os.rename TEMP_DIR TEST_DIR w).2),
           (Event.printf "Filesystem recovered: %s is available\n" [Arg.str TEST_DIR],
              (os.rename TEMP_DIR TEST_DIR w).2)]⟩ := by
  simp only [simulate_filesystem_recovery, rename_bind, errno_bind, ite_run, eprintf_bind,
    exit_run, printf_run, Run.after_nil, Run.after_mk, Run.after_ite]
  rfl

/-- The lines a removal of `cleanup` adds to the log: one on standard error
when it failed with an error other than `ENOENT`. -/
theorem cleanup_run (os : OS σ) (w : σ) :
    cleanup os w =
      ⟨Res.ret (), (cleanupRmtmp os w).2,
        (Event.unlink TEST_FILE (cleanupUnlink os w).1, (cleanupUnlink os w).2) ::
        ((if (cleanupUnlink os w).1 = -1 ∧ os.errno (cleanupUnlink os w).2 ≠ ENOENT then
            [(Event.eprintf "Error removing file %s: %s\n"
                [Arg.str TEST_FILE, Arg.strerror (os.errno (cleanupUnlink os w).2)],
              (cleanupUnlink os w).2)]
          else []) ++
        (Event.rmdir TEST_DIR (cleanupRmdir os w).1, (cleanupRmdir os w).2) ::
        ((if (cleanupRmdir os w).1 = -1 ∧ os.errno (cleanupRmdir os w).2 ≠ ENOENT then
            [(Event.eprintf "Error removing directory %s: %s\n"
                [Arg.str TEST_DIR, Arg.strerror (os.errno (cleanupRmdir os w).2)],
              (cleanupRmdir os w).2)]
          else []) ++
        (Event.rmdir TEMP_DIR (cleanupRmtmp os w).1, (cleanupRmtmp os w).2) ::
        ((if (cleanupRmtmp os w).1 = -1 ∧ os.errno (cleanupRmtmp os w).2 ≠ ENOENT then
            [(Event.eprintf "Error removing temporary directory %s: %s\n"
                [Arg.str TEMP_DIR, Arg.strerror (os.errno (cleanupRmtmp os w).2)],
              (cleanupRmtmp os w).2)]
          else []) ++
        [(Event.printf "Cleanup completed\n" [], (cleanupRmtmp os w).2)])))⟩ := by
  simp only [cleanup, unlink_bind, rmdir_bind, errno_bind, ite_bind_run, ite_run, eprintf_bind,
    pure_bind_run, printf_run, Run.after_nil, Run.after_mk, Run.after_ite,
    cleanupUnlink, cleanupRmdir, cleanupRmtmp]
  split_ifs <;> rfl

theorem simulate_filesystem_loss_quiet (os : OS σ) (w : σ) :
    ∀ x ∈ (simulate_filesystem_loss os w).trace, isMainLine x.1 = false := by
  rw [simulate_filesystem_loss_run]
  split_ifs <;> simp [isMainLine]

theorem simulate_filesystem_recovery_quiet (os : OS σ) (w : σ) :
    ∀ x ∈ (simulate_filesystem_recovery os w).trace, isMainLine x.1 = false := by
  rw [simulate_filesystem_recovery_run]
  split_ifs <;> simp [isMainLine]

theorem cleanup_quiet (os : OS σ) (w : σ) :
    ∀ x ∈ (cleanup os w).trace, isMainLine x.1 = false := by
  rw [cleanup_run]
  split_ifs <;> simp [isMainLine]

end Helpers
/-! ## Counting probes, failures and sleeps in the retry loop -/

section LoopCounts
variable {σ : Type}

@[simp] theorem events_nil : events ([] : List (Event × σ)) = [] := rfl

@[simp] theorem events_cons (x : Event × σ) (t : List (Event × σ)) :
    events (x :: t) = x.1 :: events t := rfl

@[simp] theorem events_append (t1 t2 : List (Event × σ)) :
    events (t1 ++ t2) = events t1 ++ events t2 := by
  simp [events]

theorem probes_of_shape {r : Res Int} {w1 : σ} {t : List (Event × σ)}
    (h : ProbeShape ⟨r, w1, t⟩) : probes t = 1 := by
  cases h <;> simp [probes, isProbe]

theorem sleeps_of_shape {r : Res Int} {w1 : σ} {t : List (Event × σ)}
    (h : ProbeShape ⟨r, w1, t⟩) : sleeps t = 0 ∧ sleptSeconds t = 0 := by
  cases h <;> simp [sleeps, sleptSeconds, isSleep, sleepSeconds]

theorem failures_of_shape_bad {w1 : σ} {t : List (Event × σ)}
    (h : ProbeShape ⟨Res.ret (-1), w1, t⟩) :
    failures t = 1 ∧ (events t).any isProbeSuccess = false := by
  cases h <;> simp [failures, isProbeFailure, isProbeSuccess]

theorem failures_of_shape_ok {w1 : σ} {t : List (Event × σ)}
    (h : ProbeShape ⟨Res.ret 0, w1, t⟩) :
    failures t = 0 ∧ ∃ text fd c, events (fromFirst isProbeSuccess t) =
      [Event.printf "Successfully read from file: %s" [Arg.buf text], Event.close fd c] := by
  cases h
  simp [failures, isProbeFailure, isProbeSuccess, fromFirst]

theorem failures_of_shape_fault {w1 : σ} {t : List (Event × σ)}
    (h : ProbeShape ⟨Res.fault, w1, t⟩) :
    failures t = 0 ∧ (events t).any isProbeSuccess = false := by
  cases h
  simp [failures, isProbeFailure, isProbeSuccess]

theorem loop_sleeps {os : OS σ} {ac : Nat} {R : Run σ Nat} (h : LoopShape os ac R) :
    sleeps R.trace = failures R.trace ∧
    sleptSeconds R.trace = sleeps R.trace * SLEEP_INTERVAL ∧
    (ac ≤ MAX_ATTEMPTS → ac + sleeps R.trace ≤ MAX_ATTEMPTS) ∧
    (∀ k, R.res = Res.ret k → k = ac + sleeps R.trace) ∧
    (∀ c, R.res ≠ Res.exit c) := by
  induction h with
  | done ac w h => simp [sleeps, failures, sleptSeconds]
  | ok ac w1 t h hp =>
    have h1 := sleeps_of_shape hp
    have h2 := failures_of_shape_ok hp
    simp only [sleeps, failures, sleptSeconds, events_append, List.countP_append,
      List.map_append, List.sum_append] at h1 h2 ⊢
    simp [isSleep, isProbeFailure, sleepSeconds, h1.1, h1.2, h2.1]
  | outOfBounds ac w1 t h hp =>
    have h1 := sleeps_of_shape hp
    have h2 := failures_of_shape_fault hp
    simp [h1.1, h1.2, h2.1]
  | retry ac w1 t R h hp hR ih =>
    have h1 := sleeps_of_shape hp
    have h2 := failures_of_shape_bad hp
    obtain ⟨i1, i2, i3, i4, i5⟩ := ih
    simp only [sleeps, failures, sleptSeconds, Run.after_trace, Run.after_res, events_append,
      List.countP_append, List.map_append, List.sum_append] at h1 h2 i1 i2 i3 i4 ⊢
    refine ⟨?_, ?_, ?_, ?_, i5⟩
    · simp [isSleep, isProbeFailure, h1.1, h2.1, i1]
    · simp [isSleep, sleepSeconds, h1.1, h1.2, i2]; ring
    · intro hle
      have := i3 (by omega)
      simp [isSleep, h1.1]; omega
    · intro k hk
      have := i4 k hk
      simp [isSleep, h1.1]; omega

end LoopCounts
/-! ## Success and return of the retry loop -/

section LoopReturn
variable {σ : Type}

theorem mainLine_of_unexpected {e : Event} (h : isMainLine e = false) :
    isUnexpected e = false ∧ isRecoveredOk e = false ∧ isRecoveredBad e = false := by
  cases e <;> simp_all [isMainLine, isUnexpected, isRecoveredOk, isRecoveredBad]

theorem any_events_false {p : Event → Bool} {t : List (Event × σ)}
    (h : ∀ x ∈ t, (!p x.1) = true) : (events t).any p = false := by
  rw [Bool.eq_false_iff]
  intro ht
  rw [List.any_eq_true] at ht
  obtain ⟨e, he, hpe⟩ := ht
  simp only [events, List.mem_map] at he
  obtain ⟨x, hx, rfl⟩ := he
  have := h x hx
  simp [hpe] at this

theorem loop_success {os : OS σ} {ac : Nat} {R : Run σ Nat} (h : LoopShape os ac R)
    (hs : (events R.trace).any isProbeSuccess = true) :
    (∃ text fd c, events (fromFirst isProbeSuccess R.trace) =
      [Event.printf "Successfully read from file: %s" [Arg.buf text], Event.close fd c,
       Event.printf "Unexpected file access success during loss\n" []]) ∧
    ∃ k, R.res = Res.ret k ∧ k < MAX_ATTEMPTS ∧ k = ac + failures R.trace := by
  induction h with
  | done ac w h => simp at hs
  | ok ac w1 t h hp =>
    cases hp
    refine ⟨?_, ac, rfl, h, ?_⟩
    · simp [fromFirst, isProbeSuccess]
    · simp [failures, isProbeFailure]
  | outOfBounds ac w1 t h hp =>
    cases hp
    simp [isProbeSuccess] at hs
  | retry ac w1 t R h hp hR ih =>
    have hq : ∀ x ∈ t ++ [(Event.printf "Retrying in %d seconds... (Attempt %d/%d)\n"
                [Arg.int SLEEP_INTERVAL, Arg.int (ac + 1), Arg.int MAX_ATTEMPTS], w1),
             (Event.sleep SLEEP_INTERVAL, (os.sleep SLEEP_INTERVAL w1).2)],
        (!isProbeSuccess x.1) = true := by
      cases hp <;> simp [isProbeSuccess]
    have hf : failures (t ++ [(Event.printf "Retrying in %d seconds... (Attempt %d/%d)\n"
                [Arg.int SLEEP_INTERVAL, Arg.int (ac + 1), Arg.int MAX_ATTEMPTS], w1),
             (Event.sleep SLEEP_INTERVAL, (os.sleep SLEEP_INTERVAL w1).2)]) = 1 := by
      cases hp <;> simp [failures, isProbeFailure]
    have hs2 : (events R.trace).any isProbeSuccess = true := by
      rw [Run.after_trace, events_append, List.any_append, any_events_false hq,
        Bool.false_or] at hs
      exact hs
    obtain ⟨i1, k, i2, i3, i4⟩ := ih hs2
    refine ⟨?_, k, i2, i3, ?_⟩
    · simp only [fromFirst, Run.after_trace] at i1 ⊢
      rw [List.dropWhile_append_of_pos hq]
      exact i1
    · simp only [failures, Run.after_trace, events_append, List.countP_append] at hf i4 ⊢
      omega

theorem loop_unexpected {os : OS σ} {ac : Nat} {R : Run σ Nat} (h : LoopShape os ac R) :
    (∀ x ∈ R.trace, isUnexpected x.1 = false) ∨
    (∃ t k, R.trace = t ++ [(Event.printf "Unexpected file access success during loss\n" [],
        R.world)] ∧ (∀ x ∈ t, isUnexpected x.1 = false) ∧ R.res = Res.ret k) := by
  induction h with
  | done ac w h => left; simp
  | ok ac w1 t h hp =>
    right
    refine ⟨t, ac, rfl, ?_, rfl⟩
    intro x hx
    exact (mainLine_of_unexpected (quiet_of_shape hp x hx)).1
  | outOfBounds ac w1 t h hp =>
    left
    intro x hx
    exact (mainLine_of_unexpected (quiet_of_shape hp x hx)).1
  | retry ac w1 t R h hp hR ih =>
    have hq : ∀ x ∈ t ++ [(Event.printf "Retrying in %d seconds... (Attempt %d/%d)\n"
                [Arg.int SLEEP_INTERVAL, Arg.int (ac + 1), Arg.int MAX_ATTEMPTS], w1),
             (Event.sleep SLEEP_INTERVAL, (os.sleep SLEEP_INTERVAL w1).2)],
        isUnexpected x.1 = false := by
      cases hp <;> simp [isUnexpected]
    rcases ih with ih | ⟨t2, k, i1, i2, i3⟩
    · left
      intro x hx
      simp only [Run.after_trace, List.mem_append] at hx
      rcases hx with hx | hx
      · exact hq x (List.mem_append.mpr hx)
      · exact ih x hx
    · right
      refine ⟨(t ++ [(Event.printf "Retrying in %d seconds... (Attempt %d/%d)\n"
                [Arg.int SLEEP_INTERVAL, Arg.int (ac + 1), Arg.int MAX_ATTEMPTS], w1),
             (Event.sleep SLEEP_INTERVAL, (os.sleep SLEEP_INTERVAL w1).2)]) ++ t2, k, ?_, ?_, i3⟩
      · simp only [Run.after_trace, Run.after_world, i1, List.append_assoc]
      · intro x hx
        rcases List.mem_append.mp hx with hx | hx
        · exact hq x hx
        · exact i2 x hx

theorem loop_verdict {os : OS σ} {ac : Nat} {R : Run σ Nat} (h : LoopShape os ac R) :
    ∀ x ∈ R.trace, isRecoveredOk x.1 = false ∧ isRecoveredBad x.1 = false := by
  induction h with
  | done ac w h => simp
  | ok ac w1 t h hp => cases hp; simp [isRecoveredOk, isRecoveredBad]
  | outOfBounds ac w1 t h hp => cases hp; simp [isRecoveredOk, isRecoveredBad]
  | retry ac w1 t R h hp hR ih =>
    have hq : ∀ x ∈ t ++ [(Event.printf "Retrying in %d seconds... (Attempt %d/%d)\n"
                [Arg.int SLEEP_INTERVAL, Arg.int (ac + 1), Arg.int MAX_ATTEMPTS], w1),
             (Event.sleep SLEEP_INTERVAL, (os.sleep SLEEP_INTERVAL w1).2)],
        isRecoveredOk x.1 = false ∧ isRecoveredBad x.1 = false := by
      cases hp <;> simp [isRecoveredOk, isRecoveredBad]
    intro x hx
    rcases List.mem_append.mp hx with hx | hx
    · exact hq x hx
    · exact ih x hx

theorem attempt_file_access_returns (os : OS σ) (hos : ReadOk os) (w : σ) :
    (attempt_file_access os w).res = Res.ret 0 ∨ (attempt_file_access os w).res = Res.ret (-1) := by
  rw [attempt_file_access_run]
  split_ifs with h1 h2 h3
  · right; rfl
  · right; rfl
  · left; rfl
  · exfalso
    apply h3
    rcases hos (probeOpen os w).1 255 (probeOpen os w).2 with h | ⟨h4, h5, _⟩
    · exact absurd h h2
    · simp only [probeRead]
      omega

theorem retry_loop_returns_aux (os : OS σ) (hos : ReadOk os) :
    ∀ (n ac : Nat) (w : σ), MAX_ATTEMPTS - ac = n → ∃ k, (retry_loop os ac w).res = Res.ret k := by
  intro n
  induction n with
  | zero =>
    intro ac w hn
    exact ⟨ac, by rw [retry_loop_done os ac w (by omega)]⟩
  | succ n ih =>
    intro ac w hn
    have h : ac < MAX_ATTEMPTS := by omega
    have hr := attempt_file_access_returns os hos w
    rcases hp : attempt_file_access os w with ⟨r, w1, t⟩
    rw [hp] at hr
    simp only at hr
    rcases hr with hr | hr
    · subst hr
      exact ⟨ac, by rw [retry_loop_ok os ac w w1 t h hp]⟩
    · subst hr
      rw [retry_loop_retry os ac w w1 (-1) t h hp (by decide)]
      exact ih (ac + 1) _ (by omega)

theorem retry_loop_returns (os : OS σ) (hos : ReadOk os) (ac : Nat) (w : σ) :
    ∃ k, (retry_loop os ac w).res = Res.ret k :=
  retry_loop_returns_aux os hos _ ac w rfl

end LoopReturn
/-! ## The shape of a run of main -/

section MainShapes
variable {σ : Type}

theorem cleanup_res (os : OS σ) (w : σ) : (cleanup os w).res = Res.ret () := by
  rw [cleanup_run]

theorem cleanup_eq (os : OS σ) (w : σ) :
    cleanup os w = ⟨Res.ret (), (cleanup os w).world, (cleanup os w).trace⟩ := by
  rw [cleanup_run]

theorem simulate_filesystem_loss_res (os : OS σ) (w : σ) :
    (simulate_filesystem_loss os w).res = Res.ret () ∨
      (simulate_filesystem_loss os w).res = Res.exit EXIT_FAILURE := by
  rw [simulate_filesystem_loss_run]
  split_ifs <;> simp

theorem simulate_filesystem_recovery_res (os : OS σ) (w : σ) :
    (simulate_filesystem_recovery os w).res = Res.ret () ∨
      (simulate_filesystem_recovery os w).res = Res.exit EXIT_FAILURE := by
  rw [simulate_filesystem_recovery_run]
  split_ifs <;> simp

set_option maxRecDepth 4000 in
theorem main_shape (os : OS σ) (w : σ) : MainShape os w (main os w) := by
  have hCres := create_test_environment_res os w
  rcases hC : create_test_environment os w with ⟨rC, wC, tC⟩
  rw [hC] at hCres
  simp only at hCres
  rcases hCres with rfl | rfl
  swap
  · have : main os w = ⟨Res.exit EXIT_FAILURE, wC,
        lineAt "Starting filesystem loss and recovery simulation\n" w :: tC⟩ := by
      simp only [main, printf_bind, bind_exit hC, Run.after_mk, List.singleton_append, lineAt]
    rw [this]
    exact MainShape.provision wC tC hC
  -- the probe before the loss
  have hPs := attempt_file_access_shape os wC
  rcases hP : attempt_file_access os wC with ⟨rP, wP, tP⟩
  rw [hP] at hPs
  cases rP with
  | exit c => cases hPs
  | fault =>
    have h := MainShape.probeBefore wC tC wP tP hC hP
    convert h using 1
    simp [main, bind_assoc_run, printf_bind, bind_ret hC, bind_fault hP, lineAt]
  | ret r =>
  -- the rename to the shadow path
  have hLres := simulate_filesystem_loss_res os wP
  rcases hL : simulate_filesystem_loss os wP with ⟨rL, wL, tL⟩
  rw [hL] at hLres
  simp only at hLres
  rcases hLres with rfl | rfl
  swap
  · have h := MainShape.loss wC tC r wP tP wL tL hC hP hL
    convert h using 1
    by_cases hr : r = 0 <;>
    simp [main, bind_assoc_run, ite_bind, ite_run, printf_bind, pure_bind_run, bind_ret hC,
      bind_ret hP, bind_exit hL, lineAt, lineBefore, hr]
  -- the retry loop
  have hLs := loop_sleeps (retry_loop_shape os 0 wL)
  have hLsh := retry_loop_shape os 0 wL
  rcases hLp : retry_loop os 0 wL with ⟨rLp, wLp, tLp⟩
  rw [hLp] at hLs
  cases rLp with
  | exit c => exact absurd rfl (hLs.2.2.2.2 c)
  | fault =>
    have h := MainShape.loop wC tC r wP tP wL tL wLp tLp hC hP hL hLp
    convert h using 1
    by_cases hr : r = 0 <;>
    simp [main, bind_assoc_run, ite_bind, ite_run, printf_bind, pure_bind_run, bind_ret hC,
      bind_ret hP, bind_ret hL, bind_fault hLp, lineAt, lineBefore, logToLoop, hr]
  | ret k =>
  -- the rename back
  have hRres := simulate_filesystem_recovery_res os wLp
  rcases hR : simulate_filesystem_recovery os wLp with ⟨rR, wR, tR⟩
  rw [hR] at hRres
  simp only at hRres
  rcases hRres with rfl | rfl
  swap
  · have h := MainShape.recovery wC tC r wP tP wL tL k wLp tLp wR tR hC hP hL hLp hR
    convert h using 1
    by_cases hr : r = 0 <;>
    simp [main, bind_assoc_run, ite_bind, ite_run, printf_bind, pure_bind_run, bind_ret hC,
      bind_ret hP, bind_ret hL, bind_ret hLp, bind_exit hR, lineAt, lineBefore, logToLoop, hr]
  -- the probe after recovery
  have hQs := attempt_file_access_shape os wR
  rcases hQ : attempt_file_access os wR with ⟨rQ, wQ, tQ⟩
  rw [hQ] at hQs
  cases rQ with
  | exit c => cases hQs
  | fault =>
    have h := MainShape.probeAfter wC tC r wP tP wL tL k wLp tLp wR tR wQ tQ hC hP hL hLp hR hQ
    convert h using 1
    by_cases hr : r = 0 <;>
    simp [main, bind_assoc_run, ite_bind, ite_run, printf_bind, pure_bind_run, bind_ret hC,
      bind_ret hP, bind_ret hL, bind_ret hLp, bind_ret hR, bind_fault hQ, lineAt, lineBefore,
      logToLoop, hr]
  | ret q =>
  by_cases hq : q = 0
  · subst hq
    have h := MainShape.success wC tC r wP tP wL tL k wLp tLp wR tR wQ tQ hC hP hL hLp hR hQ
    convert h using 1
    by_cases hr : r = 0 <;>
    simp [main, bind_assoc_run, ite_bind, ite_run, printf_bind, pure_bind_run, bind_ret hC,
      bind_ret hP, bind_ret hL, bind_ret hLp, bind_ret hR, bind_ret hQ,
      bind_ret (cleanup_eq os wQ), pure_apply, Run.after, lineAt, lineBefore, logToLoop, hr]
  · have h := MainShape.failed wC tC r wP tP wL tL k wLp tLp wR tR q wQ tQ hC hP hL hLp hR hQ hq
    convert h using 1
    by_cases hr : r = 0 <;>
    simp [main, bind_assoc_run, ite_bind, ite_run, printf_bind, pure_bind_run, bind_ret hC,
      bind_ret hP, bind_ret hL, bind_ret hLp, bind_ret hR, bind_ret hQ,
      bind_ret (cleanup_eq os wQ), exit_bind, Run.after, lineAt, lineBefore, logToLoop, hr, hq]

end MainShapes
/-! ## What follows the line on an unexpected success -/

section Unexpected
variable {σ : Type}

theorem any_events_quiet {p : Event → Bool} {t : List (Event × σ)}
    (h : ∀ x ∈ t, p x.1 = false) : (events t).any p = false :=
  any_events_false (fun x hx => by simp [h x hx])

theorem fromFirst_split {p : Event → Bool} (a b : List (Event × σ)) (u : Event × σ)
    (ha : ∀ x ∈ a, p x.1 = false) (hu : p u.1 = true) :
    fromFirst p (a ++ u :: b) = u :: b := by
  unfold fromFirst
  rw [List.dropWhile_append_of_pos (fun x hx => by simp [ha x hx])]
  rw [List.dropWhile_cons_of_neg (by simp [hu])]

theorem logToLoop_append (w : σ) (tC : List (Event × σ)) (wC : σ) (tP : List (Event × σ))
    (r : Int) (wP : σ) (tL : List (Event × σ)) (wL : σ) (tLp : List (Event × σ)) :
    logToLoop w tC wC tP r wP tL wL tLp = logToLoop w tC wC tP r wP tL wL [] ++ tLp := by
  simp [logToLoop]

theorem lineBefore_quiet (r : Int) (w : σ) :
    ∀ x ∈ lineBefore r w, isUnexpected x.1 = false ∧ isRecoveredOk x.1 = false ∧
      isRecoveredBad x.1 = false := by
  unfold lineBefore
  split_ifs <;> simp [lineAt, isUnexpected, isRecoveredOk, isRecoveredBad]

/-- The log of `main` before the retry loop has no line of the loop and no
verdict on the recovery. -/
theorem logToLoop_quiet {os : OS σ} {w wC wP wL : σ} {tC tP tL : List (Event × σ)} {r : Int}
    {rL : Res Unit}
    (hC : create_test_environment os w = ⟨Res.ret (), wC, tC⟩)
    (hP : attempt_file_access os wC = ⟨Res.ret r, wP, tP⟩)
    (hL : simulate_filesystem_loss os wP = ⟨rL, wL, tL⟩) :
    ∀ x ∈ logToLoop w tC wC tP r wP tL wL [], isUnexpected x.1 = false ∧
      isRecoveredOk x.1 = false ∧ isRecoveredBad x.1 = false := by
  have qC := create_test_environment_quiet os w
  have qP := attempt_file_access_quiet os wC
  have qL := simulate_filesystem_loss_quiet os wP
  rw [hC] at qC
  rw [hP] at qP
  rw [hL] at qL
  intro x hx
  simp only [logToLoop, List.mem_cons, List.mem_append, List.not_mem_nil, or_false] at hx
  rcases hx with rfl | hx | rfl | hx | hx | hx | rfl
  · simp [lineAt, isUnexpected, isRecoveredOk, isRecoveredBad]
  · exact mainLine_of_unexpected (qC x hx)
  · simp [lineAt, isUnexpected, isRecoveredOk, isRecoveredBad]
  · exact mainLine_of_unexpected (qP x hx)
  · exact lineBefore_quiet r wP x hx
  · exact mainLine_of_unexpected (qL x hx)
  · simp [lineAt, isUnexpected, isRecoveredOk, isRecoveredBad]

theorem recovery_head {os : OS σ} {w wR : σ} {rR : Res Unit} {tR : List (Event × σ)}
    (hR : simulate_filesystem_recovery os w = ⟨rR, wR, tR⟩) :
    ∃ r x, tR = [(Event.rename TEMP_DIR TEST_DIR r, wR), x] := by
  rw [simulate_filesystem_recovery_run] at hR
  split_ifs at hR
  · cases hR; exact ⟨_, _, rfl⟩
  · cases hR; exact ⟨_, _, rfl⟩

/-- When the log of the retry loop is followed by the call `rename(TEMP_DIR,
TEST_DIR)`, that call comes right after the line on the unexpected success. -/
theorem unexpected_next (pre tLp post : List (Event × σ)) (r : Int) (wR : σ)
    (hpre : ∀ y ∈ pre, isUnexpected y.1 = false)
    (hloop : (∀ y ∈ tLp, isUnexpected y.1 = false) ∨
      ∃ t w1, tLp = t ++ [(Event.printf "Unexpected file access success during loss\n" [], w1)] ∧
        ∀ y ∈ t, isUnexpected y.1 = false)
    (hpost : ∀ y ∈ post, isUnexpected y.1 = false)
    (hu : (events (pre ++ tLp ++ (Event.rename TEMP_DIR TEST_DIR r, wR) :: post)).any
      isUnexpected = true) :
    ∃ r1 rest, events (fromFirst isUnexpected
        (pre ++ tLp ++ (Event.rename TEMP_DIR TEST_DIR r, wR) :: post)) =
      Event.printf "Unexpected file access success during loss\n" [] ::
        Event.rename TEMP_DIR TEST_DIR r1 :: rest := by
  rcases hloop with hq | ⟨t, w1, rfl, hq⟩
  · exfalso
    have : (events (pre ++ tLp ++ (Event.rename TEMP_DIR TEST_DIR r, wR) :: post)).any
        isUnexpected = false := by
      apply any_events_quiet
      intro x hx
      simp only [List.mem_append, List.mem_cons] at hx
      rcases hx with (hx | hx) | rfl | hx
      · exact hpre x hx
      · exact hq x hx
      · simp [isUnexpected]
      · exact hpost x hx
    rw [this] at hu
    exact Bool.false_ne_true hu
  · refine ⟨r, events post, ?_⟩
    have : pre ++ (t ++ [(Event.printf "Unexpected file access success during loss\n" [], w1)])
        ++ (Event.rename TEMP_DIR TEST_DIR r, wR) :: post =
        (pre ++ t) ++ (Event.printf "Unexpected file access success during loss\n" [], w1) ::
          ((Event.rename TEMP_DIR TEST_DIR r, wR) :: post) := by
      simp
    rw [this, fromFirst_split]
    · simp
    · intro x hx
      rcases List.mem_append.mp hx with hx | hx
      · exact hpre x hx
      · exact hq x hx
    · simp [isUnexpected]

theorem loop_unexpected_of_run {os : OS σ} {w wLp : σ} {rLp : Res Nat} {tLp : List (Event × σ)}
    (hLp : retry_loop os 0 w = ⟨rLp, wLp, tLp⟩) :
    (∀ y ∈ tLp, isUnexpected y.1 = false) ∨
      ∃ t w1, tLp = t ++ [(Event.printf "Unexpected file access success during loss\n" [], w1)] ∧
        ∀ y ∈ t, isUnexpected y.1 = false := by
  have h := loop_unexpected (retry_loop_shape os 0 w)
  rw [hLp] at h
  rcases h with h | ⟨t, k, h1, h2, _⟩
  · exact Or.inl h
  · exact Or.inr ⟨t, wLp, h1, h2⟩

theorem stopped_quiet {t : List (Event × σ)} (h : ∀ x ∈ t, isUnexpected x.1 = false)
    (hu : (events t).any isUnexpected = true) : False := by
  rw [any_events_quiet h] at hu
  exact Bool.false_ne_true hu

theorem main_unexpected {os : OS σ} {w : σ} {R : Run σ Int} (h : MainShape os w R)
    (hu : (events R.trace).any isUnexpected = true) :
    ∃ r rest, events (fromFirst isUnexpected R.trace) =
      Event.printf "Unexpected file access success during loss\n" [] ::
        Event.rename TEMP_DIR TEST_DIR r :: rest := by
  cases h with
  | provision wC tC hC =>
    exfalso
    refine stopped_quiet ?_ hu
    have qC := create_test_environment_quiet os w
    rw [hC] at qC
    intro x hx
    rcases List.mem_cons.mp hx with rfl | hx
    · simp [lineAt, isUnexpected]
    · exact (mainLine_of_unexpected (qC x hx)).1
  | probeBefore wC tC wP tP hC hP =>
    exfalso
    refine stopped_quiet ?_ hu
    have qC := create_test_environment_quiet os w
    have qP := attempt_file_access_quiet os wC
    rw [hC] at qC
    rw [hP] at qP
    intro x hx
    simp only [List.mem_cons, List.mem_append] at hx
    rcases hx with rfl | hx | rfl | hx
    · simp [lineAt, isUnexpected]
    · exact (mainLine_of_unexpected (qC x hx)).1
    · simp [lineAt, isUnexpected]
    · exact (mainLine_of_unexpected (qP x hx)).1
  | loss wC tC r wP tP wL tL hC hP hL =>
    exfalso
    refine stopped_quiet ?_ hu
    intro x hx
    have := logToLoop_quiet hC hP hL x
    simp only [logToLoop, List.mem_cons, List.mem_append, List.not_mem_nil, or_false] at this hx
    refine (this ?_).1
    tauto
  | loop wC tC r wP tP wL tL wLp tLp hC hP hL hLp =>
    exfalso
    refine stopped_quiet ?_ hu
    have h1 := loop_unexpected (retry_loop_shape os 0 wL)
    rw [hLp] at h1
    rw [logToLoop_append]
    intro x hx
    rcases List.mem_append.mp hx with hx | hx
    · exact (logToLoop_quiet hC hP hL x hx).1
    · rcases h1 with h1 | ⟨t, k, _, _, h3⟩
      · exact h1 x hx
      · cases h3
  | recovery wC tC r wP tP wL tL k wLp tLp wR tR hC hP hL hLp hR =>
    obtain ⟨rr, x2, rfl⟩ := recovery_head hR
    have qR := simulate_filesystem_recovery_quiet os wLp
    rw [hR] at qR
    rw [logToLoop_append] at hu ⊢
    exact unexpected_next _ tLp [x2] rr wR (fun y hy => (logToLoop_quiet hC hP hL y hy).1)
      (loop_unexpected_of_run hLp)
      (fun y hy => (mainLine_of_unexpected (qR y (by simp at hy; simp [hy]))).1) hu
  | probeAfter wC tC r wP tP wL tL k wLp tLp wR tR wQ tQ hC hP hL hLp hR hQ =>
    obtain ⟨rr, x2, rfl⟩ := recovery_head hR
    have qR := simulate_filesystem_recovery_quiet os wLp
    have qQ := attempt_file_access_quiet os wR
    rw [hR] at qR
    rw [hQ] at qQ
    rw [logToLoop_append] at hu ⊢
    refine unexpected_next _ tLp
      (x2 :: lineAt "Attempting file access after recovery...\n" wR :: tQ) rr wR
      (fun y hy => (logToLoop_quiet hC hP hL y hy).1) (loop_unexpected_of_run hLp) ?_ hu
    intro y hy
    simp only [List.mem_cons, List.mem_append, List.not_mem_nil, or_false] at hy
    rcases hy with rfl | rfl | hy
    · exact (mainLine_of_unexpected (qR _ (by simp))).1
    · simp [lineAt, isUnexpected]
    · exact (mainLine_of_unexpected (qQ y hy)).1
  | failed wC tC r wP tP wL tL k wLp tLp wR tR q wQ tQ hC hP hL hLp hR hQ hq =>
    obtain ⟨rr, x2, rfl⟩ := recovery_head hR
    have qR := simulate_filesystem_recovery_quiet os wLp
    have qQ := attempt_file_access_quiet os wR
    have qX := cleanup_quiet os wQ
    rw [hR] at qR
    rw [hQ] at qQ
    rw [logToLoop_append] at hu ⊢
    refine unexpected_next _ tLp
      (x2 :: lineAt "Attempting file access after recovery...\n" wR :: (tQ ++
          lineAt "File access failed after recovery\n" wQ :: (cleanup os wQ).trace)) rr wR
      (fun y hy => (logToLoop_quiet hC hP hL y hy).1) (loop_unexpected_of_run hLp) ?_ hu
    intro y hy
    simp only [List.mem_cons, List.mem_append, List.not_mem_nil, or_false] at hy
    rcases hy with rfl | rfl | hy | rfl | hy
    · exact (mainLine_of_unexpected (qR _ (by simp))).1
    · simp [lineAt, isUnexpected]
    · exact (mainLine_of_unexpected (qQ y hy)).1
    · simp [lineAt, isUnexpected]
    · exact (mainLine_of_unexpected (qX y hy)).1
  | success wC tC r wP tP wL tL k wLp tLp wR tR wQ tQ hC hP hL hLp hR hQ =>
    obtain ⟨rr, x2, rfl⟩ := recovery_head hR
    have qR := simulate_filesystem_recovery_quiet os wLp
    have qQ := attempt_file_access_quiet os wR
    have qX := cleanup_quiet os wQ
    rw [hR] at qR
    rw [hQ] at qQ
    rw [logToLoop_append] at hu ⊢
    refine unexpected_next _ tLp
      (x2 :: lineAt "Attempting file access after recovery...\n" wR :: (tQ ++
          lineAt "File access successful after recovery\n" wQ :: ((cleanup os wQ).trace ++
            [lineAt "Simulation completed successfully\n" (cleanup os wQ).world]))) rr wR
      (fun y hy => (logToLoop_quiet hC hP hL y hy).1) (loop_unexpected_of_run hLp) ?_ hu
    intro y hy
    simp only [List.mem_cons, List.mem_append, List.not_mem_nil, or_false] at hy
    rcases hy with rfl | rfl | hy | rfl | hy | rfl
    · exact (mainLine_of_unexpected (qR _ (by simp))).1
    · simp [lineAt, isUnexpected]
    · exact (mainLine_of_unexpected (qQ y hy)).1
    · simp [lineAt, isUnexpected]
    · exact (mainLine_of_unexpected (qX y hy)).1
    · simp [lineAt, isUnexpected]

end Unexpected
/-! ## The exit status of main -/

section Verdict
variable {σ : Type}

theorem verdict_quiet_toLoop {os : OS σ} {w wC wP wL wLp : σ} {tC tP tL tLp : List (Event × σ)}
    {r : Int} {rLp : Res Nat}
    (hC : create_test_environment os w = ⟨Res.ret (), wC, tC⟩)
    (hP : attempt_file_access os wC = ⟨Res.ret r, wP, tP⟩)
    (hL : simulate_filesystem_loss os wP = ⟨Res.ret (), wL, tL⟩)
    (hLp : retry_loop os 0 wL = ⟨rLp, wLp, tLp⟩) :
    ∀ x ∈ logToLoop w tC wC tP r wP tL wL tLp,
      isRecoveredOk x.1 = false ∧ isRecoveredBad x.1 = false := by
  have h1 := loop_verdict (retry_loop_shape os 0 wL)
  rw [hLp] at h1
  rw [logToLoop_append]
  intro x hx
  rcases List.mem_append.mp hx with hx | hx
  · exact (logToLoop_quiet hC hP hL x hx).2
  · exact h1 x hx

theorem loss_renamed {os : OS σ} {w wL : σ} {tL : List (Event × σ)}
    (hL : simulate_filesystem_loss os w = ⟨Res.ret (), wL, tL⟩) :
    (events tL).any (isRenameOk TEST_DIR TEMP_DIR) = true := by
  rw [simulate_filesystem_loss_run] at hL
  split_ifs at hL with h
  · cases hL
  · cases hL
    simp [isRenameOk, h]

theorem recovery_renamed {os : OS σ} {w wR : σ} {tR : List (Event × σ)}
    (hR : simulate_filesystem_recovery os w = ⟨Res.ret (), wR, tR⟩) :
    (events tR).any (isRenameOk TEMP_DIR TEST_DIR) = true := by
  rw [simulate_filesystem_recovery_run] at hR
  split_ifs at hR with h
  · cases hR
  · cases hR
    simp [isRenameOk, h]

theorem any_false_iff_quiet {p : Event → Bool} {t : List (Event × σ)} :
    (events t).any p = false ↔ ∀ x ∈ t, p x.1 = false := by
  constructor
  · intro h x hx
    by_contra hp
    have : (events t).any p = true := by
      rw [List.any_eq_true]
      exact ⟨x.1, List.mem_map.mpr ⟨x, hx, rfl⟩, by simpa using hp⟩
    rw [h] at this
    exact Bool.false_ne_true this
  · exact any_events_quiet

theorem main_verdict {os : OS σ} {w : σ} {R : Run σ Int} (h : MainShape os w R) :
    (R.res = Res.ret 0 ↔
      (create_test_environment os w).res = Res.ret () ∧
      (events R.trace).any (isRenameOk TEST_DIR TEMP_DIR) = true ∧
      (events R.trace).any (isRenameOk TEMP_DIR TEST_DIR) = true ∧
      (events R.trace).any isRecoveredOk = true) ∧
    (R.res = Res.ret 0 ∨ R.res = Res.exit EXIT_FAILURE ∨ R.res = Res.fault) ∧
    ((events R.trace).any isRecoveredBad = true →
      R.res = Res.exit EXIT_FAILURE ∧
      ∃ t wQ, R.trace = t ++ lineAt "File access failed after recovery\n" wQ ::
        (cleanup os wQ).trace ∧ R.world = (cleanup os wQ).world) := by
  -- in every shape but the last two the log has no verdict line
  have stop : ∀ (r : Res Int) (wS : σ) (t : List (Event × σ)), r ≠ Res.ret 0 →
      (r = Res.ret 0 ∨ r = Res.exit EXIT_FAILURE ∨ r = Res.fault) →
      (∀ x ∈ t, isRecoveredOk x.1 = false ∧ isRecoveredBad x.1 = false) →
      ((Run.mk r wS t).res = Res.ret 0 ↔
        (create_test_environment os w).res = Res.ret () ∧
        (events (Run.mk r wS t).trace).any (isRenameOk TEST_DIR TEMP_DIR) = true ∧
        (events (Run.mk r wS t).trace).any (isRenameOk TEMP_DIR TEST_DIR) = true ∧
        (events (Run.mk r wS t).trace).any isRecoveredOk = true) ∧
      ((Run.mk r wS t).res = Res.ret 0 ∨ (Run.mk r wS t).res = Res.exit EXIT_FAILURE ∨
        (Run.mk r wS t).res = Res.fault) ∧
      ((events (Run.mk r wS t).trace).any isRecoveredBad = true →
        (Run.mk r wS t).res = Res.exit EXIT_FAILURE ∧
        ∃ t1 wQ, (Run.mk r wS t).trace = t1 ++ lineAt "File access failed after recovery\n" wQ ::
          (cleanup os wQ).trace ∧ (Run.mk r wS t).world = (cleanup os wQ).world) := by
    intro r wS t hr hr2 hq
    have h1 : (events t).any isRecoveredOk = false := any_events_quiet (fun x hx => (hq x hx).1)
    have h2 : (events t).any isRecoveredBad = false := any_events_quiet (fun x hx => (hq x hx).2)
    refine ⟨⟨fun h => absurd h hr, fun h => ?_⟩, hr2, fun h => ?_⟩
    · simp only [h1] at h
      exact absurd h.2.2.2 Bool.false_ne_true
    · simp only [h2] at h
      exact absurd h Bool.false_ne_true
  cases h with
  | provision wC tC hC =>
    apply stop _ _ _ (by simp) (by simp)
    have qC := create_test_environment_quiet os w
    rw [hC] at qC
    intro x hx
    rcases List.mem_cons.mp hx with rfl | hx
    · simp [lineAt, isRecoveredOk, isRecoveredBad]
    · exact (mainLine_of_unexpected (qC x hx)).2
  | probeBefore wC tC wP tP hC hP =>
    apply stop _ _ _ (by simp) (by simp)
    have qC := create_test_environment_quiet os w
    have qP := attempt_file_access_quiet os wC
    rw [hC] at qC
    rw [hP] at qP
    intro x hx
    simp only [List.mem_cons, List.mem_append] at hx
    rcases hx with rfl | hx | rfl | hx
    · simp [lineAt, isRecoveredOk, isRecoveredBad]
    · exact (mainLine_of_unexpected (qC x hx)).2
    · simp [lineAt, isRecoveredOk, isRecoveredBad]
    · exact (mainLine_of_unexpected (qP x hx)).2
  | loss wC tC r wP tP wL tL hC hP hL =>
    apply stop _ _ _ (by simp) (by simp)
    intro x hx
    have := logToLoop_quiet hC hP hL x
    simp only [logToLoop, List.mem_cons, List.mem_append, List.not_mem_nil, or_false] at this hx
    refine (this ?_).2
    tauto
  | loop wC tC r wP tP wL tL wLp tLp hC hP hL hLp =>
    exact stop _ _ _ (by simp) (by simp) (verdict_quiet_toLoop hC hP hL hLp)
  | recovery wC tC r wP tP wL tL k wLp tLp wR tR hC hP hL hLp hR =>
    apply stop _ _ _ (by simp) (by simp)
    have qR := simulate_filesystem_recovery_quiet os wLp
    rw [hR] at qR
    intro x hx
    rcases List.mem_append.mp hx with hx | hx
    · exact verdict_quiet_toLoop hC hP hL hLp x hx
    · exact (mainLine_of_unexpected (qR x hx)).2
  | probeAfter wC tC r wP tP wL tL k wLp tLp wR tR wQ tQ hC hP hL hLp hR hQ =>
    apply stop _ _ _ (by simp) (by simp)
    have qR := simulate_filesystem_recovery_quiet os wLp
    have qQ := attempt_file_access_quiet os wR
    rw [hR] at qR
    rw [hQ] at qQ
    intro x hx
    simp only [List.mem_cons, List.mem_append] at hx
    rcases hx with hx | hx | rfl | hx
    · exact verdict_quiet_toLoop hC hP hL hLp x hx
    · exact (mainLine_of_unexpected (qR x hx)).2
    · simp [lineAt, isRecoveredOk, isRecoveredBad]
    · exact (mainLine_of_unexpected (qQ x hx)).2
  | failed wC tC r wP tP wL tL k wLp tLp wR tR q wQ tQ hC hP hL hLp hR hQ hq =>
    have qR := simulate_filesystem_recovery_quiet os wLp
    have qQ := attempt_file_access_quiet os wR
    have qX := cleanup_quiet os wQ
    rw [hR] at qR
    rw [hQ] at qQ
    have h1 : (events (logToLoop w tC wC tP r wP tL wL tLp ++ (tR ++
        lineAt "Attempting file access after recovery...\n" wR :: (tQ ++
          lineAt "File access failed after recovery\n" wQ :: (cleanup os wQ).trace)))).any
        isRecoveredOk = false := by
      apply any_events_quiet
      intro x hx
      simp only [List.mem_cons, List.mem_append] at hx
      rcases hx with hx | hx | rfl | hx | rfl | hx
      · exact (verdict_quiet_toLoop hC hP hL hLp x hx).1
      · exact (mainLine_of_unexpected (qR x hx)).2.1
      · simp [lineAt, isRecoveredOk]
      · exact (mainLine_of_unexpected (qQ x hx)).2.1
      · simp [lineAt, isRecoveredOk]
      · exact (mainLine_of_unexpected (qX x hx)).2.1
    refine ⟨⟨fun h => by simp at h, fun h => ?_⟩, Or.inr (Or.inl rfl), fun _ => ⟨rfl, ?_⟩⟩
    · simp only [h1] at h
      exact absurd h.2.2.2 Bool.false_ne_true
    · refine ⟨logToLoop w tC wC tP r wP tL wL tLp ++ (tR ++
        lineAt "Attempting file access after recovery...\n" wR :: tQ), wQ, ?_, rfl⟩
      simp
  | success wC tC r wP tP wL tL k wLp tLp wR tR wQ tQ hC hP hL hLp hR hQ =>
    have qR := simulate_filesystem_recovery_quiet os wLp
    have qQ := attempt_file_access_quiet os wR
    have qX := cleanup_quiet os wQ
    rw [hR] at qR
    rw [hQ] at qQ
    have h2 : (events (logToLoop w tC wC tP r wP tL wL tLp ++ (tR ++
        lineAt "Attempting file access after recovery...\n" wR :: (tQ ++
          lineAt "File access successful after recovery\n" wQ :: ((cleanup os wQ).trace ++
            [lineAt "Simulation completed successfully\n" (cleanup os wQ).world]))))).any
        isRecoveredBad = false := by
      apply any_events_quiet
      intro x hx
      simp only [List.mem_cons, List.mem_append, List.not_mem_nil, or_false] at hx
      rcases hx with hx | hx | rfl | hx | rfl | hx | rfl
      · exact (verdict_quiet_toLoop hC hP hL hLp x hx).2
      · exact (mainLine_of_unexpected (qR x hx)).2.2
      · simp [lineAt, isRecoveredBad]
      · exact (mainLine_of_unexpected (qQ x hx)).2.2
      · simp [lineAt, isRecoveredBad]
      · exact (mainLine_of_unexpected (qX x hx)).2.2
      · simp [lineAt, isRecoveredBad]
    refine ⟨⟨fun _ => ⟨by rw [hC], ?_, ?_, ?_⟩, fun _ => rfl⟩, Or.inl rfl, fun h => ?_⟩
    · have := loss_renamed hL
      simp only [logToLoop, events_append, events_cons, List.any_append, List.any_cons, this]
      simp
    · have := recovery_renamed hR
      simp only [events_append, events_cons, List.any_append, List.any_cons, this]
      simp
    · simp [lineAt, isRecoveredOk]
    · simp only [h2] at h
      exact absurd h Bool.false_ne_true

end Verdict
/-! ## Facts about the filesystem model -/

section ModelFacts

theorem test_ne_temp : TEST_DIR ≠ TEMP_DIR := by decide

theorem temp_ne_test : TEMP_DIR ≠ TEST_DIR := by decide

theorem file_ne_test : TEST_FILE ≠ TEST_DIR := by decide

theorem file_ne_temp : TEST_FILE ≠ TEMP_DIR := by decide

theorem content_length : content.length = 36 := by decide

theorem c_str_content : c_str content = content := by decide

theorem posix_readOk : ReadOk posix := by
  intro fd count w
  rw [posix_read_eq]
  unfold posix_read
  split
  · split
    · right
      refine ⟨?_, ?_, ?_⟩
      · exact Int.ofNat_nonneg _
      · exact Int.ofNat_le.mpr (by simp only [List.length_take]; omega)
      · rfl
    · left; rfl
    · left; rfl
  · left; rfl

theorem takeWhile_append_stop {α : Type} (p : α → Bool) (l1 l2 : List α) (a : α)
    (ha : p a = false) : (l1 ++ a :: l2).takeWhile p = l1.takeWhile p := by
  induction l1 with
  | nil => simp [List.takeWhile, ha]
  | cons x l ih =>
    simp only [List.cons_append, List.takeWhile_cons, ih]

/-- The text printed for the buffer of a probe, after a `read` that stored at
most 255 bytes and the NUL stored right after them. -/
theorem c_str_buffer (data : List Char) (h : data.length ≤ 255) :
    c_str (((data ++ (indeterminate 256).drop data.length).take
      (indeterminate 256).length).set data.length NUL) = c_str data := by
  have hl : (data ++ (indeterminate 256).drop data.length).length = 256 := by
    simp only [List.length_append, List.length_drop, indeterminate_length]
    omega
  have hl2 : (indeterminate 256).length =
      (data ++ (indeterminate 256).drop data.length).length := by
    rw [hl, indeterminate_length]
  rw [hl2, List.take_length]
  have hd : ((indeterminate 256).drop data.length).length = 256 - data.length := by
    simp only [List.length_drop, indeterminate_length]
  rcases hr : (indeterminate 256).drop data.length with _ | ⟨x, rest⟩
  · rw [hr] at hd
    simp at hd
    omega
  · rw [List.set_append_right _ _ (le_refl _)]
    simp only [Nat.sub_self, List.set_cons_zero]
    unfold c_str
    exact takeWhile_append_stop _ _ _ _ (by simp)

end ModelFacts
/-! ## Probes in the model -/

section ModelProbe

theorem probeOpen_posix_file (d : Entry) (others : List String) (s : Option Node) (e : Int) :
    probeOpen posix ⟨some (Node.dir ⟨some d, others⟩), s, none, e⟩ =
      (3, ⟨some (Node.dir ⟨some d, others⟩), s, some ⟨false, 0⟩, e⟩) := by
  simp [probeOpen, posix_open_eq, posix_open]

theorem probeRead_posix_file (bytes : List Char) (others : List String) (s : Option Node)
    (e : Int) :
    probeRead posix ⟨some (Node.dir ⟨some (Entry.file bytes), others⟩), s, none, e⟩ =
      ((((bytes.take 255).length : Nat) : Int), bytes.take 255,
        ⟨some (Node.dir ⟨some (Entry.file bytes), others⟩), s,
          some ⟨false, (bytes.take 255).length⟩, e⟩) := by
  simp [probeRead, probeOpen_posix_file, posix_read_eq, posix_read]

theorem probeClose_posix_file (bytes : List Char) (others : List String) (s : Option Node)
    (e : Int) :
    probeClose posix ⟨some (Node.dir ⟨some (Entry.file bytes), others⟩), s, none, e⟩ =
      (0, ⟨some (Node.dir ⟨some (Entry.file bytes), others⟩), s, none, e⟩) := by
  simp [probeClose, probeOpen_posix_file, probeRead_posix_file, posix_close_eq, posix_close]

/-- A probe of the model when `test_filesystem/data.txt` is a regular file. -/
theorem attempt_file_access_posix_file (bytes : List Char) (others : List String)
    (s : Option Node) (e : Int) :
    attempt_file_access posix ⟨some (Node.dir ⟨some (Entry.file bytes), others⟩), s, none, e⟩ =
      ⟨Res.ret 0, ⟨some (Node.dir ⟨some (Entry.file bytes), others⟩), s, none, e⟩,
        [(Event.open_ TEST_FILE O_RDONLY none 3,
            ⟨some (Node.dir ⟨some (Entry.file bytes), others⟩), s, some ⟨false, 0⟩, e⟩),
         (Event.read 3 255 (((bytes.take 255).length : Nat) : Int),
            ⟨some (Node.dir ⟨some (Entry.file bytes), others⟩), s,
              some ⟨false, (bytes.take 255).length⟩, e⟩),
         (Event.printf "Successfully read from file: %s" [Arg.buf (c_str (bytes.take 255))],
            ⟨some (Node.dir ⟨some (Entry.file bytes), others⟩), s,
              some ⟨false, (bytes.take 255).length⟩, e⟩),
         (Event.close 3 0,
            ⟨some (Node.dir ⟨some (Entry.file bytes), others⟩), s, none, e⟩)]⟩ := by
  have hlen : (bytes.take 255).length ≤ 255 := by
    simp only [List.length_take]; omega
  have hbuf := c_str_buffer (bytes.take 255) hlen
  rw [attempt_file_access_run]
  simp only [probeBuffer, probeOpen_posix_file, probeRead_posix_file, probeClose_posix_file,
    Int.toNat_ofNat, hbuf]
  rw [if_neg (by decide), if_neg (by omega), if_pos (by omega)]

/-- A probe of the model when `test_filesystem` does not exist. -/
theorem attempt_file_access_posix_absent (s : Option Node) (e : Int) :
    attempt_file_access posix ⟨none, s, none, e⟩ =
      ⟨Res.ret (-1), ⟨none, s, none, ENOENT⟩,
        [(Event.open_ TEST_FILE O_RDONLY none (-1), ⟨none, s, none, ENOENT⟩),
         (Event.eprintf "Failed to access file %s: %s\n"
            [Arg.str TEST_FILE, Arg.strerror ENOENT], ⟨none, s, none, ENOENT⟩)]⟩ := by
  have hO : probeOpen posix ⟨none, s, none, e⟩ = (-1, ⟨none, s, none, ENOENT⟩) := by
    simp [probeOpen, posix_open_eq, posix_open, World.fail]
  rw [attempt_file_access_run]
  simp only [hO, if_true, posix_errno_eq]

end ModelProbe
/-! ## Provisioning in the model -/

section ModelProvision

theorem flags_ne : (O_CREAT ||| O_WRONLY ||| O_TRUNC) ≠ O_RDONLY := by decide

set_option maxRecDepth 4000 in
/-- Provisioning in the model when `test_filesystem` does not exist. -/
theorem create_posix_absent (s : Option Node) (e : Int) :
    create_test_environment posix ⟨none, s, none, e⟩ =
      ⟨Res.ret (), ⟨some (Node.dir ⟨some (Entry.file content), []⟩), s, none, e⟩,
        [(Event.mkdir TEST_DIR 493 0, ⟨some (Node.dir ⟨none, []⟩), s, none, e⟩),
         (Event.open_ TEST_FILE (O_CREAT ||| O_WRONLY ||| O_TRUNC) (some 420) 3,
            ⟨some (Node.dir ⟨some (Entry.file []), []⟩), s, some ⟨true, 0⟩, e⟩),
         (Event.write 3 content content.length content.length,
            ⟨some (Node.dir ⟨some (Entry.file content), []⟩), s,
              some ⟨true, content.length⟩, e⟩),
         (Event.close 3 0, ⟨some (Node.dir ⟨some (Entry.file content), []⟩), s, none, e⟩),
         (Event.printf "Test environment created: %s\n" [Arg.str TEST_FILE],
            ⟨some (Node.dir ⟨some (Entry.file content), []⟩), s, none, e⟩)]⟩ := by
  simp only [create_test_environment, mkdir_bind, errno_bind, ite_run, eprintf_bind, exit_run,
    open_bind, write_bind, close_bind, printf_run, Run.after_nil, Run.after_mk, Run.after_ite]
  simp [posix_mkdir_eq, posix_open_eq, posix_write_eq, posix_close_eq, posix_errno_eq,
    posix_mkdir, posix_open, posix_write, posix_close, World.fail, writeAt, file_ne_test, flags_ne]

set_option maxRecDepth 4000 in
/-- Provisioning in the model when `test_filesystem` is a directory in which
`data.txt` is absent or a regular file. -/
theorem create_posix_present (d : Option Entry) (others : List String) (s : Option Node)
    (e : Int) (hd : d ≠ some Entry.dir) :
    create_test_environment posix ⟨some (Node.dir ⟨d, others⟩), s, none, e⟩ =
      ⟨Res.ret (), ⟨some (Node.dir ⟨some (Entry.file content), others⟩), s, none, EEXIST⟩,
        [(Event.mkdir TEST_DIR 493 (-1), ⟨some (Node.dir ⟨d, others⟩), s, none, EEXIST⟩),
         (Event.open_ TEST_FILE (O_CREAT ||| O_WRONLY ||| O_TRUNC) (some 420) 3,
            ⟨some (Node.dir ⟨some (Entry.file []), others⟩), s, some ⟨true, 0⟩, EEXIST⟩),
         (Event.write 3 content content.length content.length,
            ⟨some (Node.dir ⟨some (Entry.file content), others⟩), s,
              some ⟨true, content.length⟩, EEXIST⟩),
         (Event.close 3 0,
            ⟨some (Node.dir ⟨some (Entry.file content), others⟩), s, none, EEXIST⟩),
         (Event.printf "Test environment created: %s\n" [Arg.str TEST_FILE],
            ⟨some (Node.dir ⟨some (Entry.file content), others⟩), s, none, EEXIST⟩)]⟩ := by
  simp only [create_test_environment, mkdir_bind, errno_bind, ite_run, eprintf_bind, exit_run,
    open_bind, write_bind, close_bind, printf_run, Run.after_nil, Run.after_mk, Run.after_ite]
  rcases d with _ | d
  · simp [posix_mkdir_eq, posix_open_eq, posix_write_eq, posix_close_eq, posix_errno_eq,
      posix_mkdir, posix_open, posix_write, posix_close, World.fail, writeAt, file_ne_test,
      flags_ne]
  · cases d with
    | dir => exact absurd rfl hd
    | file bytes =>
      simp [posix_mkdir_eq, posix_open_eq, posix_write_eq, posix_close_eq, posix_errno_eq,
        posix_mkdir, posix_open, posix_write, posix_close, World.fail, writeAt, file_ne_test,
        flags_ne]

set_option maxRecDepth 4000 in
/-- Provisioning in the model fails in every other world. -/
theorem create_posix_fails (w : World)
    (h : (create_test_environment posix w).res = Res.ret ()) :
    w.fd = none ∧ (w.active = none ∨
      ∃ d others, w.active = some (Node.dir ⟨d, others⟩) ∧ d ≠ some Entry.dir) := by
  rcases w with ⟨a, s, fd, e⟩
  simp only [create_test_environment, mkdir_bind, errno_bind, ite_run, eprintf_bind, exit_run,
    open_bind, write_bind, close_bind, printf_run, Run.after_nil, Run.after_mk, Run.after_ite]
    at h
  rcases fd with _ | fd
  · refine ⟨rfl, ?_⟩
    rcases a with _ | a
    · exact Or.inl rfl
    · right
      cases a with
      | file bytes =>
        exfalso
        simp [posix_mkdir_eq, posix_open_eq, posix_write_eq, posix_close_eq, posix_errno_eq,
          posix_mkdir, posix_open, posix_write, posix_close, World.fail, writeAt, file_ne_test,
          flags_ne] at h
      | dir dd =>
        rcases dd with ⟨d, others⟩
        refine ⟨d, others, rfl, ?_⟩
        rintro rfl
        simp [posix_mkdir_eq, posix_open_eq, posix_write_eq, posix_close_eq, posix_errno_eq,
          posix_mkdir, posix_open, posix_write, posix_close, World.fail, writeAt, file_ne_test,
          flags_ne] at h
  · exfalso
    rcases a with _ | a <;>
    simp [posix_mkdir_eq, posix_open_eq, posix_write_eq, posix_close_eq, posix_errno_eq,
      posix_mkdir, posix_open, posix_write, posix_close, World.fail, writeAt, file_ne_test,
      flags_ne] at h

end ModelProvision
/-! ## The toggles and the retry loop in the model -/

section ModelToggle

theorem content_take : content.take 255 = content :=
  List.take_of_length_le (by rw [content_length]; omega)

theorem attempt_file_access_posix_data (others : List String) (s : Option Node) (e : Int) :
    attempt_file_access posix ⟨dataDir others, s, none, e⟩ =
      ⟨Res.ret 0, ⟨dataDir others, s, none, e⟩, probeLog others s e⟩ := by
  unfold dataDir probeLog
  rw [attempt_file_access_posix_file, content_take, c_str_content, content_length]
  rfl

theorem simulate_filesystem_loss_posix (n : Node) (s : Option Node) (e : Int)
    (hs : renameNode n s = Except.ok n) :
    simulate_filesystem_loss posix ⟨some n, s, none, e⟩ =
      ⟨Res.ret (), ⟨none, some n, none, e⟩,
        [(Event.rename TEST_DIR TEMP_DIR 0, ⟨none, some n, none, e⟩),
         (Event.printf "Filesystem loss simulated: %s is unavailable\n" [Arg.str TEST_DIR],
            ⟨none, some n, none, e⟩)]⟩ := by
  rw [simulate_filesystem_loss_run]
  simp [posix_rename_eq, posix_rename, hs]

theorem simulate_filesystem_recovery_posix (n : Node) (e : Int) :
    simulate_filesystem_recovery posix ⟨none, some n, none, e⟩ =
      ⟨Res.ret (), ⟨some n, none, none, e⟩,
        [(Event.rename TEMP_DIR TEST_DIR 0, ⟨some n, none, none, e⟩),
         (Event.printf "Filesystem recovered: %s is available\n" [Arg.str TEST_DIR],
            ⟨some n, none, none, e⟩)]⟩ := by
  rw [simulate_filesystem_recovery_run]
  simp [posix_rename_eq, posix_rename, renameNode, temp_ne_test]

theorem retry_loop_posix_absent (s : Option Node) :
    ∀ (n ac : Nat) (e : Int), ac + n = MAX_ATTEMPTS →
      retry_loop posix ac ⟨none, s, none, e⟩ =
        ⟨Res.ret MAX_ATTEMPTS, ⟨none, s, none, if n = 0 then e else ENOENT⟩,
          failedRounds s n ac⟩ := by
  intro n
  induction n with
  | zero =>
    intro ac e h
    have hac : ac = MAX_ATTEMPTS := by omega
    subst hac
    rw [retry_loop_done posix _ _ (lt_irrefl _)]
    rfl
  | succ n ih =>
    intro ac e h
    rw [retry_loop_retry posix ac _ _ (-1) _ (by omega) (attempt_file_access_posix_absent s e)
      (by decide)]
    have hs : posix.sleep SLEEP_INTERVAL ⟨none, s, none, ENOENT⟩ = (0, ⟨none, s, none, ENOENT⟩) :=
      rfl
    rw [hs, ih (ac + 1) ENOENT (by omega)]
    simp [failedRounds, failedRound]

end ModelToggle
/-! ## The run of main in the model -/

section ModelMain

theorem retry_loop_posix_lost (s : Option Node) (e : Int) :
    retry_loop posix 0 ⟨none, s, none, e⟩ =
      ⟨Res.ret MAX_ATTEMPTS, ⟨none, s, none, ENOENT⟩, failedRounds s MAX_ATTEMPTS 0⟩ := by
  rw [retry_loop_posix_absent s MAX_ATTEMPTS 0 e (by omega)]
  rfl

set_option maxRecDepth 4000 in
/-- The run of `main` in the model once provisioning has succeeded, when the
shadow path is absent or an empty directory at the start. -/
theorem main_posix_run (a s : Option Node) (e : Int) (others : List String) (e1 : Int)
    (tC : List (Event × World))
    (hs : renameNode (Node.dir ⟨some (Entry.file content), others⟩) s =
      Except.ok (Node.dir ⟨some (Entry.file content), others⟩))
    (hC : create_test_environment posix ⟨a, s, none, e⟩ =
      ⟨Res.ret (), ⟨dataDir others, s, none, e1⟩, tC⟩) :
    main posix ⟨a, s, none, e⟩ =
      ⟨Res.ret 0, (cleanup posix ⟨dataDir others, none, none, ENOENT⟩).world,
        lineAt "Starting filesystem loss and recovery simulation\n" ⟨a, s, none, e⟩ ::
          (tC ++ (middleLog others s e1 ++
            ((cleanup posix ⟨dataDir others, none, none, ENOENT⟩).trace ++
              [lineAt "Simulation completed successfully\n"
                (cleanup posix ⟨dataDir others, none, none, ENOENT⟩).world])))⟩ := by
  have hP := attempt_file_access_posix_data others s e1
  have hL : simulate_filesystem_loss posix ⟨dataDir others, s, none, e1⟩ =
      ⟨Res.ret (), ⟨none, dataDir others, none, e1⟩,
        [(Event.rename TEST_DIR TEMP_DIR 0, ⟨none, dataDir others, none, e1⟩),
         (Event.printf "Filesystem loss simulated: %s is unavailable\n" [Arg.str TEST_DIR],
            ⟨none, dataDir others, none, e1⟩)]⟩ :=
    simulate_filesystem_loss_posix _ s e1 hs
  have hLp := retry_loop_posix_lost (dataDir others) e1
  have hR : simulate_filesystem_recovery posix ⟨none, dataDir others, none, ENOENT⟩ =
      ⟨Res.ret (), ⟨dataDir others, none, none, ENOENT⟩,
        [(Event.rename TEMP_DIR TEST_DIR 0, ⟨dataDir others, none, none, ENOENT⟩),
         (Event.printf "Filesystem recovered: %s is available\n" [Arg.str TEST_DIR],
            ⟨dataDir others, none, none, ENOENT⟩)]⟩ :=
    simulate_filesystem_recovery_posix _ ENOENT
  have hQ := attempt_file_access_posix_data others none ENOENT
  simp [main, bind_assoc_run, ite_bind, ite_run, printf_bind, pure_bind_run, bind_ret hC,
    bind_ret hP, bind_ret hL, bind_ret hLp, bind_ret hR, bind_ret hQ,
    bind_ret (cleanup_eq posix ⟨dataDir others, none, none, ENOENT⟩), pure_apply, Run.after,
    lineAt, middleLog]

/-- The run of `cleanup` in the model on what provisioning created. -/
theorem cleanup_posix_data (e : Int) :
    cleanup posix ⟨dataDir [], none, none, e⟩ =
      ⟨Res.ret (), ⟨none, none, none, ENOENT⟩,
        [(Event.unlink TEST_FILE 0, ⟨some (Node.dir ⟨none, []⟩), none, none, e⟩),
         (Event.rmdir TEST_DIR 0, ⟨none, none, none, e⟩),
         (Event.rmdir TEMP_DIR (-1), ⟨none, none, none, ENOENT⟩),
         (Event.printf "Cleanup completed\n" [], ⟨none, none, none, ENOENT⟩)]⟩ := by
  rw [cleanup_run]
  simp [cleanupUnlink, cleanupRmdir, cleanupRmtmp, posix_unlink_eq, posix_rmdir_eq,
    posix_errno_eq, posix_unlink, posix_rmdir, rmdirNode, Dir.isEmpty, World.fail, dataDir,
    temp_ne_test]

end ModelMain

/-! ## Facts about the model with permissions -/

section StrictFacts

theorem strict_errno_eq (sw : Strict) : strict.errno sw = sw.base.errno := rfl
theorem strict_mkdir_eq : strict.mkdir = strict_mkdir := rfl
theorem strict_open_eq : strict.open_ = strict_open := rfl
theorem strict_write_eq : strict.write = strict_write := rfl
theorem strict_read_eq : strict.read = strict_read := rfl
theorem strict_close_eq : strict.close = strict_close := rfl

theorem take_min_content (lim : Nat) :
    List.take (content.length ⊓ lim) content = List.take lim content := by
  apply List.ext_getElem
  · simp only [List.length_take]; omega
  · intro i h1 h2
    simp only [List.getElem_take]

theorem content_pos : 0 < content.length := by decide

theorem min_content_ne (lim : Nat) : ((content.length : Int) ⊓ (lim : Int)) ≠ -1 := by omega

set_option maxRecDepth 4000 in
/-- Provisioning in the model with permissions when `data.txt` is a regular
file that the owner may write, in a directory the owner may search. -/
theorem create_strict_file (dm fm sdm sfm um lim ff fl : Nat)
    (bytes : List Char) (others : List String) (s : Option Node) (e : Int)
    (hf : ff < fl) (hs : ownerSearch dm = true) (hw : ownerWrite fm = true) (hl : 0 < lim) :
    create_test_environment strict
        ⟨⟨some (Node.dir ⟨some (Entry.file bytes), others⟩), s, none, e⟩,
          dm, fm, sdm, sfm, um, lim, ff, fl⟩ =
      ⟨Res.ret (),
        ⟨⟨some (Node.dir ⟨some (Entry.file (content.take lim)), others⟩), s, none, EEXIST⟩,
          dm, fm, sdm, sfm, um, lim, ff, fl⟩,
        [(Event.mkdir TEST_DIR 493 (-1),
            ⟨⟨some (Node.dir ⟨some (Entry.file bytes), others⟩), s, none, EEXIST⟩,
              dm, fm, sdm, sfm, um, lim, ff, fl⟩),
         (Event.open_ TEST_FILE (O_CREAT ||| O_WRONLY ||| O_TRUNC) (some 420) ff,
            ⟨⟨some (Node.dir ⟨some (Entry.file []), others⟩), s, some ⟨true, 0⟩, EEXIST⟩,
              dm, fm, sdm, sfm, um, lim, ff, fl⟩),
         (Event.write ff content content.length ((content.length : Int) ⊓ (lim : Int)),
            ⟨⟨some (Node.dir ⟨some (Entry.file (content.take lim)), others⟩), s,
              some ⟨true, content.length ⊓ lim⟩, EEXIST⟩, dm, fm, sdm, sfm, um, lim, ff, fl⟩),
         (Event.close ff 0,
            ⟨⟨some (Node.dir ⟨some (Entry.file (content.take lim)), others⟩), s, none, EEXIST⟩,
              dm, fm, sdm, sfm, um, lim, ff, fl⟩),
         (Event.printf "Test environment created: %s\n" [Arg.str TEST_FILE],
            ⟨⟨some (Node.dir ⟨some (Entry.file (content.take lim)), others⟩), s, none, EEXIST⟩,
              dm, fm, sdm, sfm, um, lim, ff, fl⟩)]⟩ := by
  simp only [create_test_environment, mkdir_bind, errno_bind, ite_run, eprintf_bind, exit_run,
    open_bind, write_bind, close_bind, printf_run, Run.after_nil, Run.after_mk, Run.after_ite]
  have hff : ¬ fl ≤ ff := by omega
  have hff2 : ((ff : Nat) : Int) ≠ -1 := by omega
  have hl2 : ¬ lim ≤ 0 := by omega
  simp [strict_mkdir_eq, strict_open_eq, strict_write_eq, strict_close_eq, strict_errno_eq,
    strict_mkdir, strict_open, strict_write, strict_close, Strict.fail, Strict.lift,
    Strict.offset, openCreates, openDenied, hs, hw, hff, hff2, hl2,
    posix_mkdir, posix_open, posix_write, posix_close, World.fail, writeAt, file_ne_test,
    flags_ne]
  rw [if_neg (min_content_ne lim), take_min_content]

set_option maxRecDepth 4000 in
/-- Provisioning in the model with permissions when `data.txt` does not exist
in a directory the owner may search and write. -/
theorem create_strict_nofile (dm fm sdm sfm um lim ff fl : Nat)
    (others : List String) (s : Option Node) (e : Int)
    (hf : ff < fl) (hs : ownerSearch dm = true) (hw : ownerWrite dm = true) (hl : 0 < lim) :
    create_test_environment strict
        ⟨⟨some (Node.dir ⟨none, others⟩), s, none, e⟩, dm, fm, sdm, sfm, um, lim, ff, fl⟩ =
      ⟨Res.ret (),
        ⟨⟨some (Node.dir ⟨some (Entry.file (content.take lim)), others⟩), s, none, EEXIST⟩,
          dm, createdMode 420 um, sdm, sfm, um, lim, ff, fl⟩,
        [(Event.mkdir TEST_DIR 493 (-1),
            ⟨⟨some (Node.dir ⟨none, others⟩), s, none, EEXIST⟩,
              dm, fm, sdm, sfm, um, lim, ff, fl⟩),
         (Event.open_ TEST_FILE (O_CREAT ||| O_WRONLY ||| O_TRUNC) (some 420) ff,
            ⟨⟨some (Node.dir ⟨some (Entry.file []), others⟩), s, some ⟨true, 0⟩, EEXIST⟩,
              dm, createdMode 420 um, sdm, sfm, um, lim, ff, fl⟩),
         (Event.write ff content content.length ((content.length : Int) ⊓ (lim : Int)),
            ⟨⟨some (Node.dir ⟨some (Entry.file (content.take lim)), others⟩), s,
              some ⟨true, content.length ⊓ lim⟩, EEXIST⟩,
              dm, createdMode 420 um, sdm, sfm, um, lim, ff, fl⟩),
         (Event.close ff 0,
            ⟨⟨some (Node.dir ⟨some (Entry.file (content.take lim)), others⟩), s, none, EEXIST⟩,
              dm, createdMode 420 um, sdm, sfm, um, lim, ff, fl⟩),
         (Event.printf "Test environment created: %s\n" [Arg.str TEST_FILE],
            ⟨⟨some (Node.dir ⟨some (Entry.file (content.take lim)), others⟩), s, none, EEXIST⟩,
              dm, createdMode 420 um, sdm, sfm, um, lim, ff, fl⟩)]⟩ := by
  simp only [create_test_environment, mkdir_bind, errno_bind, ite_run, eprintf_bind, exit_run,
    open_bind, write_bind, close_bind, printf_run, Run.after_nil, Run.after_mk, Run.after_ite]
  have hff : ¬ fl ≤ ff := by omega
  have hff2 : ((ff : Nat) : Int) ≠ -1 := by omega
  have hl2 : ¬ lim ≤ 0 := by omega
  simp [strict_mkdir_eq, strict_open_eq, strict_write_eq, strict_close_eq, strict_errno_eq,
    strict_mkdir, strict_open, strict_write, strict_close, Strict.fail, Strict.lift,
    Strict.offset, openCreates, openDenied, hs, hw, hff, hff2, hl2,
    posix_mkdir, posix_open, posix_write, posix_close, World.fail, writeAt, file_ne_test,
    flags_ne]
  rw [if_neg (min_content_ne lim), take_min_content]

set_option maxRecDepth 4000 in
/-- Provisioning in the model with permissions when `test_filesystem` does not
exist and the umask leaves the owner the search and write bits of the new
directory. -/
theorem create_strict_absent (dm fm sdm sfm um lim ff fl : Nat)
    (s : Option Node) (e : Int)
    (hf : ff < fl) (hs : ownerSearch (createdMode 493 um) = true)
    (hw : ownerWrite (createdMode 493 um) = true) (hl : 0 < lim) :
    create_test_environment strict
        ⟨⟨none, s, none, e⟩, dm, fm, sdm, sfm, um, lim, ff, fl⟩ =
      ⟨Res.ret (),
        ⟨⟨some (Node.dir ⟨some (Entry.file (content.take lim)), []⟩), s, none, e⟩,
          createdMode 493 um, createdMode 420 um, sdm, sfm, um, lim, ff, fl⟩,
        [(Event.mkdir TEST_DIR 493 0,
            ⟨⟨some (Node.dir ⟨none, []⟩), s, none, e⟩,
              createdMode 493 um, fm, sdm, sfm, um, lim, ff, fl⟩),
         (Event.open_ TEST_FILE (O_CREAT ||| O_WRONLY ||| O_TRUNC) (some 420) ff,
            ⟨⟨some (Node.dir ⟨some (Entry.file []), []⟩), s, some ⟨true, 0⟩, e⟩,
              createdMode 493 um, createdMode 420 um, sdm, sfm, um, lim, ff, fl⟩),
         (Event.write ff content content.length ((content.length : Int) ⊓ (lim : Int)),
            ⟨⟨some (Node.dir ⟨some (Entry.file (content.take lim)), []⟩), s,
              some ⟨true, content.length ⊓ lim⟩, e⟩,
              createdMode 493 um, createdMode 420 um, sdm, sfm, um, lim, ff, fl⟩),
         (Event.close ff 0,
            ⟨⟨some (Node.dir ⟨some (Entry.file (content.take lim)), []⟩), s, none, e⟩,
              createdMode 493 um, createdMode 420 um, sdm, sfm, um, lim, ff, fl⟩),
         (Event.printf "Test environment created: %s\n" [Arg.str TEST_FILE],
            ⟨⟨some (Node.dir ⟨some (Entry.file (content.take lim)), []⟩), s, none, e⟩,
              createdMode 493 um, createdMode 420 um, sdm, sfm, um, lim, ff, fl⟩)]⟩ := by
  simp only [create_test_environment, mkdir_bind, errno_bind, ite_run, eprintf_bind, exit_run,
    open_bind, write_bind, close_bind, printf_run, Run.after_nil, Run.after_mk, Run.after_ite]
  have hff : ¬ fl ≤ ff := by omega
  have hff2 : ((ff : Nat) : Int) ≠ -1 := by omega
  have hl2 : ¬ lim ≤ 0 := by omega
  simp [strict_mkdir_eq, strict_open_eq, strict_write_eq, strict_close_eq, strict_errno_eq,
    strict_mkdir, strict_open, strict_write, strict_close, Strict.fail, Strict.lift,
    Strict.offset, openCreates, openDenied, hs, hw, hff, hff2, hl2,
    posix_mkdir, posix_open, posix_write, posix_close, World.fail, writeAt, file_ne_test,
    flags_ne, test_ne_temp]
  rw [if_neg (min_content_ne lim), take_min_content]

set_option maxRecDepth 4000 in
/-- Provisioning in the model with permissions ends the process when `data.txt`
is a regular file that the owner may not write. -/
theorem create_strict_readonly (dm fm sdm sfm um lim ff fl : Nat)
    (bytes : List Char) (others : List String) (s : Option Node) (e : Int)
    (hf : ff < fl) (hw : ownerWrite fm = false) :
    (create_test_environment strict
        ⟨⟨some (Node.dir ⟨some (Entry.file bytes), others⟩), s, none, e⟩,
          dm, fm, sdm, sfm, um, lim, ff, fl⟩).res = Res.exit EXIT_FAILURE ∧
    (create_test_environment strict
        ⟨⟨some (Node.dir ⟨some (Entry.file bytes), others⟩), s, none, e⟩,
          dm, fm, sdm, sfm, um, lim, ff, fl⟩).world =
      ⟨⟨some (Node.dir ⟨some (Entry.file bytes), others⟩), s, none, EACCES⟩,
          dm, fm, sdm, sfm, um, lim, ff, fl⟩ := by
  simp only [create_test_environment, mkdir_bind, errno_bind, ite_run, eprintf_bind, exit_run,
    open_bind, write_bind, close_bind, printf_run, Run.after_nil, Run.after_mk, Run.after_ite]
  have hff : ¬ fl ≤ ff := by omega
  simp [strict_mkdir_eq, strict_open_eq, strict_write_eq, strict_close_eq, strict_errno_eq,
    strict_mkdir, strict_open, strict_write, strict_close, Strict.fail, Strict.lift,
    Strict.offset, openCreates, openDenied, hw, hff,
    posix_mkdir, posix_open, posix_write, posix_close, World.fail, writeAt, file_ne_test,
    flags_ne]

end StrictFacts
section StrictFacts2

set_option maxRecDepth 4000 in
set_option maxHeartbeats 1600000 in
/-- The worlds of the model with permissions in which provisioning returns. -/
theorem create_strict_returns (sw : Strict)
    (h : (create_test_environment strict sw).res = Res.ret ()) :
    sw.base.fd = none ∧ sw.firstFree < sw.fdLimit ∧ 0 < sw.sizeLimit ∧
    ((sw.base.active = none ∧ ownerSearch (createdMode 493 sw.umask) = true ∧
        ownerWrite (createdMode 493 sw.umask) = true) ∨
      (∃ others, sw.base.active = some (Node.dir ⟨none, others⟩) ∧
        ownerSearch sw.dirMode = true ∧ ownerWrite sw.dirMode = true) ∨
      (∃ bytes others, sw.base.active = some (Node.dir ⟨some (Entry.file bytes), others⟩) ∧
        ownerSearch sw.dirMode = true ∧ ownerWrite sw.fileMode = true)) := by
  rcases sw with ⟨⟨a, s, fd, e⟩, dm, fm, sdm, sfm, um, lim, ff, fl⟩
  simp only [create_test_environment, mkdir_bind, errno_bind, ite_run, eprintf_bind, exit_run,
    open_bind, write_bind, close_bind, printf_run, Run.after_nil, Run.after_mk, Run.after_ite]
    at h
  by_cases hff : fl ≤ ff
  · exfalso
    rcases a with _ | a <;>
    simp [strict_mkdir_eq, strict_open_eq, strict_write_eq, strict_close_eq, strict_errno_eq,
      strict_mkdir, strict_open, strict_write, strict_close, Strict.fail, Strict.lift,
      Strict.offset, openCreates, openDenied, hff,
      posix_mkdir, posix_open, posix_write, posix_close, World.fail, writeAt, file_ne_test,
      flags_ne, test_ne_temp] at h
  · have hff2 : ((ff : Nat) : Int) ≠ -1 := by omega
    have hff3 : ff < fl := by omega
    by_cases hl : lim = 0
    · exfalso
      have hl2 : lim ≤ 0 := by omega
      rcases fd with _ | fd
      · rcases a with _ | a | ⟨d, others⟩
        · by_cases h1 : ownerSearch (createdMode 493 um) = true <;>
          by_cases h2 : ownerWrite (createdMode 493 um) = true <;>
          simp [strict_mkdir_eq, strict_open_eq, strict_write_eq, strict_close_eq, strict_errno_eq,
            strict_mkdir, strict_open, strict_write, strict_close, Strict.fail, Strict.lift,
            Strict.offset, openCreates, openDenied, hff, hff2, hl2, h1, h2,
            posix_mkdir, posix_open, posix_write, posix_close, World.fail, writeAt, file_ne_test,
            flags_ne, test_ne_temp, min_content_ne, content_pos] at h
        · simp [strict_mkdir_eq, strict_open_eq, strict_write_eq, strict_close_eq, strict_errno_eq,
            strict_mkdir, strict_open, strict_write, strict_close, Strict.fail, Strict.lift,
            Strict.offset, openCreates, openDenied, hff, hff2, hl2,
            posix_mkdir, posix_open, posix_write, posix_close, World.fail, writeAt, file_ne_test,
            flags_ne, test_ne_temp, min_content_ne, content_pos] at h
        · rcases d with _ | d | _
          · by_cases h3 : ownerSearch dm = true <;> by_cases h4 : ownerWrite dm = true <;>
            simp [strict_mkdir_eq, strict_open_eq, strict_write_eq, strict_close_eq, strict_errno_eq,
              strict_mkdir, strict_open, strict_write, strict_close, Strict.fail, Strict.lift,
              Strict.offset, openCreates, openDenied, hff, hff2, hl2, h3, h4,
              posix_mkdir, posix_open, posix_write, posix_close, World.fail, writeAt, file_ne_test,
              flags_ne, test_ne_temp, min_content_ne, content_pos] at h
          · by_cases h3 : ownerSearch dm = true <;> by_cases h5 : ownerWrite fm = true <;>
            simp [strict_mkdir_eq, strict_open_eq, strict_write_eq, strict_close_eq, strict_errno_eq,
              strict_mkdir, strict_open, strict_write, strict_close, Strict.fail, Strict.lift,
              Strict.offset, openCreates, openDenied, hff, hff2, hl2, h3, h5,
              posix_mkdir, posix_open, posix_write, posix_close, World.fail, writeAt, file_ne_test,
              flags_ne, test_ne_temp, min_content_ne, content_pos] at h
          · by_cases h3 : ownerSearch dm = true <;>
            simp [strict_mkdir_eq, strict_open_eq, strict_write_eq, strict_close_eq, strict_errno_eq,
              strict_mkdir, strict_open, strict_write, strict_close, Strict.fail, Strict.lift,
              Strict.offset, openCreates, openDenied, hff, hff2, hl2, h3,
              posix_mkdir, posix_open, posix_write, posix_close, World.fail, writeAt, file_ne_test,
              flags_ne, test_ne_temp, min_content_ne, content_pos] at h
      · rcases a with _ | a | ⟨d, others⟩
        · by_cases h1 : ownerSearch (createdMode 493 um) = true <;>
          by_cases h2 : ownerWrite (createdMode 493 um) = true <;>
          simp [strict_mkdir_eq, strict_open_eq, strict_write_eq, strict_close_eq, strict_errno_eq,
            strict_mkdir, strict_open, strict_write, strict_close, Strict.fail, Strict.lift,
            Strict.offset, openCreates, openDenied, hff, hff2, hl2, h1, h2,
            posix_mkdir, posix_open, posix_write, posix_close, World.fail, writeAt, file_ne_test,
            flags_ne, test_ne_temp, min_content_ne, content_pos] at h
        · simp [strict_mkdir_eq, strict_open_eq, strict_write_eq, strict_close_eq, strict_errno_eq,
            strict_mkdir, strict_open, strict_write, strict_close, Strict.fail, Strict.lift,
            Strict.offset, openCreates, openDenied, hff, hff2, hl2,
            posix_mkdir, posix_open, posix_write, posix_close, World.fail, writeAt, file_ne_test,
            flags_ne, test_ne_temp, min_content_ne, content_pos] at h
        · rcases d with _ | d | _
          · by_cases h3 : ownerSearch dm = true <;> by_cases h4 : ownerWrite dm = true <;>
            simp [strict_mkdir_eq, strict_open_eq, strict_write_eq, strict_close_eq, strict_errno_eq,
              strict_mkdir, strict_open, strict_write, strict_close, Strict.fail, Strict.lift,
              Strict.offset, openCreates, openDenied, hff, hff2, hl2, h3, h4,
              posix_mkdir, posix_open, posix_write, posix_close, World.fail, writeAt, file_ne_test,
              flags_ne, test_ne_temp, min_content_ne, content_pos] at h
          · by_cases h3 : ownerSearch dm = true <;> by_cases h5 : ownerWrite fm = true <;>
            simp [strict_mkdir_eq, strict_open_eq, strict_write_eq, strict_close_eq, strict_errno_eq,
              strict_mkdir, strict_open, strict_write, strict_close, Strict.fail, Strict.lift,
              Strict.offset, openCreates, openDenied, hff, hff2, hl2, h3, h5,
              posix_mkdir, posix_open, posix_write, posix_close, World.fail, writeAt, file_ne_test,
              flags_ne, test_ne_temp, min_content_ne, content_pos] at h
          · by_cases h3 : ownerSearch dm = true <;>
            simp [strict_mkdir_eq, strict_open_eq, strict_write_eq, strict_close_eq, strict_errno_eq,
              strict_mkdir, strict_open, strict_write, strict_close, Strict.fail, Strict.lift,
              Strict.offset, openCreates, openDenied, hff, hff2, hl2, h3,
              posix_mkdir, posix_open, posix_write, posix_close, World.fail, writeAt, file_ne_test,
              flags_ne, test_ne_temp, min_content_ne, content_pos] at h
    · have hl2 : ¬ lim ≤ 0 := by omega
      have hl3 : 0 < lim := by omega
      rcases fd with _ | fd
      · rcases a with _ | a | ⟨d, others⟩
        · by_cases h1 : ownerSearch (createdMode 493 um) = true <;>
          by_cases h2 : ownerWrite (createdMode 493 um) = true <;>
          first
            | (exfalso
               simp [strict_mkdir_eq, strict_open_eq, strict_write_eq, strict_close_eq, strict_errno_eq,
                 strict_mkdir, strict_open, strict_write, strict_close, Strict.fail, Strict.lift,
                 Strict.offset, openCreates, openDenied, hff, hff2, hl2, h1, h2,
                 posix_mkdir, posix_open, posix_write, posix_close, World.fail, writeAt, file_ne_test,
                 flags_ne, test_ne_temp, min_content_ne, content_pos] at h
               done)
            | exact ⟨rfl, hff3, hl3, by simp [h1, h2]⟩
        · simp [strict_mkdir_eq, strict_open_eq, strict_write_eq, strict_close_eq, strict_errno_eq,
                 strict_mkdir, strict_open, strict_write, strict_close, Strict.fail, Strict.lift,
                 Strict.offset, openCreates, openDenied, hff, hff2, hl2,
                 posix_mkdir, posix_open, posix_write, posix_close, World.fail, writeAt, file_ne_test,
                 flags_ne, test_ne_temp, min_content_ne, content_pos] at h
        · rcases d with _ | d | _
          · by_cases h3 : ownerSearch dm = true <;> by_cases h4 : ownerWrite dm = true <;>
            first
              | (exfalso
                 simp [strict_mkdir_eq, strict_open_eq, strict_write_eq, strict_close_eq, strict_errno_eq,
                   strict_mkdir, strict_open, strict_write, strict_close, Strict.fail, Strict.lift,
                   Strict.offset, openCreates, openDenied, hff, hff2, hl2, h3, h4,
                   posix_mkdir, posix_open, posix_write, posix_close, World.fail, writeAt, file_ne_test,
                   flags_ne, test_ne_temp, min_content_ne, content_pos] at h
                 done)
              | exact ⟨rfl, hff3, hl3, by simp [h3, h4]⟩
          · by_cases h3 : ownerSearch dm = true <;> by_cases h5 : ownerWrite fm = true <;>
            first
              | (exfalso
                 simp [strict_mkdir_eq, strict_open_eq, strict_write_eq, strict_close_eq, strict_errno_eq,
                   strict_mkdir, strict_open, strict_write, strict_close, Strict.fail, Strict.lift,
                   Strict.offset, openCreates, openDenied, hff, hff2, hl2, h3, h5,
                   posix_mkdir, posix_open, posix_write, posix_close, World.fail, writeAt, file_ne_test,
                   flags_ne, test_ne_temp, min_content_ne, content_pos] at h
                 done)
              | exact ⟨rfl, hff3, hl3, by simp [h3, h5]⟩
          · by_cases h3 : ownerSearch dm = true <;>
            simp [strict_mkdir_eq, strict_open_eq, strict_write_eq, strict_close_eq, strict_errno_eq,
                   strict_mkdir, strict_open, strict_write, strict_close, Strict.fail, Strict.lift,
                   Strict.offset, openCreates, openDenied, hff, hff2, hl2, h3,
                   posix_mkdir, posix_open, posix_write, posix_close, World.fail, writeAt, file_ne_test,
                   flags_ne, test_ne_temp, min_content_ne, content_pos] at h
      · exfalso
        rcases a with _ | a | ⟨d, others⟩
        · by_cases h1 : ownerSearch (createdMode 493 um) = true <;>
          by_cases h2 : ownerWrite (createdMode 493 um) = true <;>
          simp [strict_mkdir_eq, strict_open_eq, strict_write_eq, strict_close_eq, strict_errno_eq,
            strict_mkdir, strict_open, strict_write, strict_close, Strict.fail, Strict.lift,
            Strict.offset, openCreates, openDenied, hff, hff2, hl2, h1, h2,
            posix_mkdir, posix_open, posix_write, posix_close, World.fail, writeAt, file_ne_test,
            flags_ne, test_ne_temp, min_content_ne, content_pos] at h
        · simp [strict_mkdir_eq, strict_open_eq, strict_write_eq, strict_close_eq, strict_errno_eq,
            strict_mkdir, strict_open, strict_write, strict_close, Strict.fail, Strict.lift,
            Strict.offset, openCreates, openDenied, hff, hff2, hl2,
            posix_mkdir, posix_open, posix_write, posix_close, World.fail, writeAt, file_ne_test,
            flags_ne, test_ne_temp, min_content_ne, content_pos] at h
        · rcases d with _ | d | _
          · by_cases h3 : ownerSearch dm = true <;> by_cases h4 : ownerWrite dm = true <;>
            simp [strict_mkdir_eq, strict_open_eq, strict_write_eq, strict_close_eq, strict_errno_eq,
              strict_mkdir, strict_open, strict_write, strict_close, Strict.fail, Strict.lift,
              Strict.offset, openCreates, openDenied, hff, hff2, hl2, h3, h4,
              posix_mkdir, posix_open, posix_write, posix_close, World.fail, writeAt, file_ne_test,
              flags_ne, test_ne_temp, min_content_ne, content_pos] at h
          · by_cases h3 : ownerSearch dm = true <;> by_cases h5 : ownerWrite fm = true <;>
            simp [strict_mkdir_eq, strict_open_eq, strict_write_eq, strict_close_eq, strict_errno_eq,
              strict_mkdir, strict_open, strict_write, strict_close, Strict.fail, Strict.lift,
              Strict.offset, openCreates, openDenied, hff, hff2, hl2, h3, h5,
              posix_mkdir, posix_open, posix_write, posix_close, World.fail, writeAt, file_ne_test,
              flags_ne, test_ne_temp, min_content_ne, content_pos] at h
          · by_cases h3 : ownerSearch dm = true <;>
            simp [strict_mkdir_eq, strict_open_eq, strict_write_eq, strict_close_eq, strict_errno_eq,
              strict_mkdir, strict_open, strict_write, strict_close, Strict.fail, Strict.lift,
              Strict.offset, openCreates, openDenied, hff, hff2, hl2, h3,
              posix_mkdir, posix_open, posix_write, posix_close, World.fail, writeAt, file_ne_test,
              flags_ne, test_ne_temp, min_content_ne, content_pos] at h

end StrictFacts2
section StrictProbe

theorem probeOpen_strict_file (dm fm sdm sfm um lim ff fl : Nat) (d : Entry)
    (others : List String) (s : Option Node) (e : Int)
    (hf : ff < fl) (hs : ownerSearch dm = true) (hr : ownerRead fm = true) :
    probeOpen strict ⟨⟨some (Node.dir ⟨some d, others⟩), s, none, e⟩,
        dm, fm, sdm, sfm, um, lim, ff, fl⟩ =
      ((ff : Int), ⟨⟨some (Node.dir ⟨some d, others⟩), s, some ⟨false, 0⟩, e⟩,
        dm, fm, sdm, sfm, um, lim, ff, fl⟩) := by
  have hff : ¬ fl ≤ ff := by omega
  cases d <;>
  simp [probeOpen, strict_open_eq, strict_open, openDenied, openCreates, posix_open, hff, hs, hr,
    O_RDONLY]

theorem probeRead_strict_file (dm fm sdm sfm um lim ff fl : Nat) (bytes : List Char)
    (others : List String) (s : Option Node) (e : Int)
    (hf : ff < fl) (hs : ownerSearch dm = true) (hr : ownerRead fm = true) :
    probeRead strict ⟨⟨some (Node.dir ⟨some (Entry.file bytes), others⟩), s, none, e⟩,
        dm, fm, sdm, sfm, um, lim, ff, fl⟩ =
      ((((bytes.take 255).length : Nat) : Int), bytes.take 255,
        ⟨⟨some (Node.dir ⟨some (Entry.file bytes), others⟩), s,
          some ⟨false, (bytes.take 255).length⟩, e⟩, dm, fm, sdm, sfm, um, lim, ff, fl⟩) := by
  simp [probeRead, probeOpen_strict_file _ _ _ _ _ _ _ _ _ _ _ _ hf hs hr, strict_read_eq,
    strict_read, posix_read]

theorem probeClose_strict_file (dm fm sdm sfm um lim ff fl : Nat) (bytes : List Char)
    (others : List String) (s : Option Node) (e : Int)
    (hf : ff < fl) (hs : ownerSearch dm = true) (hr : ownerRead fm = true) :
    probeClose strict ⟨⟨some (Node.dir ⟨some (Entry.file bytes), others⟩), s, none, e⟩,
        dm, fm, sdm, sfm, um, lim, ff, fl⟩ =
      (0, ⟨⟨some (Node.dir ⟨some (Entry.file bytes), others⟩), s, none, e⟩,
        dm, fm, sdm, sfm, um, lim, ff, fl⟩) := by
  simp [probeClose, probeOpen_strict_file _ _ _ _ _ _ _ _ _ _ _ _ hf hs hr,
    probeRead_strict_file _ _ _ _ _ _ _ _ _ _ _ _ hf hs hr, strict_close_eq, strict_close,
    Strict.lift, posix_close]

/-- A probe of the model with permissions when `data.txt` is a regular file the
owner may read, in a directory the owner may search, and a descriptor is free. -/
theorem attempt_file_access_strict_file (dm fm sdm sfm um lim ff fl : Nat) (bytes : List Char)
    (others : List String) (s : Option Node) (e : Int)
    (hf : ff < fl) (hs : ownerSearch dm = true) (hr : ownerRead fm = true) :
    attempt_file_access strict
        ⟨⟨some (Node.dir ⟨some (Entry.file bytes), others⟩), s, none, e⟩,
          dm, fm, sdm, sfm, um, lim, ff, fl⟩ =
      ⟨Res.ret 0,
        ⟨⟨some (Node.dir ⟨some (Entry.file bytes), others⟩), s, none, e⟩,
          dm, fm, sdm, sfm, um, lim, ff, fl⟩,
        [(Event.open_ TEST_FILE O_RDONLY none ff,
            ⟨⟨some (Node.dir ⟨some (Entry.file bytes), others⟩), s, some ⟨false, 0⟩, e⟩,
              dm, fm, sdm, sfm, um, lim, ff, fl⟩),
         (Event.read ff 255 (((bytes.take 255).length : Nat) : Int),
            ⟨⟨some (Node.dir ⟨some (Entry.file bytes), others⟩), s,
              some ⟨false, (bytes.take 255).length⟩, e⟩, dm, fm, sdm, sfm, um, lim, ff, fl⟩),
         (Event.printf "Successfully read from file: %s" [Arg.buf (c_str (bytes.take 255))],
            ⟨⟨some (Node.dir ⟨some (Entry.file bytes), others⟩), s,
              some ⟨false, (bytes.take 255).length⟩, e⟩, dm, fm, sdm, sfm, um, lim, ff, fl⟩),
         (Event.close ff 0,
            ⟨⟨some (Node.dir ⟨some (Entry.file bytes), others⟩), s, none, e⟩,
              dm, fm, sdm, sfm, um, lim, ff, fl⟩)]⟩ := by
  have hlen : (bytes.take 255).length ≤ 255 := by
    simp only [List.length_take]; omega
  have hbuf := c_str_buffer (bytes.take 255) hlen
  rw [attempt_file_access_run]
  simp only [probeBuffer, probeOpen_strict_file _ _ _ _ _ _ _ _ _ _ _ _ hf hs hr,
    probeRead_strict_file _ _ _ _ _ _ _ _ _ _ _ _ hf hs hr,
    probeClose_strict_file _ _ _ _ _ _ _ _ _ _ _ _ hf hs hr, Int.toNat_ofNat, hbuf]
  rw [if_neg (by omega), if_neg (by omega), if_pos (by omega)]

/-- A probe of the model with permissions fails when `open` is refused: no free
descriptor, a directory the owner may not search, or a `data.txt` the owner may
not read.  It changes nothing but `errno`. -/
theorem attempt_file_access_strict_refused (dm fm sdm sfm um lim ff fl : Nat) (d : Entry)
    (others : List String) (s : Option Node) (fd : Option OpenFile) (e : Int)
    (h : fl ≤ ff ∨ ownerSearch dm = false ∨ ownerRead fm = false) :
    (attempt_file_access strict
        ⟨⟨some (Node.dir ⟨some d, others⟩), s, fd, e⟩, dm, fm, sdm, sfm, um, lim, ff, fl⟩).res =
      Res.ret (-1) ∧
    (attempt_file_access strict
        ⟨⟨some (Node.dir ⟨some d, others⟩), s, fd, e⟩, dm, fm, sdm, sfm, um, lim, ff, fl⟩).world =
      ⟨⟨some (Node.dir ⟨some d, others⟩), s, fd, if fl ≤ ff then EMFILE else EACCES⟩,
        dm, fm, sdm, sfm, um, lim, ff, fl⟩ := by
  have hO : probeOpen strict
      ⟨⟨some (Node.dir ⟨some d, others⟩), s, fd, e⟩, dm, fm, sdm, sfm, um, lim, ff, fl⟩ =
      (-1, ⟨⟨some (Node.dir ⟨some d, others⟩), s, fd, if fl ≤ ff then EMFILE else EACCES⟩,
        dm, fm, sdm, sfm, um, lim, ff, fl⟩) := by
    by_cases hff : fl ≤ ff
    · simp [probeOpen, strict_open_eq, strict_open, Strict.fail, hff]
    · rcases h with h | h | h
      · exact absurd h hff
      · cases d <;>
        simp [probeOpen, strict_open_eq, strict_open, Strict.fail, openDenied, hff, h, O_RDONLY]
      · cases d <;>
        simp [probeOpen, strict_open_eq, strict_open, Strict.fail, openDenied, hff, h, O_RDONLY]
  rw [attempt_file_access_run]
  simp only [hO, if_true, and_self]

/-- A probe of the model with permissions when `test_filesystem` does not
exist: it returns `-1` and changes nothing but `errno`. -/
theorem attempt_file_access_strict_absent (dm fm sdm sfm um lim ff fl : Nat)
    (s : Option Node) (fd : Option OpenFile) (e : Int) :
    (attempt_file_access strict
        ⟨⟨none, s, fd, e⟩, dm, fm, sdm, sfm, um, lim, ff, fl⟩).res = Res.ret (-1) ∧
    (attempt_file_access strict
        ⟨⟨none, s, fd, e⟩, dm, fm, sdm, sfm, um, lim, ff, fl⟩).world =
      ⟨⟨none, s, fd, if fl ≤ ff ∨ fd.isSome = true then EMFILE else ENOENT⟩,
        dm, fm, sdm, sfm, um, lim, ff, fl⟩ := by
  have hO : probeOpen strict ⟨⟨none, s, fd, e⟩, dm, fm, sdm, sfm, um, lim, ff, fl⟩ =
      (-1, ⟨⟨none, s, fd, if fl ≤ ff ∨ fd.isSome = true then EMFILE else ENOENT⟩,
        dm, fm, sdm, sfm, um, lim, ff, fl⟩) := by
    by_cases hff : fl ≤ ff
    · simp [probeOpen, strict_open_eq, strict_open, Strict.fail, hff]
    · cases fd <;>
      simp [probeOpen, strict_open_eq, strict_open, Strict.fail, openDenied, openCreates,
        posix_open, World.fail, hff]
  rw [attempt_file_access_run]
  simp only [hO, if_true, and_self]

end StrictProbe

/-! ## The claims about the retry loop -/

section ClaimsLoop
variable {σ : Type}

theorem probes_zero_of_three (a b c : Event) (t : List (Event × σ))
    (h : events t = [a, b, c]) (ha : isProbe a = false) (hb : isProbe b = false)
    (hc : isProbe c = false) : probes t = 0 := by
  simp [probes, h, ha, hb, hc]

theorem sleeps_zero_of_three (a b c : Event) (t : List (Event × σ))
    (h : events t = [a, b, c]) (ha : isSleep a = false) (hb : isSleep b = false)
    (hc : isSleep c = false) : sleeps t = 0 := by
  simp [sleeps, h, ha, hb, hc]

theorem retry_loop_posix_data (others : List String) (s : Option Node) (e : Int) :
    retry_loop posix 0 ⟨dataDir others, s, none, e⟩ =
      ⟨Res.ret 0, ⟨dataDir others, s, none, e⟩,
        probeLog others s e ++
          [(Event.printf "Unexpected file access success during loss\n" [],
            ⟨dataDir others, s, none, e⟩)]⟩ :=
  retry_loop_ok posix 0 _ _ _ (by decide) (attempt_file_access_posix_data others s e)

/-- Claim C2. When the log of the retry loop holds a successful probe, the
part of the log from the first success on is exactly: the success line, the
`close` of that probe and the line on the unexpected success, so no probe and
no `sleep` follows; the loop returns (the process goes on) with a counter below
`MAX_ATTEMPTS` = 10 that equals the number of failed probes; and in every run
of `main` the event right after the line on the unexpected success is the call
`rename(TEMP_DIR, TEST_DIR)` of `simulate_filesystem_recovery`. -/
theorem retry_loop_early_exit (os : OS σ) (w : σ)
    (h : (events (retry_loop os 0 w).trace).any isProbeSuccess = true) :
    (∃ text fd c, events (fromFirst isProbeSuccess (retry_loop os 0 w).trace) =
      [Event.printf "Successfully read from file: %s" [Arg.buf text], Event.close fd c,
       Event.printf "Unexpected file access success during loss\n" []]) ∧
    probes (fromFirst isProbeSuccess (retry_loop os 0 w).trace) = 0 ∧
    sleeps (fromFirst isProbeSuccess (retry_loop os 0 w).trace) = 0 ∧
    (∃ k, (retry_loop os 0 w).res = Res.ret k ∧ k < MAX_ATTEMPTS ∧
      k = failures (retry_loop os 0 w).trace) ∧
    MAX_ATTEMPTS = 10 ∧
    (∀ w0, (events (main os w0).trace).any isUnexpected = true →
      ∃ r rest, events (fromFirst isUnexpected (main os w0).trace) =
        Event.printf "Unexpected file access success during loss\n" [] ::
          Event.rename TEMP_DIR TEST_DIR r :: rest) := by
  obtain ⟨⟨text, fd, c, h1⟩, k, h2, h3, h4⟩ := loop_success (retry_loop_shape os 0 w) h
  refine ⟨⟨text, fd, c, h1⟩, ?_, ?_, ⟨k, h2, h3, by omega⟩, rfl,
    fun w0 hu => main_unexpected (main_shape os w0) hu⟩
  · exact probes_zero_of_three _ _ _ _ h1 rfl rfl rfl
  · exact sleeps_zero_of_three _ _ _ _ h1 rfl rfl rfl

theorem retry_loop_early_exit_witness :
    (events (retry_loop posix 0 ⟨dataDir [], none, none, 0⟩).trace).any isProbeSuccess = true ∧
    ∃ k, (retry_loop posix 0 ⟨dataDir [], none, none, 0⟩).res = Res.ret k ∧ k < MAX_ATTEMPTS ∧
      k = failures (retry_loop posix 0 ⟨dataDir [], none, none, 0⟩).trace :=
  ⟨by rw [retry_loop_posix_data]; decide,
    (retry_loop_early_exit posix ⟨dataDir [], none, none, 0⟩
      (by rw [retry_loop_posix_data]; decide)).2.2.2.1⟩

theorem probes_roundsLog (os : OS σ) :
    ∀ (n ac : Nat) (w : σ), probes (roundsLog os n ac w) = n := by
  intro n
  induction n with
  | zero => intro ac w; rfl
  | succ n ih =>
    intro ac w
    have hs := attempt_file_access_shape os w
    rcases hp : attempt_file_access os w with ⟨r, w1, t⟩
    rw [hp] at hs
    have h1 := probes_of_shape hs
    have h2 := ih (ac + 1) (nextRound os w)
    simp only [probes, roundsLog, hp, events_append, List.countP_append] at h1 h2 ⊢
    rw [h1, h2]
    simp [isProbe]
    omega

/-- The rounds of the retry loop: when the loop returns `k` from the value
`ac` of `attempt_count`, it made `k - ac` rounds whose probes returned `-1`,
and then either the counter is `MAX_ATTEMPTS` or one more probe returned 0. -/
theorem retry_loop_rounds (os : OS σ) :
    ∀ (n ac : Nat) (w : σ) (k : Nat), MAX_ATTEMPTS - ac = n → ac ≤ MAX_ATTEMPTS →
      (retry_loop os ac w).res = Res.ret k →
      ∃ j, k = ac + j ∧
        (∀ i, i < j → (attempt_file_access os (roundWorld os i w)).res = Res.ret (-1)) ∧
        (k = MAX_ATTEMPTS ∨ (attempt_file_access os (roundWorld os j w)).res = Res.ret 0) ∧
        (retry_loop os ac w).trace = roundsLog os j ac w ++
          (if k < MAX_ATTEMPTS then
            (attempt_file_access os (roundWorld os j w)).trace ++
              [(Event.printf "Unexpected file access success during loss\n" [],
                (attempt_file_access os (roundWorld os j w)).world)]
          else []) := by
  intro n
  induction n with
  | zero =>
    intro ac w k hn hle h
    have hac : ¬ac < MAX_ATTEMPTS := by omega
    rw [retry_loop_done os ac w hac] at h ⊢
    cases h
    refine ⟨0, rfl, fun i hi => absurd hi (Nat.not_lt_zero i), Or.inl (by omega), ?_⟩
    simp [roundsLog, hac]
  | succ n ih =>
    intro ac w k hn hle h
    have hac : ac < MAX_ATTEMPTS := by omega
    have hs := attempt_file_access_shape os w
    rcases hp : attempt_file_access os w with ⟨r, w1, t⟩
    rw [hp] at hs
    cases r with
    | exit c => cases hs
    | fault =>
      rw [retry_loop_fault os ac w w1 t hac hp] at h
      cases h
    | ret v =>
      by_cases hv : v = 0
      · subst hv
        rw [retry_loop_ok os ac w w1 t hac hp] at h ⊢
        cases h
        refine ⟨0, rfl, fun i hi => absurd hi (Nat.not_lt_zero i), Or.inr ?_, ?_⟩
        · simp [roundWorld, hp]
        · simp [roundsLog, roundWorld, hp, hac]
      · have hv1 : v = -1 := by
          cases hs
          · rfl
          · rfl
          · exact absurd rfl hv
        subst hv1
        have hw : (os.sleep SLEEP_INTERVAL w1).2 = nextRound os w := by
          simp [nextRound, hp]
        rw [retry_loop_retry os ac w w1 (-1) t hac hp hv, hw] at h ⊢
        obtain ⟨j, hj1, hj2, hj3, hj4⟩ := ih (ac + 1) (nextRound os w) k (by omega) (by omega) h
        refine ⟨j + 1, by omega, ?_, ?_, ?_⟩
        · intro i hi
          cases i with
          | zero => simp [roundWorld, hp]
          | succ i => exact hj2 i (by omega)
        · exact hj3
        · rw [Run.after_trace, hj4]
          simp [roundsLog, roundWorld, hp, hw]

/-- Claim C3. When the retry loop returns, the value `k` of `attempt_count` is
at most `MAX_ATTEMPTS` = 10 and is the number of failed probes the loop made:
the loop made the calls of `attempt_file_access` of the rounds `0 .. k-1`, each
in the world the round before left, and each returned `-1`; after them the loop
either stopped at `k = MAX_ATTEMPTS` or made one more call, which returned 0;
its log is the log of these calls, each failed one followed by the line on the
retry and a `sleep`; so the log holds `k` failure lines, `k` calls of `sleep`,
`k` probes plus the successful one if any, and the seconds asked of `sleep` add
up to `k * SLEEP_INTERVAL` = `k * 2`. -/
theorem retry_loop_counter (os : OS σ) (w : σ) (k : Nat)
    (h : (retry_loop os 0 w).res = Res.ret k) :
    k ≤ MAX_ATTEMPTS ∧ MAX_ATTEMPTS = 10 ∧
    (∀ i, i < k → (attempt_file_access os (roundWorld os i w)).res = Res.ret (-1)) ∧
    (k = MAX_ATTEMPTS ∨ (attempt_file_access os (roundWorld os k w)).res = Res.ret 0) ∧
    (retry_loop os 0 w).trace = roundsLog os k 0 w ++
      (if k < MAX_ATTEMPTS then
        (attempt_file_access os (roundWorld os k w)).trace ++
          [(Event.printf "Unexpected file access success during loss\n" [],
            (attempt_file_access os (roundWorld os k w)).world)]
      else []) ∧
    probes (retry_loop os 0 w).trace = k + (if k < MAX_ATTEMPTS then 1 else 0) ∧
    k = failures (retry_loop os 0 w).trace ∧
    k = sleeps (retry_loop os 0 w).trace ∧
    sleptSeconds (retry_loop os 0 w).trace = k * SLEEP_INTERVAL ∧ SLEEP_INTERVAL = 2 := by
  obtain ⟨h1, h2, h3, h4, _⟩ := loop_sleeps (retry_loop_shape os 0 w)
  have hk := h4 k h
  have h5 := h3 (Nat.zero_le _)
  obtain ⟨j, hj1, hj2, hj3, hj4⟩ := retry_loop_rounds os _ 0 w k rfl (Nat.zero_le _) h
  have hjk : j = k := by omega
  subst hjk
  refine ⟨by omega, rfl, hj2, hj3, hj4, ?_, by omega, by omega, ?_, rfl⟩
  · rw [hj4]
    have hr := probes_roundsLog os j 0 w
    by_cases hlt : j < MAX_ATTEMPTS
    · have hs := attempt_file_access_shape os (roundWorld os j w)
      rcases hp : attempt_file_access os (roundWorld os j w) with ⟨r, w1, t⟩
      rw [hp] at hs
      have h6 := probes_of_shape hs
      simp only [probes, events_append, List.countP_append, if_pos hlt] at hr h6 ⊢
      rw [hr, h6]
      simp [isProbe]
    · simp only [if_neg hlt, List.append_nil, hr, Nat.add_zero]
  · rw [h2]
    congr 1
    omega

theorem retry_loop_counter_witness :
    (retry_loop posix 0 (cleanWorld 0)).res = Res.ret 10 ∧
    (∀ i, i < 10 →
      (attempt_file_access posix (roundWorld posix i (cleanWorld 0))).res = Res.ret (-1)) ∧
    probes (retry_loop posix 0 (cleanWorld 0)).trace = 10 + (if 10 < MAX_ATTEMPTS then 1 else 0) :=
  ⟨by rw [cleanWorld, retry_loop_posix_lost]; rfl,
    (retry_loop_counter posix (cleanWorld 0) 10
      (by rw [cleanWorld, retry_loop_posix_lost]; rfl)).2.2.1,
    (retry_loop_counter posix (cleanWorld 0) 10
      (by rw [cleanWorld, retry_loop_posix_lost]; rfl)).2.2.2.2.2.1⟩

end ClaimsLoop

/-! ## The claims about cleanup, the exit status and the buffer -/

section ClaimsMain
variable {σ : Type}

/-- Claim C7. Whatever the three removals answer, `cleanup` makes exactly the
system calls `unlink(TEST_FILE)`, `rmdir(TEST_DIR)`, `rmdir(TEMP_DIR)` in this
order, returns without ending the process, and its last event is the line
"Cleanup completed"; it writes one line on standard error for each removal that
returned `-1` with `errno` other than `ENOENT`, and no other; in the model,
with none of the three objects on disk, its log is the three failing calls and
the final line, without any error line. -/
theorem cleanup_never_aborts (os : OS σ) (w : σ) :
    (cleanup os w).res = Res.ret () ∧
    (events (cleanup os w).trace).filter isSyscall =
      [Event.unlink TEST_FILE (cleanupUnlink os w).1, Event.rmdir TEST_DIR (cleanupRmdir os w).1,
       Event.rmdir TEMP_DIR (cleanupRmtmp os w).1] ∧
    (cleanup os w).trace.getLast? =
      some (Event.printf "Cleanup completed\n" [], (cleanup os w).world) ∧
    (events (cleanup os w).trace).countP isStderr =
      (cleanup os w).trace.countP (removalError os) ∧
    (∀ e, events (cleanup posix (cleanWorld e)).trace =
      [Event.unlink TEST_FILE (-1), Event.rmdir TEST_DIR (-1), Event.rmdir TEMP_DIR (-1),
       Event.printf "Cleanup completed\n" []]) := by
  refine ⟨cleanup_res os w, ?_, ?_, ?_, ?_⟩
  · rw [cleanup_run]
    split_ifs <;> simp [isSyscall]
  · rw [cleanup_run]
    split_ifs <;> simp
  · rw [cleanup_run]
    simp only
    by_cases h1 : (cleanupUnlink os w).1 = -1 ∧ os.errno (cleanupUnlink os w).2 ≠ ENOENT <;>
    by_cases h2 : (cleanupRmdir os w).1 = -1 ∧ os.errno (cleanupRmdir os w).2 ≠ ENOENT <;>
    by_cases h3 : (cleanupRmtmp os w).1 = -1 ∧ os.errno (cleanupRmtmp os w).2 ≠ ENOENT <;>
    simp only [if_pos, if_neg, h1, h2, h3, not_false_eq_true] <;>
    simp [isStderr, removalError, List.countP_cons, h1, h2, h3]
  · intro e
    rw [cleanup_run]
    simp [cleanupUnlink, cleanupRmdir, cleanupRmtmp, posix_unlink_eq, posix_rmdir_eq,
      posix_errno_eq, posix_unlink, posix_rmdir, rmdirNode, World.fail, cleanWorld,
      temp_ne_test]

theorem main_no_fault (os : OS σ) (hos : ReadOk os) (w : σ) : (main os w).res ≠ Res.fault := by
  have h := main_shape os w
  generalize main os w = R at h
  cases h with
  | provision wC tC hC => simp
  | probeBefore wC tC wP tP hC hP =>
    have := attempt_file_access_returns os hos wC
    rw [hP] at this
    simp at this
  | loss wC tC r wP tP wL tL hC hP hL => simp
  | loop wC tC r wP tP wL tL wLp tLp hC hP hL hLp =>
    obtain ⟨k, hk⟩ := retry_loop_returns os hos 0 wL
    rw [hLp] at hk
    simp at hk
  | recovery wC tC r wP tP wL tL k wLp tLp wR tR hC hP hL hLp hR => simp
  | probeAfter wC tC r wP tP wL tL k wLp tLp wR tR wQ tQ hC hP hL hLp hR hQ =>
    have := attempt_file_access_returns os hos wR
    rw [hQ] at this
    simp at this
  | failed wC tC r wP tP wL tL k wLp tLp wR tR q wQ tQ hC hP hL hLp hR hQ hq => simp
  | success wC tC r wP tP wL tL k wLp tLp wR tR wQ tQ hC hP hL hLp hR hQ => simp

theorem attempt_file_access_no_exit (os : OS σ) (w : σ) (c : Int) :
    (attempt_file_access os w).res ≠ Res.exit c := by
  have hs := attempt_file_access_shape os w
  generalize attempt_file_access os w = R at hs
  cases hs <;> simp

theorem exitStatus_zero (os : OS σ) (w : σ) :
    exitStatus (main os w).res = some 0 ↔ (main os w).res = Res.ret 0 := by
  rcases (main_verdict (main_shape os w)).2.1 with h | h | h <;> rw [h] <;>
    simp [exitStatus, EXIT_FAILURE]

/-- A `read` result outside the buffer makes the probe fault: the bound of claim
C10 is needed. -/
theorem probe_store_outside (os : OS σ) (w : σ) (hopen : (probeOpen os w).1 ≠ -1)
    (hread : (probeRead os w).1 ≠ -1)
    (hout : ¬(0 ≤ (probeRead os w).1 ∧ (probeRead os w).1 < 256)) :
    (attempt_file_access os w).res = Res.fault := by
  rw [attempt_file_access_run, if_neg hopen, if_neg hread, if_neg hout]

/-- Claim C10. In `attempt_file_access`, when `open` succeeds and `read` returns
a count `r` with `0 ≤ r ≤ 255` after storing `r` bytes, the NUL is stored at
index `r ≤ 255`, inside the 256 bytes of the buffer, so that the probe returns 0
without a fault; the text it prints is the bytes read up to their first NUL, a
beginning of the bytes read, at most 255 bytes long; in the model, for every
content of the file, the printed text is a beginning of its first 255 bytes. -/
theorem probe_buffer_safe (os : OS σ) (w : σ) (hopen : (probeOpen os w).1 ≠ -1)
    (h0 : 0 ≤ (probeRead os w).1) (h255 : (probeRead os w).1 ≤ 255)
    (hlen : ((probeRead os w).2.1.length : Int) = (probeRead os w).1) :
    (probeBuffer os w).length = 256 ∧
    (probeRead os w).1.toNat ≤ 255 ∧
    (probeRead os w).1.toNat < (probeBuffer os w).length ∧
    (attempt_file_access os w).res = Res.ret 0 ∧
    events (attempt_file_access os w).trace =
      [Event.open_ TEST_FILE O_RDONLY none (probeOpen os w).1,
       Event.read (probeOpen os w).1 255 (probeRead os w).1,
       Event.printf "Successfully read from file: %s" [Arg.buf (c_str (probeRead os w).2.1)],
       Event.close (probeOpen os w).1 (probeClose os w).1] ∧
    c_str (probeRead os w).2.1 <+: (probeRead os w).2.1 ∧
    (c_str (probeRead os w).2.1).length ≤ 255 ∧
    (∀ (bytes : List Char) (others : List String) (s : Option Node) (e : Int),
      Event.printf "Successfully read from file: %s" [Arg.buf (c_str (bytes.take 255))] ∈
        events (attempt_file_access posix
          ⟨some (Node.dir ⟨some (Entry.file bytes), others⟩), s, none, e⟩).trace ∧
      c_str (bytes.take 255) <+: bytes.take 255) := by
  have hn : (probeRead os w).1.toNat = (probeRead os w).2.1.length := by omega
  have hd : (probeRead os w).2.1.length ≤ 255 := by omega
  have hb := c_str_buffer (probeRead os w).2.1 hd
  have hpre : c_str (probeRead os w).2.1 <+: (probeRead os w).2.1 :=
    List.takeWhile_prefix _
  have hrun : attempt_file_access os w = _ := attempt_file_access_run os w
  rw [if_neg hopen, if_neg (by omega), if_pos (by omega)] at hrun
  refine ⟨probeBuffer_length os w, by omega, by rw [probeBuffer_length]; omega, by rw [hrun],
    ?_, hpre, le_trans hpre.length_le hd, ?_⟩
  · rw [hrun]
    simp only [events_cons, events_nil, hn]
    rw [show (probeBuffer os w).set (probeRead os w).2.1.length NUL =
      (((probeRead os w).2.1 ++ (indeterminate 256).drop (probeRead os w).2.1.length).take
        (indeterminate 256).length).set (probeRead os w).2.1.length NUL from rfl, hb]
  · intro bytes others s e
    refine ⟨?_, List.takeWhile_prefix _⟩
    rw [attempt_file_access_posix_file]
    simp

theorem probe_buffer_safe_witness :
    (attempt_file_access posix ⟨dataDir [], none, none, 0⟩).res = Res.ret 0 :=
  (probe_buffer_safe posix ⟨dataDir [], none, none, 0⟩
    (by rw [dataDir, probeOpen_posix_file]; decide)
    (by rw [dataDir, probeRead_posix_file]; exact Int.ofNat_nonneg _)
    (by rw [dataDir, probeRead_posix_file, content_take, content_length]; decide)
    (by rw [dataDir, probeRead_posix_file])).2.2.2.1

end ClaimsMain

/-! ## The claims about provisioning and probing -/

section ClaimsModel

/-- Claim C5, corrected. In the model with permissions, whenever
`create_test_environment` returns (it did not end the process),
`test_filesystem` is a directory that holds `data.txt`, next to the entries it
had before and no other, with the first bytes of the fixed content that fit
below the file size limit: exactly the fixed content when, and only when, the
limit allows its 36 bytes.  A second call returns exactly when the first call
left `data.txt` writable by its owner; it then leaves the paths, the modes and
the descriptor as the first call left them, its `mkdir` answers `-1` with
`EEXIST`, and it prints no error. -/
theorem provisioning_idempotent (sw : Strict)
    (h : (create_test_environment strict sw).res = Res.ret ()) :
    ∃ others e1,
      (create_test_environment strict sw).world.base =
        ⟨some (Node.dir ⟨some (Entry.file (content.take sw.sizeLimit)), others⟩),
          sw.base.shadow, none, e1⟩ ∧
      (content.length ≤ sw.sizeLimit ↔ content.take sw.sizeLimit =
        "Test data for filesystem simulation\n".data) ∧
      (sw.base.active = none → others = []) ∧
      (∀ d o, sw.base.active = some (Node.dir ⟨d, o⟩) → others = o) ∧
      ((create_test_environment strict (create_test_environment strict sw).world).res =
          Res.ret () ↔
        ownerWrite (create_test_environment strict sw).world.fileMode = true) ∧
      (ownerWrite (create_test_environment strict sw).world.fileMode = false →
        (create_test_environment strict (create_test_environment strict sw).world).res =
          Res.exit EXIT_FAILURE) ∧
      (ownerWrite (create_test_environment strict sw).world.fileMode = true →
        (create_test_environment strict (create_test_environment strict sw).world).world =
          { (create_test_environment strict sw).world with
            base := { (create_test_environment strict sw).world.base with errno := EEXIST } } ∧
        events (create_test_environment strict
            (create_test_environment strict sw).world).trace =
          [Event.mkdir TEST_DIR 493 (-1),
           Event.open_ TEST_FILE (O_CREAT ||| O_WRONLY ||| O_TRUNC) (some 420) sw.firstFree,
           Event.write sw.firstFree content content.length
             ((min content.length sw.sizeLimit : Nat) : Int),
           Event.close sw.firstFree 0,
           Event.printf "Test environment created: %s\n" [Arg.str TEST_FILE]]) := by
  obtain ⟨hfd, hf, hl, ha⟩ := create_strict_returns sw h
  rcases sw with ⟨⟨a, s, fd, e⟩, dm, fm, sdm, sfm, um, lim, ff, fl⟩
  simp only at hfd hf hl ha
  subst hfd
  have hc : content.length ≤ lim ↔ content.take lim =
      "Test data for filesystem simulation\n".data := by
    constructor
    · intro hh
      exact List.take_of_length_le hh
    · intro hh
      have := congrArg List.length hh
      rw [List.length_take] at this
      have h36 : ("Test data for filesystem simulation\n".data).length = content.length := rfl
      omega
  rcases ha with ⟨rfl, hs, hw⟩ | ⟨o, rfl, hs, hw⟩ | ⟨bytes, o, rfl, hs, hw⟩
  · refine ⟨[], e, ?_, hc, fun _ => rfl, fun d o hh => by simp at hh, ?_⟩
    · rw [create_strict_absent _ _ _ _ _ _ _ _ _ _ hf hs hw hl]
    · rw [create_strict_absent _ _ _ _ _ _ _ _ _ _ hf hs hw hl]
      simp only
      by_cases hw2 : ownerWrite (createdMode 420 um) = true
      · rw [create_strict_file _ _ _ _ _ _ _ _ _ _ _ _ hf hs hw2 hl]
        simp [hw2, events]
      · simp only [Bool.not_eq_true] at hw2
        rw [(create_strict_readonly _ _ _ _ _ _ _ _ _ _ _ _ hf hw2).1]
        simp [hw2]
  · refine ⟨o, EEXIST, ?_, hc, fun hh => by simp at hh, fun d2 o2 hh => ?_, ?_⟩
    · rw [create_strict_nofile _ _ _ _ _ _ _ _ _ _ _ hf hs hw hl]
    · simp at hh
      exact hh.2
    · rw [create_strict_nofile _ _ _ _ _ _ _ _ _ _ _ hf hs hw hl]
      simp only
      by_cases hw2 : ownerWrite (createdMode 420 um) = true
      · rw [create_strict_file _ _ _ _ _ _ _ _ _ _ _ _ hf hs hw2 hl]
        simp [hw2, events]
      · simp only [Bool.not_eq_true] at hw2
        rw [(create_strict_readonly _ _ _ _ _ _ _ _ _ _ _ _ hf hw2).1]
        simp [hw2]
  · refine ⟨o, EEXIST, ?_, hc, fun hh => by simp at hh, fun d2 o2 hh => ?_, ?_⟩
    · rw [create_strict_file _ _ _ _ _ _ _ _ _ _ _ _ hf hs hw hl]
    · simp at hh
      exact hh.2
    · rw [create_strict_file _ _ _ _ _ _ _ _ _ _ _ _ hf hs hw hl]
      simp only
      rw [create_strict_file _ _ _ _ _ _ _ _ _ _ _ _ hf hs hw hl]
      simp [hw, events]

theorem provisioning_idempotent_witness :
    (create_test_environment strict (permissive (cleanWorld 0))).res = Res.ret () ∧
    (create_test_environment strict
      (create_test_environment strict (permissive (cleanWorld 0))).world).res = Res.ret () := by
  have h0 := create_strict_absent 493 420 493 420 18 2147483648 3 1024 none 0
    (by decide) (by decide) (by decide) (by decide)
  have h1 : (create_test_environment strict (permissive (cleanWorld 0))).res = Res.ret () := by
    rw [permissive, cleanWorld, h0]
  obtain ⟨others, e1, _, _, _, _, h5, _⟩ := provisioning_idempotent _ h1
  exact ⟨h1, h5.mpr (by rw [permissive, cleanWorld, h0]; decide)⟩

/-- Two runs that refute claim C5 as the specification states it.  With the
umask 0222 and `test_filesystem` an empty directory the owner may write, the
first call of `create_test_environment` returns and leaves `data.txt` with the
mode 0444, so the second call ends the process with status 1 (`open` answers
`EACCES`).  With a file size limit of 10 bytes, from a clean start, the call
returns although `write` stored 10 of the 36 bytes: `data.txt` holds
`"Test data "`, not the fixed content, and a second call returns as well. -/
theorem provisioning_idempotent_counterexample :
    ((create_test_environment strict
        { permissive ⟨some (Node.dir ⟨none, []⟩), none, none, 0⟩ with umask := 0o222 }).res =
        Res.ret () ∧
      (create_test_environment strict (create_test_environment strict
        { permissive ⟨some (Node.dir ⟨none, []⟩), none, none, 0⟩ with umask := 0o222 }).world).res
        = Res.exit 1) ∧
    ((create_test_environment strict { permissive (cleanWorld 0) with sizeLimit := 10 }).res =
        Res.ret () ∧
      (create_test_environment strict
        { permissive (cleanWorld 0) with sizeLimit := 10 }).world.base.active =
        some (Node.dir ⟨some (Entry.file "Test data ".data), []⟩) ∧
      "Test data ".data ≠ "Test data for filesystem simulation\n".data ∧
      (create_test_environment strict (create_test_environment strict
        { permissive (cleanWorld 0) with sizeLimit := 10 }).world).res = Res.ret ()) := by
  have hA := create_strict_nofile 493 420 493 420 146 2147483648 3 1024 [] none 0
    (by decide) (by decide) (by decide) (by decide)
  have hA2 := create_strict_readonly 493 (createdMode 420 146) 493 420 146 2147483648 3 1024
    (content.take 2147483648) [] none EEXIST (by decide) (by decide)
  have hB := create_strict_absent 493 420 493 420 18 10 3 1024 none 0
    (by decide) (by decide) (by decide) (by decide)
  have hB2 := create_strict_file (createdMode 493 18) (createdMode 420 18) 493 420 18 10 3 1024
    (content.take 10) [] none 0 (by decide) (by decide) (by decide) (by decide)
  refine ⟨⟨?_, ?_⟩, ?_, ?_, by decide, ?_⟩
  · simp only [permissive]
    rw [hA]
  · simp only [permissive]
    rw [hA, hA2.1]
    rfl
  · simp only [permissive, cleanWorld]
    rw [hB]
  · simp only [permissive, cleanWorld]
    rw [hB]
    decide
  · simp only [permissive, cleanWorld]
    rw [hB, hB2]

/-- Claim C6, corrected. In the model with permissions, when `test_filesystem`
is a directory whose `data.txt` holds the fixed content (and the running
function holds no descriptor on it): `attempt_file_access` returns 0 exactly
when the owner may search the directory and read `data.txt` and a descriptor is
free below the descriptor limit, and returns `-1` otherwise; when it returns 0
it prints exactly the fixed content and leaves the world as it was, and in
every case it changes nothing but `errno`.  When `test_filesystem` does not
exist, in any world, it returns `-1` (it does not end the process) and changes
nothing but `errno`. -/
theorem probe_correct (sw : Strict) (others : List String) (s : Option Node) (e : Int)
    (hb : sw.base = ⟨some (Node.dir
      ⟨some (Entry.file "Test data for filesystem simulation\n".data), others⟩), s, none, e⟩) :
    ((attempt_file_access strict sw).res = Res.ret 0 ↔
      ownerSearch sw.dirMode = true ∧ ownerRead sw.fileMode = true ∧
        sw.firstFree < sw.fdLimit) ∧
    ((attempt_file_access strict sw).res = Res.ret 0 ∨
      (attempt_file_access strict sw).res = Res.ret (-1)) ∧
    ((attempt_file_access strict sw).res = Res.ret 0 →
      (events (attempt_file_access strict sw).trace).filter (fun x => !isSyscall x) =
        [Event.printf "Successfully read from file: %s"
          [Arg.buf "Test data for filesystem simulation\n".data]] ∧
      (attempt_file_access strict sw).world = sw) ∧
    (∃ e2, (attempt_file_access strict sw).world =
      { sw with base := { sw.base with errno := e2 } }) ∧
    (∀ sw2 : Strict, sw2.base.active = none →
      (attempt_file_access strict sw2).res = Res.ret (-1) ∧
      ∃ e2, (attempt_file_access strict sw2).world =
        { sw2 with base := { sw2.base with errno := e2 } }) := by
  rw [show ("Test data for filesystem simulation\n".data) = content from rfl] at hb ⊢
  rcases sw with ⟨b, dm, fm, sdm, sfm, um, lim, ff, fl⟩
  obtain rfl : b = _ := hb
  have habs : ∀ sw2 : Strict, sw2.base.active = none →
      (attempt_file_access strict sw2).res = Res.ret (-1) ∧
      ∃ e2, (attempt_file_access strict sw2).world =
        { sw2 with base := { sw2.base with errno := e2 } } := by
    rintro ⟨⟨a2, s2, fd2, e2⟩, dm2, fm2, sdm2, sfm2, um2, lim2, ff2, fl2⟩ ha
    simp only at ha
    subst ha
    obtain ⟨h1, h2⟩ := attempt_file_access_strict_absent dm2 fm2 sdm2 sfm2 um2 lim2 ff2 fl2
      s2 fd2 e2
    exact ⟨h1, _, h2⟩
  by_cases hok : ownerSearch dm = true ∧ ownerRead fm = true ∧ ff < fl
  · obtain ⟨hs, hr, hf⟩ := hok
    rw [attempt_file_access_strict_file _ _ _ _ _ _ _ _ _ _ _ _ hf hs hr, content_take,
      c_str_content, content_length]
    refine ⟨by simp [hs, hr, hf], Or.inl rfl, fun _ => ⟨?_, rfl⟩, ⟨e, rfl⟩, habs⟩
    simp [events, isSyscall]
  · have hbad : fl ≤ ff ∨ ownerSearch dm = false ∨ ownerRead fm = false := by
      by_cases h1 : ownerSearch dm = true
      · by_cases h2 : ownerRead fm = true
        · left
          by_contra h3
          exact hok ⟨h1, h2, by omega⟩
        · right; right
          simpa using h2
      · right; left
        simpa using h1
    obtain ⟨h1, h2⟩ := attempt_file_access_strict_refused dm fm sdm sfm um lim ff fl
      (Entry.file content) others s none e hbad
    rw [h1, h2]
    refine ⟨?_, Or.inr rfl, fun hh => ?_, ⟨_, rfl⟩, habs⟩
    · constructor
      · intro hh
        simp at hh
      · intro hh
        exact absurd hh hok
    · simp at hh

theorem probe_correct_witness :
    (attempt_file_access strict (permissive ⟨dataDir [], none, none, 0⟩)).res = Res.ret 0 ∧
    (attempt_file_access strict (permissive (cleanWorld 0))).res = Res.ret (-1) :=
  ⟨(probe_correct (permissive ⟨dataDir [], none, none, 0⟩) [] none 0 rfl).1.mpr
      ⟨by decide, by decide, by decide⟩,
    ((probe_correct (permissive ⟨dataDir [], none, none, 0⟩) [] none 0 rfl).2.2.2.2
      (permissive (cleanWorld 0)) rfl).1⟩

/-- A run that refutes claim C6 as the specification states it.  From a clean
start with the umask 0444, `create_test_environment` returns and leaves
`test_filesystem/data.txt` with the fixed content and the mode 0200; the probe
that follows finds the file but may not read it: `open` answers `EACCES` and
`attempt_file_access` returns `-1`.  The same happens, whatever the modes, when
no descriptor is free below the descriptor limit. -/
theorem probe_correct_counterexample :
    ((create_test_environment strict
        { permissive (cleanWorld 0) with umask := 0o444 }).res = Res.ret () ∧
      (create_test_environment strict
        { permissive (cleanWorld 0) with umask := 0o444 }).world.base.active =
        some (Node.dir
          ⟨some (Entry.file "Test data for filesystem simulation\n".data), []⟩) ∧
      (attempt_file_access strict (create_test_environment strict
        { permissive (cleanWorld 0) with umask := 0o444 }).world).res = Res.ret (-1)) ∧
    (attempt_file_access strict
      { permissive ⟨dataDir [], none, none, 0⟩ with firstFree := 1024 }).res = Res.ret (-1) := by
  have hA := create_strict_absent 493 420 493 420 292 2147483648 3 1024 none 0
    (by decide) (by decide) (by decide) (by decide)
  have hA2 := attempt_file_access_strict_refused (createdMode 493 292) (createdMode 420 292)
    493 420 292 2147483648 3 1024 (Entry.file (content.take 2147483648)) [] none none 0
    (Or.inr (Or.inr (by decide)))
  have hB := attempt_file_access_strict_refused 493 420 493 420 18 2147483648 1024 1024
    (Entry.file content) [] none none 0 (Or.inl (by decide))
  refine ⟨⟨?_, ?_, ?_⟩, ?_⟩
  · simp only [permissive, cleanWorld]
    rw [hA]
  · simp only [permissive, cleanWorld]
    rw [hA]
    decide
  · simp only [permissive, cleanWorld]
    rw [hA, hA2.1]
  · exact hB.1

end ClaimsModel

/-! ## The claim about the run from a clean start -/

section ClaimsScenario

theorem main_posix_clean (e : Int) :
    main posix (cleanWorld e) =
      ⟨Res.ret 0, ⟨none, none, none, ENOENT⟩,
        lineAt "Starting filesystem loss and recovery simulation\n" ⟨none, none, none, e⟩ ::
          ([(Event.mkdir TEST_DIR 493 0, ⟨some (Node.dir ⟨none, []⟩), none, none, e⟩),
            (Event.open_ TEST_FILE (O_CREAT ||| O_WRONLY ||| O_TRUNC) (some 420) 3,
              ⟨some (Node.dir ⟨some (Entry.file []), []⟩), none, some ⟨true, 0⟩, e⟩),
            (Event.write 3 content content.length content.length,
              ⟨some (Node.dir ⟨some (Entry.file content), []⟩), none,
                some ⟨true, content.length⟩, e⟩),
            (Event.close 3 0, ⟨some (Node.dir ⟨some (Entry.file content), []⟩), none, none, e⟩),
            (Event.printf "Test environment created: %s\n" [Arg.str TEST_FILE],
              ⟨some (Node.dir ⟨some (Entry.file content), []⟩), none, none, e⟩)] ++
          (middleLog [] none e ++
            ([(Event.unlink TEST_FILE 0, ⟨some (Node.dir ⟨none, []⟩), none, none, ENOENT⟩),
              (Event.rmdir TEST_DIR 0, ⟨none, none, none, ENOENT⟩),
              (Event.rmdir TEMP_DIR (-1), ⟨none, none, none, ENOENT⟩),
              (Event.printf "Cleanup completed\n" [], ⟨none, none, none, ENOENT⟩)] ++
              [lineAt "Simulation completed successfully\n" ⟨none, none, none, ENOENT⟩])))⟩ := by
  rw [cleanWorld, main_posix_run none none e [] e _ rfl (create_posix_absent none e),
    cleanup_posix_data]

set_option maxRecDepth 8000 in
/-- Claim C9. In the model, from a start with neither `test_filesystem` nor
`test_filesystem_tmp`: `main` ends with status 0 in a world with neither path;
its system calls are those of provisioning, of a successful probe reading 36
bytes, of the rename to the shadow path, ten times a failing `open` and a
`sleep(2)`, of the rename back, of a second successful probe, and of `cleanup`;
both successful probes print the fixed content, and `main` prints the lines on
the success before the loss and after the recovery. -/
theorem scenario_clean_start (e : Int) :
    exitStatus (main posix (cleanWorld e)).res = some 0 ∧
    (main posix (cleanWorld e)).world = ⟨none, none, none, ENOENT⟩ ∧
    (events (main posix (cleanWorld e)).trace).filter isSyscall =
      [Event.mkdir TEST_DIR 493 0,
       Event.open_ TEST_FILE (O_CREAT ||| O_WRONLY ||| O_TRUNC) (some 420) 3,
       Event.write 3 "Test data for filesystem simulation\n".data 36 36,
       Event.close 3 0,
       Event.open_ TEST_FILE O_RDONLY none 3, Event.read 3 255 36, Event.close 3 0,
       Event.rename TEST_DIR TEMP_DIR 0] ++
      ((List.replicate 10 [Event.open_ TEST_FILE O_RDONLY none (-1), Event.sleep 2]).flatten ++
      [Event.rename TEMP_DIR TEST_DIR 0,
       Event.open_ TEST_FILE O_RDONLY none 3, Event.read 3 255 36, Event.close 3 0,
       Event.unlink TEST_FILE 0, Event.rmdir TEST_DIR 0, Event.rmdir TEMP_DIR (-1)]) ∧
    (events (main posix (cleanWorld e)).trace).filter isProbeSuccess =
      [Event.printf "Successfully read from file: %s"
         [Arg.buf "Test data for filesystem simulation\n".data],
       Event.printf "Successfully read from file: %s"
         [Arg.buf "Test data for filesystem simulation\n".data]] ∧
    probes (main posix (cleanWorld e)).trace = 12 ∧
    failures (main posix (cleanWorld e)).trace = 10 ∧
    Event.printf "File access successful before loss\n" [] ∈
      events (main posix (cleanWorld e)).trace ∧
    Event.printf "File access successful after recovery\n" [] ∈
      events (main posix (cleanWorld e)).trace := by
  rw [main_posix_clean]
  have hc : content = "Test data for filesystem simulation\n".data := rfl
  refine ⟨rfl, rfl, ?_, ?_, ?_, ?_, ?_, ?_⟩
  · simp [middleLog, probeLog, failedRounds, failedRound, lineAt, isSyscall, MAX_ATTEMPTS,
      content_length, SLEEP_INTERVAL, hc]
  · simp [middleLog, probeLog, failedRounds, failedRound, lineAt, isProbeSuccess, MAX_ATTEMPTS,
      hc]
  · simp [probes, middleLog, probeLog, failedRounds, failedRound, lineAt, isProbe,
      MAX_ATTEMPTS, List.countP_cons]
  · simp [failures, middleLog, probeLog, failedRounds, failedRound, lineAt, isProbeFailure,
      MAX_ATTEMPTS, List.countP_cons]
  · simp [middleLog, lineAt]
  · simp [middleLog, lineAt]

end ClaimsScenario

/-! ## The claim about the exit status -/

section ClaimExit
variable {σ : Type}

theorem main_semantic {os : OS σ} {w : σ} {R : Run σ Int} (h : MainShape os w R)
    (hos : ReadOk os) :
    (R.res = Res.ret 0 ↔
      (create_test_environment os w).res = Res.ret () ∧
      (simulate_filesystem_loss os (worldProbed os w)).res = Res.ret () ∧
      (simulate_filesystem_recovery os (worldPolled os w)).res = Res.ret () ∧
      (attempt_file_access os (worldRecovered os w)).res = Res.ret 0) ∧
    ((create_test_environment os w).res = Res.ret () ∧
      (simulate_filesystem_loss os (worldProbed os w)).res = Res.ret () ∧
      (simulate_filesystem_recovery os (worldPolled os w)).res = Res.ret () ∧
      (attempt_file_access os (worldRecovered os w)).res ≠ Res.ret 0 →
      R.res = Res.exit EXIT_FAILURE ∧
      R.world = (cleanup os (worldVerified os w)).world ∧
      ∃ t, R.trace = t ++
        lineAt "Attempting file access after recovery...\n" (worldRecovered os w) ::
          ((attempt_file_access os (worldRecovered os w)).trace ++
            lineAt "File access failed after recovery\n" (worldVerified os w) ::
              (cleanup os (worldVerified os w)).trace)) := by
  cases h with
  | provision wC tC hC =>
    simp [hC]
  | probeBefore wC tC wP tP hC hP =>
    have := attempt_file_access_returns os hos wC
    rw [hP] at this
    simp at this
  | loss wC tC r wP tP wL tL hC hP hL =>
    simp [worldProbed, worldCreated, hC, hP, hL]
  | loop wC tC r wP tP wL tL wLp tLp hC hP hL hLp =>
    obtain ⟨k, hk⟩ := retry_loop_returns os hos 0 wL
    rw [hLp] at hk
    simp at hk
  | recovery wC tC r wP tP wL tL k wLp tLp wR tR hC hP hL hLp hR =>
    simp [worldProbed, worldCreated, worldLost, worldPolled, hC, hP, hL, hLp, hR]
  | probeAfter wC tC r wP tP wL tL k wLp tLp wR tR wQ tQ hC hP hL hLp hR hQ =>
    have := attempt_file_access_returns os hos wR
    rw [hQ] at this
    simp at this
  | failed wC tC r wP tP wL tL k wLp tLp wR tR q wQ tQ hC hP hL hLp hR hQ hq =>
    simp only [worldProbed, worldCreated, worldLost, worldPolled, worldRecovered,
      worldVerified, hC, hP, hL, hLp, hR, hQ]
    refine ⟨by simp [hq], fun _ => ?_⟩
    refine ⟨by simp [EXIT_FAILURE], by simp, ?_⟩
    exact ⟨logToLoop w tC wC tP r wP tL wL tLp ++ tR, by simp⟩
  | success wC tC r wP tP wL tL k wLp tLp wR tR wQ tQ hC hP hL hLp hR hQ =>
    simp [worldProbed, worldCreated, worldLost, worldPolled, worldRecovered, hC, hP, hL, hLp,
      hR, hQ]

theorem simulate_filesystem_loss_ok (os : OS σ) (w : σ) :
    (simulate_filesystem_loss os w).res = Res.ret () ↔ (os.rename TEST_DIR TEMP_DIR w).1 ≠ -1 := by
  rw [simulate_filesystem_loss_run]
  split_ifs with h <;> simp [h]

theorem simulate_filesystem_recovery_ok (os : OS σ) (w : σ) :
    (simulate_filesystem_recovery os w).res = Res.ret () ↔
      (os.rename TEMP_DIR TEST_DIR w).1 ≠ -1 := by
  rw [simulate_filesystem_recovery_run]
  split_ifs with h <;> simp [h]

/-- Claim C8. For every behaviour of the system calls in which `read` keeps its
contract, and every starting world: `main` ends with status 0 exactly when the
call of `create_test_environment` returns, the call of
`simulate_filesystem_loss` returns (its `rename` of the directory to the
temporary name did not answer `-1`), the call of
`simulate_filesystem_recovery` returns (its `rename` back did not answer `-1`)
and the call of `attempt_file_access` made after the recovery returns `0`, each
call taken in the world the calls before it left; the results of the probe
before the loss, of the probes of the retry loop and of `cleanup` are not among
the conditions, and none of these calls ends the process; every other run ends
by `exit(EXIT_FAILURE)` with `EXIT_FAILURE = 1`; and when the three steps
succeed and the probe after the recovery does not return `0`, the run ends with
status 1 in the world `cleanup` left, its log ending with the line that
announces the probe, the log of that probe, the line on the failure and the
whole log of `cleanup`. -/
theorem main_exit_status (os : OS σ) (hos : ReadOk os) (w : σ) :
    (exitStatus (main os w).res = some 0 ↔
      (create_test_environment os w).res = Res.ret () ∧
      (simulate_filesystem_loss os (worldProbed os w)).res = Res.ret () ∧
      (simulate_filesystem_recovery os (worldPolled os w)).res = Res.ret () ∧
      (attempt_file_access os (worldRecovered os w)).res = Res.ret 0) ∧
    (∀ w1, ((simulate_filesystem_loss os w1).res = Res.ret () ↔
        (os.rename TEST_DIR TEMP_DIR w1).1 ≠ -1) ∧
      ((simulate_filesystem_recovery os w1).res = Res.ret () ↔
        (os.rename TEMP_DIR TEST_DIR w1).1 ≠ -1)) ∧
    ((main os w).res = Res.ret 0 ∨ (main os w).res = Res.exit EXIT_FAILURE) ∧
    EXIT_FAILURE = 1 ∧
    (∀ w1, ((attempt_file_access os w1).res = Res.ret 0 ∨
        (attempt_file_access os w1).res = Res.ret (-1)) ∧
      (∃ k, (retry_loop os 0 w1).res = Res.ret k) ∧ (cleanup os w1).res = Res.ret ()) ∧
    ((create_test_environment os w).res = Res.ret () ∧
      (simulate_filesystem_loss os (worldProbed os w)).res = Res.ret () ∧
      (simulate_filesystem_recovery os (worldPolled os w)).res = Res.ret () ∧
      (attempt_file_access os (worldRecovered os w)).res ≠ Res.ret 0 →
      exitStatus (main os w).res = some 1 ∧
      (main os w).world = (cleanup os (worldVerified os w)).world ∧
      ∃ t, (main os w).trace = t ++
        lineAt "Attempting file access after recovery...\n" (worldRecovered os w) ::
          ((attempt_file_access os (worldRecovered os w)).trace ++
            lineAt "File access failed after recovery\n" (worldVerified os w) ::
              (cleanup os (worldVerified os w)).trace)) := by
  obtain ⟨h1, h2⟩ := main_semantic (main_shape os w) hos
  refine ⟨?_, fun w1 => ⟨simulate_filesystem_loss_ok os w1,
    simulate_filesystem_recovery_ok os w1⟩, ?_, rfl,
    fun w1 => ⟨attempt_file_access_returns os hos w1, retry_loop_returns os hos 0 w1,
      cleanup_res os w1⟩, ?_⟩
  · rw [← h1]
    exact exitStatus_zero os w
  · rcases (main_verdict (main_shape os w)).2.1 with h | h | h
    · exact Or.inl h
    · exact Or.inr h
    · exact absurd h (main_no_fault os hos w)
  · intro hb
    obtain ⟨h4, h5, h6⟩ := h2 hb
    exact ⟨by rw [h4]; rfl, h5, h6⟩

theorem main_exit_status_witness :
    ReadOk posix ∧
    (attempt_file_access posix (worldRecovered posix (cleanWorld 0))).res = Res.ret 0 ∧
    exitStatus (main posix (cleanWorld 0)).res = some 0 :=
  have h := ((main_exit_status posix posix_readOk (cleanWorld 0)).1.1
    (by rw [main_posix_clean 0]; rfl))
  ⟨posix_readOk, h.2.2.2, by rw [main_posix_clean 0]; rfl⟩

end ClaimExit

/-! ## The claim about the two paths -/

section ClaimsToggle

theorem exit_zero_created (w : World) (h : exitStatus (main posix w).res = some 0) :
    (create_test_environment posix w).res = Res.ret () :=
  ((main_verdict (main_shape posix w)).1.mp ((exitStatus_zero posix w).mp h)).1

/-- The window from the first `mkdir` to the first `rmdir` of a log of the
shape of a full run of `main`. -/
theorem provisioned_eq (x0 xM xU xR : Event × World) (tC tM rest : List (Event × World))
    (h0 : isMkdir x0.1 = false) (hM : isMkdir xM.1 = true) (hM2 : isRmdir xM.1 = false)
    (hC : ∀ x ∈ tC, isRmdir x.1 = false) (hMid : ∀ x ∈ tM, isRmdir x.1 = false)
    (hU : isRmdir xU.1 = false) (hR : isRmdir xR.1 = true) :
    provisioned (x0 :: ((xM :: tC) ++ (tM ++ (xU :: xR :: rest)))) =
      xM :: (tC ++ (tM ++ [xU])) := by
  unfold provisioned
  rw [List.dropWhile_cons_of_pos (by simp [h0]), List.cons_append,
    List.dropWhile_cons_of_neg (by simp [hM]), List.takeWhile_cons_of_pos (by simp [hM2])]
  have e1 : tC ++ (tM ++ xU :: xR :: rest) = (tC ++ (tM ++ [xU])) ++ (xR :: rest) := by simp
  rw [e1, List.takeWhile_append_of_pos, List.takeWhile_cons_of_neg (by simp [hR]),
    List.append_nil]
  intro x hx
  simp only [List.mem_append, List.mem_singleton] at hx
  rcases hx with hx | hx | rfl
  · simp [hC x hx]
  · simp [hMid x hx]
  · simp [hU]

set_option maxRecDepth 8000 in
theorem middleLog_noRmdir (others : List String) (s : Option Node) (e : Int) :
    ∀ x ∈ middleLog others s e, isRmdir x.1 = false := by
  simp [middleLog, probeLog, failedRounds, failedRound, lineAt, isRmdir, MAX_ATTEMPTS]

set_option maxRecDepth 8000 in
theorem middleLog_exclusive (others : List String) (e : Int) :
    ∀ x ∈ middleLog others none e, exactlyOne x.2 = true := by
  simp [middleLog, probeLog, failedRounds, failedRound, lineAt, exactlyOne, dataDir,
    MAX_ATTEMPTS]

set_option maxRecDepth 8000 in
theorem middleLog_renames (others : List String) (e : Int) :
    (events (middleLog others none e)).any (isRenameOk TEST_DIR TEMP_DIR) = true ∧
    (events (middleLog others none e)).any (isRenameOk TEMP_DIR TEST_DIR) = true := by
  simp [middleLog, lineAt, isRenameOk]

set_option maxRecDepth 8000 in
/-- The window from the first `mkdir` to the first `rmdir` in the log of a
full run of `main` in the model. -/
theorem provisioned_main (a s : Option Node) (e : Int) (others : List String) (e1 r : Int)
    (wM : World) (tC : List (Event × World))
    (hs : renameNode (Node.dir ⟨some (Entry.file content), others⟩) s =
      Except.ok (Node.dir ⟨some (Entry.file content), others⟩))
    (hC : create_test_environment posix ⟨a, s, none, e⟩ =
      ⟨Res.ret (), ⟨dataDir others, s, none, e1⟩, (Event.mkdir TEST_DIR 493 r, wM) :: tC⟩)
    (hq : ∀ x ∈ tC, isRmdir x.1 = false) :
    provisioned (main posix ⟨a, s, none, e⟩).trace =
      (Event.mkdir TEST_DIR 493 r, wM) :: (tC ++ (middleLog others s e1 ++
        [(Event.unlink TEST_FILE 0,
          (⟨some (Node.dir ⟨none, others⟩), none, none, ENOENT⟩ : World))])) := by
  have hU : cleanupUnlink posix ⟨dataDir others, none, none, ENOENT⟩ =
      (0, ⟨some (Node.dir ⟨none, others⟩), none, none, ENOENT⟩) := by
    simp [cleanupUnlink, posix_unlink_eq, posix_unlink, dataDir]
  have h01 : ((0 : Int) = -1) = False := by simp
  rw [main_posix_run a s e others e1 _ hs hC, cleanup_run]
  simp only [hU, h01, false_and, if_false, List.nil_append, List.cons_append]
  exact provisioned_eq _ _ _ _ _ _ _ rfl rfl rfl hq (middleLog_noRmdir others s e1) rfl rfl

theorem provisioned_exclusive (a : Option Node) (e : Int) (others : List String) (e1 r : Int)
    (wM : World) (tC : List (Event × World)) (hM : exactlyOne wM = true)
    (hC : create_test_environment posix ⟨a, none, none, e⟩ =
      ⟨Res.ret (), ⟨dataDir others, none, none, e1⟩,
        (Event.mkdir TEST_DIR 493 r, wM) :: tC⟩)
    (hq : ∀ x ∈ tC, isRmdir x.1 = false ∧ exactlyOne x.2 = true) :
    (∀ x ∈ provisioned (main posix ⟨a, none, none, e⟩).trace, exactlyOne x.2 = true) ∧
    (events (provisioned (main posix ⟨a, none, none, e⟩).trace)).any
      (isRenameOk TEST_DIR TEMP_DIR) = true ∧
    (events (provisioned (main posix ⟨a, none, none, e⟩).trace)).any
      (isRenameOk TEMP_DIR TEST_DIR) = true := by
  rw [provisioned_main a none e others e1 r wM tC rfl hC (fun x hx => (hq x hx).1)]
  refine ⟨?_, ?_, ?_⟩
  · intro x hx
    simp only [List.mem_cons, List.mem_append, List.not_mem_nil, or_false] at hx
    rcases hx with rfl | hx | hx | rfl
    · exact hM
    · exact (hq x hx).2
    · exact middleLog_exclusive others e1 x hx
    · rfl
  · simp [(middleLog_renames others e1).1]
  · simp [(middleLog_renames others e1).2]

/-- Claim C4, as amended. In the model, in a run of `main` that starts without
`test_filesystem_tmp` and ends with status 0, at every point from the return of
the `mkdir` of provisioning up to the first `rmdir` of `cleanup` exactly one of
`test_filesystem` and `test_filesystem_tmp` exists; this window holds both
renames. -/
theorem toggle_exclusive_window (a : Option Node) (e : Int)
    (h : exitStatus (main posix ⟨a, none, none, e⟩).res = some 0) :
    (∀ x ∈ provisioned (main posix ⟨a, none, none, e⟩).trace, exactlyOne x.2 = true) ∧
    (events (provisioned (main posix ⟨a, none, none, e⟩).trace)).any
      (isRenameOk TEST_DIR TEMP_DIR) = true ∧
    (events (provisioned (main posix ⟨a, none, none, e⟩).trace)).any
      (isRenameOk TEMP_DIR TEST_DIR) = true := by
  obtain ⟨_, ha⟩ := create_posix_fails _ (exit_zero_created _ h)
  simp only at ha
  rcases ha with rfl | ⟨d, o, rfl, hd⟩
  · exact provisioned_exclusive none e [] e 0 ⟨some (Node.dir ⟨none, []⟩), none, none, e⟩ _ rfl
      (create_posix_absent none e) (by simp [isRmdir, exactlyOne])
  · exact provisioned_exclusive _ e o EEXIST (-1)
      ⟨some (Node.dir ⟨d, o⟩), none, none, EEXIST⟩ _ rfl
      (create_posix_present d o none e hd) (by simp [isRmdir, exactlyOne])

theorem toggle_exclusive_window_witness :
    exitStatus (main posix (cleanWorld 0)).res = some 0 ∧
    ∀ x ∈ provisioned (main posix (cleanWorld 0)).trace, exactlyOne x.2 = true :=
  ⟨by rw [main_posix_clean]; rfl,
    (toggle_exclusive_window none 0 (by rw [← cleanWorld, main_posix_clean]; rfl)).1⟩

set_option maxRecDepth 8000 in
/-- Claim C4 as stated fails in the model.  From a clean start `main` ends with
status 0, yet neither path exists at its first point (before any system call)
nor in its final world.  And when `test_filesystem_tmp` is an empty directory at
the start, `main` also ends with status 0, yet both paths exist right after the
`mkdir` of provisioning. -/
theorem toggle_exclusive_counterexample :
    exitStatus (main posix (cleanWorld 0)).res = some 0 ∧
    (main posix (cleanWorld 0)).trace.head? =
      some (lineAt "Starting filesystem loss and recovery simulation\n" (cleanWorld 0)) ∧
    exactlyOne (cleanWorld 0) = false ∧
    exactlyOne (main posix (cleanWorld 0)).world = false ∧
    ¬(∀ x ∈ (main posix (cleanWorld 0)).trace, exactlyOne x.2 = true) ∧
    exitStatus (main posix ⟨none, some (Node.dir ⟨none, []⟩), none, 0⟩).res = some 0 ∧
    (provisioned (main posix ⟨none, some (Node.dir ⟨none, []⟩), none, 0⟩).trace).head? =
      some (Event.mkdir TEST_DIR 493 0,
        ⟨some (Node.dir ⟨none, []⟩), some (Node.dir ⟨none, []⟩), none, 0⟩) ∧
    ¬(∀ x ∈ provisioned (main posix ⟨none, some (Node.dir ⟨none, []⟩), none, 0⟩).trace,
      exactlyOne x.2 = true) := by
  have hB := main_posix_run none (some (Node.dir ⟨none, []⟩)) 0 [] 0 _ rfl
    (create_posix_absent (some (Node.dir ⟨none, []⟩)) 0)
  have hBp := provisioned_main none (some (Node.dir ⟨none, []⟩)) 0 [] 0 0 _ _ rfl
    (create_posix_absent (some (Node.dir ⟨none, []⟩)) 0) (by simp [isRmdir])
  refine ⟨?_, ?_, rfl, ?_, ?_, ?_, ?_, ?_⟩
  · rw [main_posix_clean]; rfl
  · rw [main_posix_clean]; rfl
  · rw [main_posix_clean]; rfl
  · rw [main_posix_clean]
    intro hall
    have := hall _ (List.mem_cons_self _ _)
    simp [lineAt, exactlyOne] at this
  · rw [hB]; rfl
  · rw [hBp]; rfl
  · rw [hBp]
    intro hall
    have := hall _ (List.mem_cons_self _ _)
    simp [exactlyOne] at this

end ClaimsToggle

end Task23
